import Mathlib

/-!
# The rep-sharing cache of fsx (`subversion/libsvn_fs_x/rep-cache.c`)

A shallow embedding of the library-private API of the rep-cache:
`svn_fs_x__open_rep_cache`, `svn_fs_x__get_rep_reference`,
`svn_fs_x__set_rep_reference`, `svn_fs_x__walk_rep_reference` and
`svn_fs_x__del_rep_reference`.

The C functions talk to SQLite through `private/svn_sqlite.h` and to the rest of
the filesystem through a handful of helpers.  Neither is part of the embedded
sources, so the functions below are written against two explicit collaborators:

* `svn_sqlite σ δ` : the embedded-store operations (open / get-statement / bind /
  step / column / reset / insert), acting on a store state `σ`;
* `collaborators`  : checksum rendering and parsing, `svn_fs_x__get_revnum` and
  the revision-existence oracle `svn_fs_x__ensure_revision_exists`.

`table_sqlite` is the in-memory keyed-table realisation of the store.

Conventions: `svn_error_t *` results are `Option svn_error_t` (`none` is
`SVN_NO_ERROR`); a function with an out-parameter returns `Except`; the store
state is threaded explicitly, so everything a failing call leaves behind stays
visible.  APR pools carry no meaning here and are dropped.
-/

namespace RepCache

/-! ## Errors -/

/-- The error codes that occur in rep-cache.c, and `other` for every code that
the collaborators may raise. -/
inductive apr_status_t where
  | SVN_ERR_BAD_CHECKSUM_KIND
  | SVN_ERR_FS_CORRUPT
  | SVN_ERR_SQLITE_CONSTRAINT
  | SVN_ERR_ASSERTION_FAIL
  | other (code : Nat)
  deriving DecidableEq, Repr

/-- One link of an error chain below its head. -/
structure err_link where
  apr_err : apr_status_t
  message : String
  deriving DecidableEq, Repr

/-- An `svn_error_t`: the head's code and message and the chain of child errors
hanging off it. -/
structure svn_error_t where
  apr_err : apr_status_t
  message : String
  child : List err_link
  deriving DecidableEq, Repr

/-- The call `svn_error_create(apr_err, NULL, message)`. -/
def svn_error_create (apr_err : apr_status_t) (message : String) : svn_error_t :=
  { apr_err := apr_err, message := message, child := [] }

/-- The call `svn_error_quick_wrap(err, msg)`: a new head with the code of `err` and the
new message; `NULL` stays `NULL`. -/
def svn_error_quick_wrap (err : Option svn_error_t) (msg : String) : Option svn_error_t :=
  match err with
  | none => none
  | some e =>
    some { apr_err := e.apr_err, message := msg,
           child := { apr_err := e.apr_err, message := e.message } :: e.child }

/-- The call `svn_error_compose_create(err1, err2)`: `err2` is appended to the chain of
`err1`; when one of them is `NULL` the other is returned. -/
def svn_error_compose_create (err1 err2 : Option svn_error_t) : Option svn_error_t :=
  match err1, err2 with
  | some e1, some e2 =>
    some { e1 with child := e1.child ++ { apr_err := e2.apr_err, message := e2.message } :: e2.child }
  | some e1, none => some e1
  | none, e2 => e2

/-- The error `SVN_ERR_ASSERT(expr)` returns when `expr` is false. -/
def assertion_failed (expr : String) : svn_error_t :=
  svn_error_create .SVN_ERR_ASSERTION_FAIL expr

/-! ## Machine integers -/

/-- The cast `(apr_int64_t) n` of an unsigned 64-bit value. -/
def to_int64 (n : Nat) : Int :=
  if n % 2 ^ 64 < 2 ^ 63 then ((n % 2 ^ 64 : Nat) : Int) else ((n % 2 ^ 64 : Nat) : Int) - 2 ^ 64

/-- The conversion of a signed 64-bit value to `apr_uint64_t`. -/
def to_uint64 (i : Int) : Nat :=
  (i % 2 ^ 64).toNat

/-! ## Checksums and representations -/

inductive svn_checksum_kind_t where
  | svn_checksum_md5
  | svn_checksum_sha1
  deriving DecidableEq, Repr

/-- A checksum: its kind and its digest bytes. -/
structure svn_checksum_t where
  kind : svn_checksum_kind_t
  digest : List Nat
  deriving DecidableEq, Repr

/-- The id part `(change_set, number)`: for a representation that lives in a
revision, the revision and the item index within it.  `change_set` is an
`apr_int64_t`, `number` an `apr_uint64_t`. -/
structure svn_fs_x__id_part_t where
  change_set : Int
  number : Nat
  deriving DecidableEq, Repr

/-- Equality of id parts, `svn_fs_x__id_part_eq`. -/
def svn_fs_x__id_part_eq (lhs rhs : svn_fs_x__id_part_t) : Bool :=
  decide (lhs.change_set = rhs.change_set) && decide (lhs.number = rhs.number)

/-- The fields of `representation_t` (see `fs.h`): the digests are byte arrays of
`APR_SHA1_DIGESTSIZE` and `APR_MD5_DIGESTSIZE` bytes, `size` and `expanded_size`
are `svn_filesize_t`. -/
structure representation_t where
  has_sha1 : Bool
  sha1_digest : List Nat
  md5_digest : List Nat
  id : svn_fs_x__id_part_t
  size : Int
  expanded_size : Int
  deriving DecidableEq, Repr

def APR_SHA1_DIGESTSIZE : Nat := 20

def APR_MD5_DIGESTSIZE : Nat := 16

/-- The result of `apr_pcalloc(pool, sizeof(representation_t))`: all bytes zero. -/
def zeroed_representation : representation_t :=
  { has_sha1 := false
    sha1_digest := List.replicate APR_SHA1_DIGESTSIZE 0
    md5_digest := List.replicate APR_MD5_DIGESTSIZE 0
    id := { change_set := 0, number := 0 }
    size := 0
    expanded_size := 0 }

/-! ## Collaborators -/

/-- The helpers rep-cache.c consumes from the rest of the library.
`svn_checksum_parse_hex` is the parse with kind SHA-1 and yields the digest. -/
structure collaborators where
  svn_checksum_to_cstring : svn_checksum_t → String
  svn_checksum_to_cstring_display : svn_checksum_t → String
  svn_checksum_parse_hex : String → Except svn_error_t (List Nat)
  svn_fs_x__get_revnum : Int → Int
  svn_fs_x__ensure_revision_exists : Int → Option svn_error_t

/-- The prepared statements of rep-cache-db.h that the embedded functions use. -/
inductive stmt_idx where
  | STMT_CREATE_SCHEMA
  | STMT_GET_REP
  | STMT_SET_REP
  | STMT_GET_REPS_FOR_RANGE
  | STMT_GET_MAX_REV
  | STMT_DEL_REPS_YOUNGER_THAN_REV
  deriving DecidableEq, Repr

/-- A value bound to a statement parameter or read from a column. -/
inductive sql_value where
  | null
  | integer (i : Int)
  | text (s : String)
  deriving DecidableEq, Repr

/-- The operations of `private/svn_sqlite.h` used by rep-cache.c, over a store
state `σ` and a database handle `δ`.  A statement of the one database of a
filesystem is identified by its index.  Every operation returns the store state
it leaves behind, also when it fails. -/
structure svn_sqlite (σ δ : Type) where
  svn_sqlite__open : String → σ → Except svn_error_t δ × σ
  svn_sqlite__read_schema_version : δ → σ → Except svn_error_t Int × σ
  svn_sqlite__exec_statements : δ → stmt_idx → σ → Option svn_error_t × σ
  svn_sqlite__get_statement : Option δ → stmt_idx → σ → Option svn_error_t × σ
  svn_sqlite__bindf : stmt_idx → List sql_value → σ → Option svn_error_t × σ
  svn_sqlite__step : stmt_idx → σ → Except svn_error_t Bool × σ
  svn_sqlite__step_done : stmt_idx → σ → Option svn_error_t × σ
  svn_sqlite__insert : stmt_idx → σ → Option svn_error_t × σ
  svn_sqlite__reset : stmt_idx → σ → Option svn_error_t × σ
  svn_sqlite__column_text : stmt_idx → Nat → σ → String
  svn_sqlite__column_revnum : stmt_idx → Nat → σ → Int
  svn_sqlite__column_int64 : stmt_idx → Nat → σ → Int

/-! ## The filesystem object -/

/-- The state of the one-time initialisation gate `ffd->rep_cache_db_opened`, as
seen between (sequential) calls. -/
inductive svn_atomic_t where
  | uninitialized
  | initialized
  | init_failed (err : svn_error_t)
  deriving DecidableEq, Repr

/-- What rep-cache.c reads and writes of an `svn_fs_t` and its `fs_x_data_t`:
`fs->path`, `ffd->rep_sharing_allowed`, `ffd->rep_cache_db`,
`ffd->rep_cache_db_opened`, and the state of the embedded store. -/
structure svn_fs_t (σ δ : Type) where
  path : String
  rep_sharing_allowed : Bool
  rep_cache_db : Option δ
  rep_cache_db_opened : svn_atomic_t
  store : σ

def REP_CACHE_SCHEMA_FORMAT : Int := 1

def REP_CACHE_DB_NAME : String := "rep-cache.db"

/-- Stands for `svn_dirent_join(fs_path, REP_CACHE_DB_NAME, pool)`. -/
def path_rep_cache_db (fs_path : String) : String :=
  fs_path ++ "/" ++ REP_CACHE_DB_NAME

/-- Check that REP refers to a revision that exists in FS. -/
def rep_has_been_born (env : collaborators) (rep : representation_t) : Option svn_error_t :=
  env.svn_fs_x__ensure_revision_exists (env.svn_fs_x__get_revnum rep.id.change_set)

/-- Body of `svn_fs_x__open_rep_cache`: open (or create) the database, create
the schema when the version is below `REP_CACHE_SCHEMA_FORMAT`, and only then
publish the handle in `ffd->rep_cache_db`. -/
def open_rep_cache {σ δ : Type} (sq : svn_sqlite σ δ) (fs : svn_fs_t σ δ) :
    Option svn_error_t × svn_fs_t σ δ :=
  match sq.svn_sqlite__open (path_rep_cache_db fs.path) fs.store with
  | (.error e, s1) => (some e, { fs with store := s1 })
  | (.ok sdb, s1) =>
    match sq.svn_sqlite__read_schema_version sdb s1 with
    | (.error e, s2) => (some e, { fs with store := s2 })
    | (.ok version, s2) =>
      if version < REP_CACHE_SCHEMA_FORMAT then
        match sq.svn_sqlite__exec_statements sdb .STMT_CREATE_SCHEMA s2 with
        | (some e, s3) => (some e, { fs with store := s3 })
        | (none, s3) => (none, { fs with store := s3, rep_cache_db := some sdb })
      else
        (none, { fs with store := s2, rep_cache_db := some sdb })

/-- Modelled from the spec: `svn_atomic__init_once` (libsvn_subr, not among the
sources), as the one-time-initialisation gate of the spec seen by sequential
callers: the first caller runs the initialiser and records its outcome; later
callers reuse the result, or fail identically if the first attempt failed. -/
def svn_atomic__init_once {σ δ : Type} (init_func : svn_fs_t σ δ → Option svn_error_t × svn_fs_t σ δ)
    (fs : svn_fs_t σ δ) : Option svn_error_t × svn_fs_t σ δ :=
  match fs.rep_cache_db_opened with
  | .initialized => (none, fs)
  | .init_failed e => (some e, fs)
  | .uninitialized =>
    match init_func fs with
    | (some e, fs1) => (some e, { fs1 with rep_cache_db_opened := .init_failed e })
    | (none, fs1) => (none, { fs1 with rep_cache_db_opened := .initialized })

def svn_fs_x__open_rep_cache {σ δ : Type} (sq : svn_sqlite σ δ) (fs : svn_fs_t σ δ) :
    Option svn_error_t × svn_fs_t σ δ :=
  match svn_atomic__init_once (open_rep_cache sq) fs with
  | (err, fs1) => (svn_error_quick_wrap err "Couldn\x27t open rep-cache database", fs1)

/-- The recurring `if (! ffd->rep_cache_db) SVN_ERR(svn_fs_x__open_rep_cache(fs, pool));`. -/
def open_if_needed {σ δ : Type} (sq : svn_sqlite σ δ) (fs : svn_fs_t σ δ) :
    Option svn_error_t × svn_fs_t σ δ :=
  match fs.rep_cache_db with
  | some _ => (none, fs)
  | none => svn_fs_x__open_rep_cache sq fs

/-- The error both `svn_fs_x__get_rep_reference` and `svn_fs_x__set_rep_reference`
create for a key that is not a SHA-1 checksum. -/
def bad_checksum_kind_error : svn_error_t :=
  svn_error_create .SVN_ERR_BAD_CHECKSUM_KIND
    "Only SHA1 checksums can be used as keys in the rep_cache table.\n"

def svn_fs_x__get_rep_reference {σ δ : Type} (sq : svn_sqlite σ δ) (env : collaborators)
    (fs : svn_fs_t σ δ) (checksum : svn_checksum_t) :
    Except svn_error_t (Option representation_t) × svn_fs_t σ δ :=
  if fs.rep_sharing_allowed = false then
    (.error (assertion_failed "ffd->rep_sharing_allowed"), fs)
  else
  match open_if_needed sq fs with
  | (some e, fs1) => (.error e, fs1)
  | (none, fs1) =>
  /- We only allow SHA1 checksums in this table. -/
  if checksum.kind ≠ .svn_checksum_sha1 then
    (.error bad_checksum_kind_error, fs1)
  else
  match sq.svn_sqlite__get_statement fs1.rep_cache_db .STMT_GET_REP fs1.store with
  | (some e, s1) => (.error e, { fs1 with store := s1 })
  | (none, s1) =>
  match sq.svn_sqlite__bindf .STMT_GET_REP [.text (env.svn_checksum_to_cstring checksum)] s1 with
  | (some e, s2) => (.error e, { fs1 with store := s2 })
  | (none, s2) =>
  match sq.svn_sqlite__step .STMT_GET_REP s2 with
  | (.error e, s3) => (.error e, { fs1 with store := s3 })
  | (.ok have_row, s3) =>
    let rep : Option representation_t :=
      if have_row then
        some { zeroed_representation with
               sha1_digest := checksum.digest
               has_sha1 := true
               id := { change_set := sq.svn_sqlite__column_revnum .STMT_GET_REP 0 s3
                       number := to_uint64 (sq.svn_sqlite__column_int64 .STMT_GET_REP 1 s3) }
               size := sq.svn_sqlite__column_int64 .STMT_GET_REP 2 s3
               expanded_size := sq.svn_sqlite__column_int64 .STMT_GET_REP 3 s3 }
      else none
    match sq.svn_sqlite__reset .STMT_GET_REP s3 with
    | (some e, s4) => (.error e, { fs1 with store := s4 })
    | (none, s4) =>
      match rep with
      | none => (.ok none, { fs1 with store := s4 })
      | some r =>
        match rep_has_been_born env r with
        | some e => (.error e, { fs1 with store := s4 })
        | none => (.ok (some r), { fs1 with store := s4 })

/-- The text `(%ld,%<off_t>,%<filesize>,%<filesize>)` that the conflict message
prints for one representation; all four conversions are signed decimal. -/
def tuple_text (rep : representation_t) : String :=
  "(" ++ toString rep.id.change_set ++ "," ++ toString (to_int64 rep.id.number) ++ ","
    ++ toString rep.size ++ "," ++ toString rep.expanded_size ++ ")"

/-- The message of the `SVN_ERR_FS_CORRUPT` error of `svn_fs_x__set_rep_reference`. -/
def conflict_message (checksum_display fs_path : String) (old_rep rep : representation_t) : String :=
  "Representation key for checksum \x27" ++ checksum_display ++ "\x27 exists in filesystem \x27"
    ++ fs_path ++ "\x27 with a different value " ++ tuple_text old_rep
    ++ " than what we were about to store " ++ tuple_text rep

def svn_fs_x__set_rep_reference {σ δ : Type} (sq : svn_sqlite σ δ) (env : collaborators)
    (fs : svn_fs_t σ δ) (rep : representation_t) (reject_dup : Bool) :
    Option svn_error_t × svn_fs_t σ δ :=
  let checksum : svn_checksum_t := { kind := .svn_checksum_sha1, digest := rep.sha1_digest }
  if fs.rep_sharing_allowed = false then
    (some (assertion_failed "ffd->rep_sharing_allowed"), fs)
  else
  match open_if_needed sq fs with
  | (some e, fs1) => (some e, fs1)
  | (none, fs1) =>
  /- We only allow SHA1 checksums in this table. -/
  if rep.has_sha1 = false then
    (some bad_checksum_kind_error, fs1)
  else
  match sq.svn_sqlite__get_statement fs1.rep_cache_db .STMT_SET_REP fs1.store with
  | (some e, s1) => (some e, { fs1 with store := s1 })
  | (none, s1) =>
  match sq.svn_sqlite__bindf .STMT_SET_REP
      [.text (env.svn_checksum_to_cstring checksum),
       .integer rep.id.change_set,
       .integer (to_int64 rep.id.number),
       .integer rep.size,
       .integer rep.expanded_size] s1 with
  | (some e, s2) => (some e, { fs1 with store := s2 })
  | (none, s2) =>
  match sq.svn_sqlite__insert .STMT_SET_REP s2 with
  | (none, s3) => (none, { fs1 with store := s3 })
  | (some err, s3) =>
    if err.apr_err ≠ .SVN_ERR_SQLITE_CONSTRAINT then
      (some err, { fs1 with store := s3 })
    else
    /- Constraint failed so the mapping for SHA1_CHECKSUM->REP should exist.  If
       so, and the value is the same one we were about to write, just do nothing.
       If, however, the value is different, that is a red flag. -/
    match svn_fs_x__get_rep_reference sq env { fs1 with store := s3 } checksum with
    | (.error e, fs2) => (some e, fs2)
    | (.ok (some old_rep), fs2) =>
      if reject_dup && (!svn_fs_x__id_part_eq old_rep.id rep.id
                        || decide (old_rep.size ≠ rep.size)
                        || decide (old_rep.expanded_size ≠ rep.expanded_size)) then
        (some (svn_error_create .SVN_ERR_FS_CORRUPT
                (conflict_message (env.svn_checksum_to_cstring_display checksum) fs.path old_rep rep)),
         fs2)
      else
        (none, fs2)
    | (.ok none, fs2) =>
      /- Something really odd at this point, we failed to insert the checksum AND
         failed to read an existing checksum. -/
      (none, fs2)

/-! ## Walking and deleting -/

/-- The macro `SVN_IS_VALID_REVNUM`. -/
def SVN_IS_VALID_REVNUM (n : Int) : Bool :=
  decide (0 ≤ n)

/-- The block `Check global invariants` of `svn_fs_x__walk_rep_reference`, entered
when `start == 0`: the youngest revision of the index has to exist in FS, unless
the rep-cache is empty. -/
def walk_check_global_invariants {σ δ : Type} (sq : svn_sqlite σ δ) (env : collaborators)
    (fs : svn_fs_t σ δ) : Option svn_error_t × σ :=
  match sq.svn_sqlite__get_statement fs.rep_cache_db .STMT_GET_MAX_REV fs.store with
  | (some e, s1) => (some e, s1)
  | (none, s1) =>
  match sq.svn_sqlite__step .STMT_GET_MAX_REV s1 with
  | (.error e, s2) => (some e, s2)
  | (.ok _, s2) =>
    let max := sq.svn_sqlite__column_revnum .STMT_GET_MAX_REV 0 s2
    match sq.svn_sqlite__reset .STMT_GET_MAX_REV s2 with
    | (some e, s3) => (some e, s3)
    | (none, s3) =>
      if SVN_IS_VALID_REVNUM max then  /- The rep-cache could be empty. -/
        (env.svn_fs_x__ensure_revision_exists max, s3)
      else
        (none, s3)

/-- How the `while (have_row)` loop of the walk is left: by a `return` from inside
the body, or because the condition became false. -/
inductive loop_exit where
  | returned (err : Option svn_error_t)
  | done
  deriving DecidableEq, Repr

/-- The loop `while (have_row)` of `svn_fs_x__walk_rep_reference`, run for at most
`fuel` iterations (`none`: the fuel ran out while a row was still pending).  The
walker and the cancellation callback act on their batons; `cancel_func = none`
is the `NULL` callback. -/
def walk_loop {σ δ β γ : Type} (sq : svn_sqlite σ δ) (env : collaborators)
    (walker : representation_t → β → Option svn_error_t × β)
    (cancel_func : Option (γ → Option svn_error_t × γ)) :
    Nat → Bool → σ → β → γ → Option (loop_exit × σ × β × γ)
  | _, false, s, b, c => some (.done, s, b, c)
  | 0, true, _, _, _ => none
  | fuel + 1, true, s, b, c =>
    /- Check for cancellation. -/
    match (match cancel_func with
           | none => ((none : Option svn_error_t), c)
           | some f => f c) with
    | (some err, c1) =>
      match sq.svn_sqlite__reset .STMT_GET_REPS_FOR_RANGE s with
      | (r, s1) => some (.returned (svn_error_compose_create (some err) r), s1, b, c1)
    | (none, c1) =>
    /- Construct a representation_t. -/
    let sha1_digest := sq.svn_sqlite__column_text .STMT_GET_REPS_FOR_RANGE 0 s
    match env.svn_checksum_parse_hex sha1_digest with
    | .error err =>
      match sq.svn_sqlite__reset .STMT_GET_REPS_FOR_RANGE s with
      | (r, s1) => some (.returned (svn_error_compose_create (some err) r), s1, b, c1)
    | .ok digest =>
    let rep : representation_t :=
      { zeroed_representation with
        has_sha1 := true
        sha1_digest := digest
        id := { change_set := sq.svn_sqlite__column_revnum .STMT_GET_REPS_FOR_RANGE 1 s
                number := to_uint64 (sq.svn_sqlite__column_int64 .STMT_GET_REPS_FOR_RANGE 2 s) }
        size := sq.svn_sqlite__column_int64 .STMT_GET_REPS_FOR_RANGE 3 s
        expanded_size := sq.svn_sqlite__column_int64 .STMT_GET_REPS_FOR_RANGE 4 s }
    /- Walk. -/
    match walker rep b with
    | (some err, b1) =>
      match sq.svn_sqlite__reset .STMT_GET_REPS_FOR_RANGE s with
      | (r, s1) => some (.returned (svn_error_compose_create (some err) r), s1, b1, c1)
    | (none, b1) =>
    match sq.svn_sqlite__step .STMT_GET_REPS_FOR_RANGE s with
    | (.error e, s1) => some (.returned (some e), s1, b1, c1)
    | (.ok have_row, s1) => walk_loop sq env walker cancel_func fuel have_row s1 b1 c1

/-- What a call of `svn_fs_x__walk_rep_reference` leaves behind: the error it
returns, the filesystem object, and the batons of the two callbacks. -/
structure walk_result (σ δ β γ : Type) where
  err : Option svn_error_t
  fs : svn_fs_t σ δ
  walker_baton : β
  cancel_baton : γ

/-- The walk over the entries of the revisions from `start` to `end_rev`.  `fuel`
bounds the iterations of the loop; the result is `none` when it does not suffice. -/
def svn_fs_x__walk_rep_reference {σ δ β γ : Type} (sq : svn_sqlite σ δ) (env : collaborators)
    (fuel : Nat) (fs : svn_fs_t σ δ) (start end_rev : Int)
    (walker : representation_t → β → Option svn_error_t × β) (walker_baton : β)
    (cancel_func : Option (γ → Option svn_error_t × γ)) (cancel_baton : γ) :
    Option (walk_result σ δ β γ) :=
  match open_if_needed sq fs with
  | (some e, fs1) => some ⟨some e, fs1, walker_baton, cancel_baton⟩
  | (none, fs1) =>
  /- Check global invariants. -/
  match (if start = 0 then walk_check_global_invariants sq env fs1 else (none, fs1.store)) with
  | (some e, s0) => some ⟨some e, { fs1 with store := s0 }, walker_baton, cancel_baton⟩
  | (none, s0) =>
  match sq.svn_sqlite__get_statement fs1.rep_cache_db .STMT_GET_REPS_FOR_RANGE s0 with
  | (some e, s1) => some ⟨some e, { fs1 with store := s1 }, walker_baton, cancel_baton⟩
  | (none, s1) =>
  match sq.svn_sqlite__bindf .STMT_GET_REPS_FOR_RANGE [.integer start, .integer end_rev] s1 with
  | (some e, s2) => some ⟨some e, { fs1 with store := s2 }, walker_baton, cancel_baton⟩
  | (none, s2) =>
  /- Walk the cache entries. -/
  match sq.svn_sqlite__step .STMT_GET_REPS_FOR_RANGE s2 with
  | (.error e, s3) => some ⟨some e, { fs1 with store := s3 }, walker_baton, cancel_baton⟩
  | (.ok have_row, s3) =>
    match walk_loop sq env walker cancel_func fuel have_row s3 walker_baton cancel_baton with
    | none => none
    | some (.returned err, s4, b, c) => some ⟨err, { fs1 with store := s4 }, b, c⟩
    | some (.done, s4, b, c) =>
      match sq.svn_sqlite__reset .STMT_GET_REPS_FOR_RANGE s4 with
      | (r, s5) => some ⟨r, { fs1 with store := s5 }, b, c⟩

def svn_fs_x__del_rep_reference {σ δ : Type} (sq : svn_sqlite σ δ) (fs : svn_fs_t σ δ)
    (youngest : Int) : Option svn_error_t × svn_fs_t σ δ :=
  match open_if_needed sq fs with
  | (some e, fs1) => (some e, fs1)
  | (none, fs1) =>
  match sq.svn_sqlite__get_statement fs1.rep_cache_db .STMT_DEL_REPS_YOUNGER_THAN_REV fs1.store with
  | (some e, s1) => (some e, { fs1 with store := s1 })
  | (none, s1) =>
  match sq.svn_sqlite__bindf .STMT_DEL_REPS_YOUNGER_THAN_REV [.integer youngest] s1 with
  | (some e, s2) => (some e, { fs1 with store := s2 })
  | (none, s2) =>
  match sq.svn_sqlite__step_done .STMT_DEL_REPS_YOUNGER_THAN_REV s2 with
  | (r, s3) => (r, { fs1 with store := s3 })

/-! ## The keyed-table store -/

/-- A row of the table `rep_cache`: the hash text and four 64-bit integer columns. -/
structure rep_cache_row where
  hash : String
  revision : Int
  offset : Int
  size : Int
  expanded_size : Int
  deriving DecidableEq, Repr

/-- A prepared statement: the bound parameters and, once it has been stepped, the
rows that are still to come, the first of them being the current row. -/
structure stmt_state where
  args : List sql_value
  cursor : Option (List (List sql_value))
  deriving DecidableEq, Repr

/-- The store: the schema version kept in its metadata, the rows of `rep_cache`
in the order of their insertion, and the prepared statements. -/
structure table_db where
  user_version : Int
  rep_cache : List rep_cache_row
  stmts : stmt_idx → stmt_state

/-- The row of `rep_cache` with the given hash, if there is one: the hash is the
primary key. -/
def lookup_row (t : List rep_cache_row) (hash : String) : Option rep_cache_row :=
  t.find? (fun r => decide (r.hash = hash))

/-- The largest value of the column `revision`, `NULL` for an empty table. -/
def max_revision : List rep_cache_row → sql_value
  | [] => .null
  | r :: rs => .integer (rs.foldl (fun m x => max m x.revision) r.revision)

/-- The columns `STMT_GET_REP` selects. -/
def rep_columns (r : rep_cache_row) : List sql_value :=
  [.integer r.revision, .integer r.offset, .integer r.size, .integer r.expanded_size]

/-- The columns `STMT_GET_REPS_FOR_RANGE` selects. -/
def range_columns (r : rep_cache_row) : List sql_value :=
  [.text r.hash, .integer r.revision, .integer r.offset, .integer r.size, .integer r.expanded_size]

/-- The rows whose revision falls in `[start_rev, end_rev)`. -/
def rows_in_range (start_rev end_rev : Int) (t : List rep_cache_row) : List rep_cache_row :=
  t.filter (fun r => decide (start_rev ≤ r.revision) && decide (r.revision < end_rev))

/-- Modelled from the spec: the text of the statements of rep-cache-db.h is not
among the sources.  `STMT_GET_REP` selects `(revision, item_index, size,
expanded_size)` of the entry stored for a hash; `STMT_GET_REPS_FOR_RANGE`
selects all entries whose revision falls in `[start_rev, end_rev)`;
`STMT_GET_MAX_REV` selects the youngest indexed revision. -/
def run_select (idx : stmt_idx) (args : List sql_value) (t : List rep_cache_row) :
    List (List sql_value) :=
  match idx, args with
  | .STMT_GET_REP, [.text h] => (t.filter (fun r => decide (r.hash = h))).map rep_columns
  | .STMT_GET_REPS_FOR_RANGE, [.integer s, .integer e] => (rows_in_range s e t).map range_columns
  | .STMT_GET_MAX_REV, _ => [[max_revision t]]
  | _, _ => []

def set_stmt (db : table_db) (idx : stmt_idx) (st : stmt_state) : table_db :=
  { db with stmts := fun j => if j = idx then st else db.stmts j }

/-- The current row of a statement. -/
def current_row (db : table_db) (idx : stmt_idx) : List sql_value :=
  match (db.stmts idx).cursor with
  | some (row :: _) => row
  | _ => []

def table_reset (idx : stmt_idx) (db : table_db) : Option svn_error_t × table_db :=
  (none, set_stmt db idx { args := [], cursor := none })

/-- The error of an insert that violates the uniqueness of the primary key. -/
def constraint_error : svn_error_t :=
  svn_error_create .SVN_ERR_SQLITE_CONSTRAINT "sqlite: constraint failed"

/-- The error of any other misuse of the store. -/
def sqlite_misuse : svn_error_t :=
  svn_error_create (.other 21) "sqlite: library routine called out of sequence"

/-- Opening the store never fails; the handle is the path. -/
def table_open (path : String) (db : table_db) : Except svn_error_t String × table_db :=
  (.ok path, db)

def table_read_schema_version (_sdb : String) (db : table_db) : Except svn_error_t Int × table_db :=
  (.ok db.user_version, db)

/-- Creating the schema results in schema version 1; a store without schema
holds no rows. -/
def table_exec_statements (_sdb : String) (idx : stmt_idx) (db : table_db) :
    Option svn_error_t × table_db :=
  match idx with
  | .STMT_CREATE_SCHEMA => (none, { db with user_version := 1 })
  | _ => (some sqlite_misuse, db)

/-- Fetching a statement resets it; without a database there is no statement. -/
def table_get_statement (sdb : Option String) (idx : stmt_idx) (db : table_db) :
    Option svn_error_t × table_db :=
  match sdb with
  | none => (some sqlite_misuse, db)
  | some _ => table_reset idx db

def table_bindf (idx : stmt_idx) (args : List sql_value) (db : table_db) :
    Option svn_error_t × table_db :=
  (none, set_stmt db idx { db.stmts idx with args := args })

/-- The first step of a statement runs its query on the table; every further
step moves on to the next row. -/
def table_step (idx : stmt_idx) (db : table_db) : Except svn_error_t Bool × table_db :=
  match (db.stmts idx).cursor with
  | none =>
    (.ok (!(run_select idx (db.stmts idx).args db.rep_cache).isEmpty),
     set_stmt db idx { db.stmts idx with
       cursor := some (run_select idx (db.stmts idx).args db.rep_cache) })
  | some rows =>
    (.ok (!rows.tail.isEmpty), set_stmt db idx { db.stmts idx with cursor := some rows.tail })

/-- Statement `STMT_DEL_REPS_YOUNGER_THAN_REV` removes all entries for revisions strictly
younger than the bound one. -/
def table_step_done (idx : stmt_idx) (db : table_db) : Option svn_error_t × table_db :=
  match idx, (db.stmts idx).args with
  | .STMT_DEL_REPS_YOUNGER_THAN_REV, [.integer youngest] =>
    table_reset idx
      { db with rep_cache := db.rep_cache.filter (fun r => decide (r.revision ≤ youngest)) }
  | _, _ => (some sqlite_misuse, (table_reset idx db).2)

/-- Statement `STMT_SET_REP` inserts a row, and fails with the constraint error, changing
nothing, when the table has a row with that hash. -/
def table_insert (idx : stmt_idx) (db : table_db) : Option svn_error_t × table_db :=
  match idx, (db.stmts idx).args with
  | .STMT_SET_REP, [.text h, .integer rev, .integer off, .integer sz, .integer esz] =>
    match lookup_row db.rep_cache h with
    | some _ => (some constraint_error, (table_reset idx db).2)
    | none =>
      table_reset idx
        { db with rep_cache := db.rep_cache ++
            [{ hash := h, revision := rev, offset := off, size := sz, expanded_size := esz }] }
  | _, _ => (some sqlite_misuse, (table_reset idx db).2)

def table_column_text (idx : stmt_idx) (i : Nat) (db : table_db) : String :=
  match (current_row db idx).getD i .null with
  | .text s => s
  | _ => ""

/-- A `NULL` column reads as `SVN_INVALID_REVNUM`. -/
def table_column_revnum (idx : stmt_idx) (i : Nat) (db : table_db) : Int :=
  match (current_row db idx).getD i .null with
  | .integer n => n
  | _ => -1

def table_column_int64 (idx : stmt_idx) (i : Nat) (db : table_db) : Int :=
  match (current_row db idx).getD i .null with
  | .integer n => n
  | _ => 0

/-- Modelled from the spec: the embedded store behind `private/svn_sqlite.h`
(not among the sources), as the in-memory keyed table the spec describes: one
table keyed by content hash; an insert that violates the uniqueness constraint
fails explicitly and changes nothing; deletion removes all entries for revisions
strictly younger than the given one; creating the schema results in schema
version 1. -/
def table_sqlite : svn_sqlite table_db String where
  svn_sqlite__open := table_open
  svn_sqlite__read_schema_version := table_read_schema_version
  svn_sqlite__exec_statements := table_exec_statements
  svn_sqlite__get_statement := table_get_statement
  svn_sqlite__bindf := table_bindf
  svn_sqlite__step := table_step
  svn_sqlite__step_done := table_step_done
  svn_sqlite__insert := table_insert
  svn_sqlite__reset := table_reset
  svn_sqlite__column_text := table_column_text
  svn_sqlite__column_revnum := table_column_revnum
  svn_sqlite__column_int64 := table_column_int64

/-! ## A test double for the collaborators -/

def hex_digit (n : Nat) : Char :=
  match n with
  | 0 => '0' | 1 => '1' | 2 => '2' | 3 => '3' | 4 => '4' | 5 => '5' | 6 => '6' | 7 => '7'
  | 8 => '8' | 9 => '9' | 10 => 'a' | 11 => 'b' | 12 => 'c' | 13 => 'd' | 14 => 'e' | _ => 'f'

def hex_value (c : Char) : Option Nat :=
  if c = '0' then some 0 else if c = '1' then some 1 else if c = '2' then some 2
  else if c = '3' then some 3 else if c = '4' then some 4 else if c = '5' then some 5
  else if c = '6' then some 6 else if c = '7' then some 7 else if c = '8' then some 8
  else if c = '9' then some 9 else if c = 'a' then some 10 else if c = 'b' then some 11
  else if c = 'c' then some 12 else if c = 'd' then some 13 else if c = 'e' then some 14
  else if c = 'f' then some 15 else none

/-- Two hex digits per digest byte. -/
def hex_of_digest (digest : List Nat) : String :=
  String.mk (digest.flatMap (fun b => [hex_digit (b / 16 % 16), hex_digit (b % 16)]))

def digest_of_hex : List Char → Option (List Nat)
  | [] => some []
  | [_] => none
  | c1 :: c2 :: rest =>
    match hex_value c1, hex_value c2, digest_of_hex rest with
    | some x1, some x2, some ds => some ((x1 * 16 + x2) :: ds)
    | _, _, _ => none

/-- The error of the oracle for a revision that FS does not have. -/
def no_such_revision (rev : Int) : svn_error_t :=
  svn_error_create (.other 160006) ("No such revision " ++ toString rev)

/-- Collaborators for a filesystem whose youngest revision is `youngest`:
checksums are rendered in hex, a change set that is not negative is a revision,
and the revisions that exist are `0 .. youngest`. -/
def sample_collaborators (youngest : Int) : collaborators where
  svn_checksum_to_cstring := fun c => hex_of_digest c.digest
  svn_checksum_to_cstring_display := fun c => hex_of_digest c.digest
  svn_checksum_parse_hex := fun s =>
    match digest_of_hex s.data with
    | some d => .ok d
    | none => .error (svn_error_create (.other 125013) "bad checksum parse")
  svn_fs_x__get_revnum := fun change_set => if 0 ≤ change_set then change_set else -1
  svn_fs_x__ensure_revision_exists := fun rev =>
    if 0 ≤ rev ∧ rev ≤ youngest then none else some (no_such_revision rev)

/-- A store with the given rows and schema version 1, no statement in use. -/
def sample_db (rows : List rep_cache_row) : table_db :=
  { user_version := 1, rep_cache := rows, stmts := fun _ => { args := [], cursor := none } }

/-- A filesystem object with rep-sharing allowed whose rep-cache is open. -/
def sample_fs (rows : List rep_cache_row) : svn_fs_t table_db String :=
  { path := "repos/db"
    rep_sharing_allowed := true
    rep_cache_db := some (path_rep_cache_db "repos/db")
    rep_cache_db_opened := .initialized
    store := sample_db rows }

/-- The representation of the scenario: hash bytes `ab c1 23`, and the given
location and sizes. -/
def sample_rep (revision : Int) (item : Nat) (size expanded_size : Int) : representation_t :=
  { has_sha1 := true
    sha1_digest := [171, 193, 35]
    md5_digest := List.replicate APR_MD5_DIGESTSIZE 0
    id := { change_set := revision, number := item }
    size := size
    expanded_size := expanded_size }

/-- Three entries, of the revisions 1, 5 and 7. -/
def sample_rows : List rep_cache_row :=
  [{ hash := "00ff", revision := 1, offset := 7, size := 30, expanded_size := 40 },
   { hash := "abc123", revision := 5, offset := 2, size := 100, expanded_size := 100 },
   { hash := "0a", revision := 7, offset := 0, size := 9, expanded_size := 9 }]

/-! ## Reading rows as representations -/

/-- A statement that is not in use. -/
def idle_stmt : stmt_state := { args := [], cursor := none }

/-- The representation that `svn_fs_x__get_rep_reference` builds from the row
stored for a checksum with the given digest. -/
def rep_of_row (digest : List Nat) (row : rep_cache_row) : representation_t :=
  { zeroed_representation with
    sha1_digest := digest
    has_sha1 := true
    id := { change_set := row.revision, number := to_uint64 row.offset }
    size := row.size
    expanded_size := row.expanded_size }

/-- The row that `svn_fs_x__set_rep_reference` binds to `STMT_SET_REP`. -/
def row_of_rep (env : collaborators) (rep : representation_t) : rep_cache_row :=
  { hash := env.svn_checksum_to_cstring { kind := .svn_checksum_sha1, digest := rep.sha1_digest }
    revision := rep.id.change_set
    offset := to_int64 rep.id.number
    size := rep.size
    expanded_size := rep.expanded_size }

/-- The representation that the loop of `svn_fs_x__walk_rep_reference` builds
from a row: the one of `rep_of_row`, with the digest parsed from the hash text. -/
def walked_rep (env : collaborators) (row : rep_cache_row) : representation_t :=
  rep_of_row
    (match env.svn_checksum_parse_hex row.hash with
     | .ok digest => digest
     | .error _ => [])
    row

/-! ## Stores that fail, and a filesystem object that is not open yet -/

/-- The operation that a faulty store lets fail. -/
inductive fault where
  | on_open
  | on_read_schema_version
  | on_exec_statements
  | on_insert
  | on_next_row
  deriving DecidableEq, Repr

/-- An I/O error of the storage underneath the embedded store. -/
def io_error : svn_error_t :=
  svn_error_create (.other 200030) "sqlite: disk I/O error"

/-- Modelled from the spec: how the embedded store behind `private/svn_sqlite.h`
(not among the sources) fails.  The keyed-table store with one operation that
fails with an I/O error.  A failing open, read of the schema version, execution
of statements or insert leaves the store as it found it.  For `on_next_row` the
failing operation is every step of a statement that has been stepped before, so
that the first row of a query is delivered and the move to the second row fails;
the failing step releases the statement, since by the spec the release of a
statement or cursor must occur on every propagation path, including when the
propagated error originates from within a loop body. -/
def faulty_sqlite (f : fault) : svn_sqlite table_db String :=
  match f with
  | .on_open =>
    { table_sqlite with svn_sqlite__open := fun _ db => (.error io_error, db) }
  | .on_read_schema_version =>
    { table_sqlite with svn_sqlite__read_schema_version := fun _ db => (.error io_error, db) }
  | .on_exec_statements =>
    { table_sqlite with svn_sqlite__exec_statements := fun _ _ db => (some io_error, db) }
  | .on_insert =>
    { table_sqlite with svn_sqlite__insert := fun _ db => (some io_error, db) }
  | .on_next_row =>
    { table_sqlite with
      svn_sqlite__step := fun idx db =>
        match (db.stmts idx).cursor with
        | none => table_step idx db
        | some _ => (.error io_error, (table_reset idx db).2) }

/-- The classes of the error taxonomy of the spec. -/
inductive error_class where
  | not_found
  | corruption
  | busy
  | io_failure
  deriving DecidableEq, Repr

/-- Modelled from the spec: the class of an error code in the error taxonomy of
the spec, which is no part of the C sources.  Corruption is a violated
structural invariant, among them a conflicting rep-cache entry
(`SVN_ERR_FS_CORRUPT`) and a wrong checksum kind (`SVN_ERR_BAD_CHECKSUM_KIND`);
not-found is a requested revision that is absent (the code of
`no_such_revision`); an I/O failure is the underlying storage being unavailable
(the code of `io_error`).  The taxonomy names no other code that occurs here. -/
def error_class_of : apr_status_t → Option error_class
  | .SVN_ERR_FS_CORRUPT => some .corruption
  | .SVN_ERR_BAD_CHECKSUM_KIND => some .corruption
  | .other 160006 => some .not_found
  | .other 200030 => some .io_failure
  | _ => none

/-- A filesystem object on which the rep-cache has not been opened: no handle,
the gate untouched; the store has the given rows and schema version. -/
def fresh_fs (rows : List rep_cache_row) (version : Int) : svn_fs_t table_db String :=
  { path := "repos/db"
    rep_sharing_allowed := true
    rep_cache_db := none
    rep_cache_db_opened := .uninitialized
    store := { user_version := version, rep_cache := rows,
               stmts := fun _ => { args := [], cursor := none } } }

end RepCache

/-!
# The locks of `fs_fs_shared_data_t` (`subversion/libsvn_fs_fs/fs.h`)

The struct declares four locks and states, in the comment above them, the order
in which they have to be taken out.
-/

namespace FsFs

/-- The four lock fields of `fs_fs_shared_data_t`. -/
inductive lock_field where
  | txn_list_lock
  | fs_write_lock
  | fs_pack_lock
  | txn_current_lock
  deriving DecidableEq, Repr

/-- The lock fields in the order of their declaration in the struct. -/
def declaration_order : List lock_field :=
  [.txn_list_lock, .fs_write_lock, .fs_pack_lock, .txn_current_lock]

/-- The order the comment spells out: lock txn-current before pack before write
before txn-list. -/
def acquisition_order : List lock_field :=
  [.txn_current_lock, .fs_pack_lock, .fs_write_lock, .txn_list_lock]

/-- The place of a lock in the acquisition order. -/
def acquisition_rank (l : lock_field) : Nat :=
  acquisition_order.indexOf l

/-- Lock `a` has to be taken out before lock `b`. -/
def precedes (a b : lock_field) : Prop :=
  acquisition_rank a < acquisition_rank b

instance (a b : lock_field) : Decidable (precedes a b) :=
  inferInstanceAs (Decidable (acquisition_rank a < acquisition_rank b))

/-- An acquirer: the locks it is going to take, in the order in which it takes
them, and how many of them it has got; the lock at that place is the one it is
waiting for. -/
structure acquirer where
  plan : List lock_field
  progress : Nat
  deriving DecidableEq, Repr

/-- The locks an acquirer holds. -/
def acquirer.held (a : acquirer) : List lock_field :=
  a.plan.take a.progress

/-- The lock an acquirer waits for, if it has not got all of its locks. -/
def acquirer.waits_for (a : acquirer) : Option lock_field :=
  a.plan[a.progress]?

/-- Two acquirers wait in a cycle: each waits for a lock that the other holds. -/
def cyclic_wait (a b : acquirer) : Bool :=
  match a.waits_for, b.waits_for with
  | some la, some lb => b.held.contains la && a.held.contains lb
  | _, _ => false

end FsFs

namespace RepCache

/-! ## The loop of the walk, row by row -/

/-- The call `cancel_func(cancel_baton)` of the loop; nothing happens for the
`NULL` callback. -/
def call_cancel {γ : Type} (cancel_func : Option (γ → Option svn_error_t × γ)) (c : γ) :
    Option svn_error_t × γ :=
  match cancel_func with
  | none => (none, c)
  | some f => f c

/-- Whether the body of the loop gets through each of the given rows in turn
without a failure: the cancellation callback does not fire, the hash text is
parsed, and the visitor succeeds. -/
def rows_pass {β γ : Type} (env : collaborators)
    (walker : representation_t → β → Option svn_error_t × β)
    (cancel_func : Option (γ → Option svn_error_t × γ)) :
    List rep_cache_row → β → γ → Bool
  | [], _, _ => true
  | r :: rs, b, c =>
    (call_cancel cancel_func c).1.isNone
      && (match env.svn_checksum_parse_hex r.hash with
          | .ok _ => true
          | .error _ => false)
      && (walker (walked_rep env r) b).1.isNone
      && rows_pass env walker cancel_func rs (walker (walked_rep env r) b).2
           (call_cancel cancel_func c).2

/-- The batons of the visitor and of the cancellation callback after one call of
each for each of the given rows in turn. -/
def batons_after {β γ : Type} (env : collaborators)
    (walker : representation_t → β → Option svn_error_t × β)
    (cancel_func : Option (γ → Option svn_error_t × γ)) :
    List rep_cache_row → β → γ → β × γ
  | [], b, c => (b, c)
  | r :: rs, b, c =>
    batons_after env walker cancel_func rs (walker (walked_rep env r) b).2
      (call_cancel cancel_func c).2

/-- What `svn_fs_x__walk_rep_reference` does with the outcome of its loop: a
`return` from the body is the result; after a regular end of the loop the
statement is reset and the outcome of the reset is the result. -/
def walk_finish {σ δ β γ : Type} (sq : svn_sqlite σ δ) (fs : svn_fs_t σ δ) :
    Option (loop_exit × σ × β × γ) → Option (walk_result σ δ β γ)
  | none => none
  | some (.returned err, s, b, c) => some ⟨err, { fs with store := s }, b, c⟩
  | some (.done, s, b, c) =>
    some ⟨(sq.svn_sqlite__reset .STMT_GET_REPS_FOR_RANGE s).1,
          { fs with store := (sq.svn_sqlite__reset .STMT_GET_REPS_FOR_RANGE s).2 }, b, c⟩

/-! ## Callbacks for the walk -/

/-- The error of a visitor that gives up. -/
def visitor_stop : svn_error_t :=
  svn_error_create (.other 200001) "visitor gives up"

/-- The error of a cancellation callback that fires. -/
def cancelled_error : svn_error_t :=
  svn_error_create (.other 200015) "caught signal"

/-- A visitor that records every representation it is handed and fails on those
of the given revision. -/
def stopping_walker (revision : Int) (rep : representation_t) (seen : List representation_t) :
    Option svn_error_t × List representation_t :=
  (if rep.id.change_set = revision then some visitor_stop else none, seen ++ [rep])

/-- A visitor that records every representation it is handed and never fails. -/
def collecting_walker (rep : representation_t) (seen : List representation_t) :
    Option svn_error_t × List representation_t :=
  (none, seen ++ [rep])

/-- A cancellation callback that counts its calls in its baton and fires from
call number `n` (counted from 0) on. -/
def cancel_from (n : Nat) (calls : Nat) : Option svn_error_t × Nat :=
  (if n ≤ calls then some cancelled_error else none, calls + 1)

/-- A visitor wrapped so that every representation it is handed is recorded, in
front of its own baton, whatever the visitor itself does with it. -/
def recording_walker {β : Type} (walker : representation_t → β → Option svn_error_t × β)
    (rep : representation_t) (b : List representation_t × β) :
    Option svn_error_t × (List representation_t × β) :=
  ((walker rep b.2).1, (b.1 ++ [rep], (walker rep b.2).2))

/-- The keyed-table store with an insert that reports a violated uniqueness
constraint although it has not looked for a row with the key, and writes
nothing. -/
def phantom_constraint_sqlite : svn_sqlite table_db String :=
  { table_sqlite with
    svn_sqlite__insert := fun idx db => (some constraint_error, (table_reset idx db).2) }

end RepCache

/-!
# The XML delta parser (`subversion/libsvn_delta/delta_parse.c`)

The callbacks that build an `svn_delta_t` from a stream of XML tags, and the two
helpers they rest on: `svn_find_delta_bottom` and `svn_starpend_delta`.

A delta is a chain: a tree-delta holds at most one edit, an edit at most one
edit content, an edit content at most one nested tree-delta.  Pointers are
embedded by the objects they point to, `NULL` being `none`; a write through a
pointer into the delta of the digger is the update of that delta at the place
the pointer stands for.  `delta_parse.h` is not among the sources: the types
below have the fields and enumerators that delta_parse.c uses.  A call returns
`none` when the recursion of `svn_find_delta_bottom` needs more than `fuel`
nested calls.
-/

namespace DeltaParse

/-- The kinds of object in a delta, as named in delta_parse.c. -/
inductive svn_XML_elt_t where
  | svn_XML_treedelta
  | svn_XML_edit
  | svn_XML_editcontent
  | svn_XML_propdelta
  | svn_XML_textdelta
  deriving DecidableEq, Repr

/-- The action of an edit. -/
inductive svn_edit_action_t where
  | action_new
  | action_replace
  | action_delete
  deriving DecidableEq, Repr

/-- The kind of an edit content. -/
inductive svn_content_kind_t where
  | file_type
  | directory_type
  deriving DecidableEq, Repr

mutual
/-- A tree-delta: `edit` is the one field delta_parse.c follows; `src_root` and
`base_ver` are the two fields that the comment in `svn_xml_handle_start` names
and that nothing in the file reads or writes. -/
inductive svn_delta_t where
  | mk (src_root : Option String) (base_ver : Int) (edit : Option svn_edit_t)
/-- An edit; a `kind` of `none` is the field as `apr_pcalloc` left it. -/
inductive svn_edit_t where
  | mk (kind : Option svn_edit_action_t) (name : Option String)
      (content : Option svn_edit_content_t)
/-- An edit content; a `kind` of `none` is the field as `apr_pcalloc` left it. -/
inductive svn_edit_content_t where
  | mk (kind : Option svn_content_kind_t) (ancestor_path : Option String)
      (ancestor_version : Int) (prop_delta text_delta : Bool) (tree_delta : Option svn_delta_t)
end

def svn_delta_t.src_root : svn_delta_t → Option String
  | .mk r _ _ => r

def svn_delta_t.base_ver : svn_delta_t → Int
  | .mk _ v _ => v

def svn_delta_t.edit : svn_delta_t → Option svn_edit_t
  | .mk _ _ e => e

def svn_edit_t.kind : svn_edit_t → Option svn_edit_action_t
  | .mk k _ _ => k

def svn_edit_t.name : svn_edit_t → Option String
  | .mk _ n _ => n

def svn_edit_t.content : svn_edit_t → Option svn_edit_content_t
  | .mk _ _ c => c

def svn_edit_content_t.kind : svn_edit_content_t → Option svn_content_kind_t
  | .mk k _ _ _ _ _ => k

def svn_edit_content_t.ancestor_path : svn_edit_content_t → Option String
  | .mk _ p _ _ _ _ => p

def svn_edit_content_t.ancestor_version : svn_edit_content_t → Int
  | .mk _ _ v _ _ _ => v

def svn_edit_content_t.prop_delta : svn_edit_content_t → Bool
  | .mk _ _ _ p _ _ => p

def svn_edit_content_t.text_delta : svn_edit_content_t → Bool
  | .mk _ _ _ _ t _ => t

def svn_edit_content_t.tree_delta : svn_edit_content_t → Option svn_delta_t
  | .mk _ _ _ _ _ d => d

/-- The assignment `d->edit = e`. -/
def svn_delta_t.set_edit (d : svn_delta_t) (e : Option svn_edit_t) : svn_delta_t :=
  .mk d.src_root d.base_ver e

/-- The assignment `e->kind = k`. -/
def svn_edit_t.set_kind (e : svn_edit_t) (k : svn_edit_action_t) : svn_edit_t :=
  .mk (some k) e.name e.content

/-- The assignment `e->name = n`. -/
def svn_edit_t.set_name (e : svn_edit_t) (n : Option String) : svn_edit_t :=
  .mk e.kind n e.content

/-- The assignment `e->content = c`. -/
def svn_edit_t.set_content (e : svn_edit_t) (c : Option svn_edit_content_t) : svn_edit_t :=
  .mk e.kind e.name c

/-- The assignment `c->kind = k`. -/
def svn_edit_content_t.set_kind (c : svn_edit_content_t) (k : svn_content_kind_t) :
    svn_edit_content_t :=
  .mk (some k) c.ancestor_path c.ancestor_version c.prop_delta c.text_delta c.tree_delta

/-- The assignment `c->ancestor_path = p`. -/
def svn_edit_content_t.set_ancestor_path (c : svn_edit_content_t) (p : Option String) :
    svn_edit_content_t :=
  .mk c.kind p c.ancestor_version c.prop_delta c.text_delta c.tree_delta

/-- The assignment `c->ancestor_version = v`. -/
def svn_edit_content_t.set_ancestor_version (c : svn_edit_content_t) (v : Int) :
    svn_edit_content_t :=
  .mk c.kind c.ancestor_path v c.prop_delta c.text_delta c.tree_delta

/-- The assignment `c->prop_delta = p`. -/
def svn_edit_content_t.set_prop_delta (c : svn_edit_content_t) (p : Bool) : svn_edit_content_t :=
  .mk c.kind c.ancestor_path c.ancestor_version p c.text_delta c.tree_delta

/-- The assignment `c->text_delta = t`. -/
def svn_edit_content_t.set_text_delta (c : svn_edit_content_t) (t : Bool) : svn_edit_content_t :=
  .mk c.kind c.ancestor_path c.ancestor_version c.prop_delta t c.tree_delta

/-- The assignment `c->tree_delta = d`. -/
def svn_edit_content_t.set_tree_delta (c : svn_edit_content_t) (d : Option svn_delta_t) :
    svn_edit_content_t :=
  .mk c.kind c.ancestor_path c.ancestor_version c.prop_delta c.text_delta d

/-- A zero-filled `svn_delta_t`, as `apr_pcalloc` returns it. -/
def zeroed_delta : svn_delta_t :=
  .mk none 0 none

/-- A zero-filled `svn_edit_t`. -/
def zeroed_edit : svn_edit_t :=
  .mk none none none

/-- A zero-filled `svn_edit_content_t`. -/
def zeroed_edit_content : svn_edit_content_t :=
  .mk none none 0 false false none

/-- A `void *` that stands for an object of a delta. -/
inductive object where
  | null
  | delta (d : svn_delta_t)
  | edit (e : svn_edit_t)
  | content (c : svn_edit_content_t)

/-- The four out-parameters of `svn_find_delta_bottom`. -/
structure delta_bottom where
  bottom_obj : object
  bottom_kind : svn_XML_elt_t
  penult_obj : object
  penult_kind : svn_XML_elt_t

/-- Recursively walk down delta D.  (PARENT is used for recursion purposes.)
Return the bottommost object in BOTTOM_OBJ and BOTTOM_KIND; the penultimate
object is returned in PENULT_OBJ and PENULT_KIND.  `fuel` bounds the depth of
the recursion. -/
def svn_find_delta_bottom : Nat → svn_delta_t → object → Option delta_bottom
  | fuel, d, parent =>
    /- Start at top-level tree-delta -/
    match d.edit with
    | none => some ⟨.delta d, .svn_XML_treedelta, parent, .svn_XML_editcontent⟩
    | some current_edit =>
      /- Look at edit struct inside the tree-delta -/
      match current_edit.content with
      | none => some ⟨.edit current_edit, .svn_XML_edit, .delta d, .svn_XML_treedelta⟩
      | some current_content =>
        /- Look inside the content object -/
        match current_content.tree_delta with
        | none =>
          some ⟨.content current_content, .svn_XML_editcontent, .edit current_edit, .svn_XML_edit⟩
        | some tree_delta =>
          /- Since this edit_content already contains a tree-delta, we better RECURSE
             to continue our search! -/
          match fuel with
          | 0 => none
          | fuel + 1 => svn_find_delta_bottom fuel d (.delta tree_delta)

/-- The one error code of delta_parse.c. -/
inductive apr_status_t where
  | SVN_ERR_MALFORMED_XML
  deriving DecidableEq, Repr

/-- An error as `svn_create_error (apr_err, NULL, message, NULL, pool)` makes it. -/
structure svn_error_t where
  apr_err : apr_status_t
  message : String
  deriving DecidableEq, Repr

/-- What a call does: it returns, or it does something the C language leaves
undefined (it dereferences `NULL`, or reads a pointer as an object of another
type, or reads past the end of the attribute array). -/
inductive outcome (α : Type) where
  | returned (a : α)
  | undefined

/-- What delta_parse.c touches of an `svn_delta_digger_t`, apart from its
function pointers: the delta under construction. -/
structure svn_delta_digger_t where
  delta : Option svn_delta_t

/-- ELT_KIND defines which kind of object is being appended or removed: the type
of OBJECT for each kind.  A prop-delta or text-delta is a flag of the edit
content and has no object. -/
@[reducible] def object_of_kind : svn_XML_elt_t → Type
  | .svn_XML_treedelta => Option svn_delta_t
  | .svn_XML_edit => Option svn_edit_t
  | .svn_XML_editcontent => Option svn_edit_content_t
  | .svn_XML_propdelta => Unit
  | .svn_XML_textdelta => Unit

/-- What `svn_starpend_delta` leaves behind when it returns: its result, the
digger, and the object behind PARENT, which destroying a tree-delta writes to. -/
structure starpend_result where
  err : Option svn_error_t
  digger : svn_delta_digger_t
  parent : object

/-- Append or remove OBJECT to/from the end of delta D.  ELT_KIND defines which
kind of object is being appended or removed; DESTROY_P toggles append/remove.
The call of `svn_find_delta_bottom` in the C text has no argument for PARENT;
`parent` is what the callee finds in its place. -/
def svn_starpend_delta (fuel : Nat) (digger : svn_delta_digger_t) (parent : object)
    (elt_kind : svn_XML_elt_t) (obj : object_of_kind elt_kind) (destroy_p : Bool) :
    Option (outcome starpend_result) :=
  match digger.delta with
  | none => some .undefined
  | some d =>
  /- Get a grip on the last two objects in the delta -/
  match svn_find_delta_bottom fuel d parent with
  | none => none
  | some bottom =>
  /- Sanity-check: when destroying the last object in the delta, then we should
     check that ELT_KIND (sent from the caller) and BOTTOM_KIND match! -/
  if destroy_p && decide (elt_kind ≠ bottom.bottom_kind) then
    some (.returned
      ⟨some ⟨.SVN_ERR_MALFORMED_XML,
         "caller thinks delta\x27s bottom object type is different that it is!"⟩, digger, parent⟩)
  else
  match bottom.bottom_kind with
  | .svn_XML_treedelta =>
    if destroy_p then
      match bottom.penult_obj with
      | .content ec => some (.returned ⟨none, digger, .content (ec.set_tree_delta none)⟩)
      | _ => some .undefined
    else
      /- If bottom_ptr is a treedelta, then we must be appending an svn_edit_t. -/
      match elt_kind, obj with
      | .svn_XML_edit, e =>
        match bottom.bottom_obj with
        | .delta this_delta =>
          some (.returned ⟨none, { digger with delta := some (this_delta.set_edit e) }, parent⟩)
        | _ => some .undefined
      | _, _ =>
        some (.returned
          ⟨some ⟨.SVN_ERR_MALFORMED_XML, "expecting to append svn_edit_t, not found!"⟩,
           digger, parent⟩)
  | .svn_XML_edit =>
    if destroy_p then
      match bottom.penult_obj with
      | .delta dl => some (.returned ⟨none, { digger with delta := some (dl.set_edit none) }, parent⟩)
      | _ => some .undefined
    else
      /- If bottom_ptr is an edit, then we must be appending an svn_edit_content_t. -/
      match elt_kind, obj with
      | .svn_XML_editcontent, c =>
        match bottom.bottom_obj with
        | .edit this_edit =>
          some (.returned
            ⟨none, { digger with delta := some (d.set_edit (some (this_edit.set_content c))) },
             parent⟩)
        | _ => some .undefined
      | _, _ =>
        some (.returned
          ⟨some ⟨.SVN_ERR_MALFORMED_XML, "expecting to append svn_edit_content_t, not found!"⟩,
           digger, parent⟩)
  | .svn_XML_editcontent =>
    if destroy_p then
      match bottom.penult_obj with
      | .edit ed =>
        some (.returned ⟨none, { digger with delta := some (d.set_edit (some (ed.set_content none))) },
          parent⟩)
      | _ => some .undefined
    else
      /- If bottom_ptr is an edit_content, then we must be appending one of three
         kinds of objects. -/
      match bottom.bottom_obj, bottom.penult_obj with
      | .content this_content, .edit ed =>
        match elt_kind, obj with
        | .svn_XML_propdelta, _ =>
          some (.returned
            ⟨none, { digger with delta := some (d.set_edit (some (ed.set_content
               (some (this_content.set_prop_delta true))))) }, parent⟩)
        | .svn_XML_textdelta, _ =>
          some (.returned
            ⟨none, { digger with delta := some (d.set_edit (some (ed.set_content
               (some (this_content.set_text_delta true))))) }, parent⟩)
        | .svn_XML_treedelta, t =>
          some (.returned
            ⟨none, { digger with delta := some (d.set_edit (some (ed.set_content
               (some (this_content.set_tree_delta t))))) }, parent⟩)
        | _, _ =>
          some (.returned
            ⟨some ⟨.SVN_ERR_MALFORMED_XML,
               "found something other than pdelta, vdelta, or textdelta to append."⟩,
             digger, parent⟩)
      | _, _ => some .undefined
  | _ =>
    some (.returned
      ⟨some ⟨.SVN_ERR_MALFORMED_XML, "unrecognized svn_XML_elt type."⟩, digger, parent⟩)

/-- The function pointers of the digger that `svn_xml_handle_start` calls.  A
handler is handed the digger and may change it. -/
structure digger_handlers where
  dir_handler :
    svn_delta_digger_t → svn_edit_content_t → Option svn_error_t × svn_delta_digger_t
  unknown_elt_handler :
    svn_delta_digger_t → String → List String → Option svn_error_t × svn_delta_digger_t

/-- The C function `strcmp`, up to the magnitude of a result that is not zero. -/
def strcmp (a b : String) : Int :=
  if a = b then 0 else if a.data < b.data then -1 else 1

/-- The C function `atoi` on a decimal numeral with an optional sign. -/
def atoi (s : String) : Int :=
  let digits := fun (cs : List Char) =>
    ((cs.takeWhile Char.isDigit).foldl (fun n c => 10 * n + (c.toNat - 48)) 0 : Nat)
  match s.data.dropWhile Char.isWhitespace with
  | '-' :: rest => -(digits rest : Int)
  | '+' :: rest => (digits rest : Int)
  | cs => (digits cs : Int)

/-- Constructor, for factorizing code.  The body allocates a block and ends
without a `return` statement (`TODO: fill in fields from atts`), so the value
the caller receives is not determined by the function: it is `indeterminate`. -/
def svn_create_edit (indeterminate : Option svn_edit_t) (_action : svn_edit_action_t)
    (_atts : List String) : Option svn_edit_t :=
  indeterminate

/-- The loop `while (*atts)` of the branches for `file` and `dir`, which builds
an ancestor out of the attribute pairs.  With an odd number of strings the value
of the last pair is the terminating `NULL` and the loop reads on behind it. -/
def read_ancestor_attributes :
    List String → svn_edit_content_t → outcome svn_edit_content_t
  | [], this_edit_content => .returned this_edit_content
  | [_], _ => .undefined
  | attr_name :: attr_value :: atts, this_edit_content =>
    if strcmp attr_name "ancestor" = 0 then
      read_ancestor_attributes atts (this_edit_content.set_ancestor_path (some attr_value))
    else if strcmp attr_name "ver" = 0 then
      read_ancestor_attributes atts (this_edit_content.set_ancestor_version (atoi attr_value))
    else if strcmp attr_name "new" = 0 then
      /- Do nothing, because ancestor_path is already set to NULL. -/
      read_ancestor_attributes atts this_edit_content
    else
      read_ancestor_attributes atts this_edit_content

/-- The type of `svn_append_to_delta (delta, object, kind)`, which four branches
of `svn_xml_handle_start` call and which is defined nowhere in the sources: it
returns an error or `NULL` and leaves a delta behind. -/
@[reducible] def append_to_delta_t : Type :=
  Option svn_delta_t → (elt_kind : svn_XML_elt_t) → object_of_kind elt_kind →
    Option svn_error_t × Option svn_delta_t

/-- What the callers of `svn_starpend_delta` in `svn_xml_handle_start` make of
its outcome: the error is dropped (`TODO: check error`). -/
def after_starpend : Option (outcome starpend_result) → Option (outcome svn_delta_digger_t)
  | none => none
  | some .undefined => some .undefined
  | some (.returned res) => some (.returned res.digger)

/-- Callback: called whenever we find a new tag (open paren).  The name
argument contains the name of the tag, and the atts list is a list of name/value
pairs.  The conditions are the ones of the C text: the first four compare the
result of `strcmp` with 0, the last four take the result of `strcmp` itself as
the condition.  The expression `++*atts` advances the first string of the array
by one character, and that is the name the edit gets. -/
def svn_xml_handle_start (fuel : Nat) (handlers : digger_handlers)
    (svn_append_to_delta : append_to_delta_t) (indeterminate : Option svn_edit_t)
    (parent : object) (my_digger : svn_delta_digger_t) (name : String) (atts : List String) :
    Option (outcome svn_delta_digger_t) :=
  /- Match the new tag name to one of the XML tags of Subversion... -/
  if strcmp name "tree-delta" = 0 then
    /- Found a new tree-delta element -/
    let new_delta := zeroed_delta
    match my_digger.delta with
    | none =>
      /- This is the very FIRST element of our tree delta! -/
      some (.returned { my_digger with delta := some new_delta })
    | some _ =>
      /- This is a nested tree-delta, below a <dir>.  Hook it in. -/
      after_starpend
        (svn_starpend_delta fuel my_digger parent .svn_XML_treedelta (some new_delta) false)
  else if strcmp name "text-delta" = 0 then
    some (.returned my_digger)
  else if strcmp name "prop-delta" = 0 then
    some (.returned my_digger)
  else if strcmp name "new" = 0 then
    /- Found a new svn_edit_t -/
    let new_edit := svn_create_edit indeterminate .action_new atts
    after_starpend (svn_starpend_delta fuel my_digger parent .svn_XML_edit new_edit false)
  else if strcmp name "replace" ≠ 0 then
    /- Found a new svn_edit_t -/
    let new_edit := zeroed_edit.set_kind .action_replace
    /- Our three edit tags currently only have one attribute: "name" -/
    match atts with
    | [] => some .undefined
    | first :: _ =>
      let new_edit :=
        if strcmp first "name" = 0 then new_edit.set_name (some (String.mk first.data.tail)) else new_edit
      /- Now drop this edit at the end of our delta -/
      some (.returned
        { my_digger with
          delta := (svn_append_to_delta my_digger.delta .svn_XML_edit (some new_edit)).2 })
  else if strcmp name "delete" ≠ 0 then
    /- Found a new svn_edit_t -/
    let new_edit := zeroed_edit.set_kind .action_delete
    match atts with
    | [] => some .undefined
    | first :: _ =>
      let new_edit :=
        if strcmp first "name" = 0 then new_edit.set_name (some (String.mk first.data.tail)) else new_edit
      some (.returned
        { my_digger with
          delta := (svn_append_to_delta my_digger.delta .svn_XML_edit (some new_edit)).2 })
  else if strcmp name "file" ≠ 0 then
    /- Found a new svn_edit_content_t -/
    match read_ancestor_attributes atts (zeroed_edit_content.set_kind .file_type) with
    | .undefined => some .undefined
    | .returned this_edit_content =>
      /- Drop the edit_content object on the end of the delta -/
      some (.returned
        { my_digger with
          delta := (svn_append_to_delta my_digger.delta .svn_XML_editcontent
            (some this_edit_content)).2 })
  else if strcmp name "dir" ≠ 0 then
    /- Found a new svn_edit_content_t -/
    match read_ancestor_attributes atts (zeroed_edit_content.set_kind .directory_type) with
    | .undefined => some .undefined
    | .returned this_edit_content =>
      /- Call the "directory" callback in the digger struct -/
      some (.returned
        (handlers.dir_handler
          { my_digger with
            delta := (svn_append_to_delta my_digger.delta .svn_XML_editcontent
              (some this_edit_content)).2 }
          this_edit_content).2)
  else
    /- Found some unrecognized tag, so PUNT to the default handler of the caller. -/
    some (.returned (handlers.unknown_elt_handler my_digger name atts).2)

/-- An `svn_append_to_delta` for the examples: the appending half of
`svn_starpend_delta`. -/
def append_by_starpend : append_to_delta_t :=
  fun delta elt_kind obj =>
    match svn_starpend_delta 0 { delta := delta } .null elt_kind obj false with
    | some (.returned res) => (res.err, res.digger.delta)
    | _ => (none, delta)

/-- Handlers for the examples: the handler for unknown elements throws the delta
away, the directory handler does nothing. -/
def sample_handlers : digger_handlers where
  dir_handler := fun digger _ => (none, digger)
  unknown_elt_handler := fun _ _ _ => (none, { delta := none })

/-- The tree-delta that the edit content of the edit of a delta holds, if there
is one. -/
def nested_tree_delta (d : svn_delta_t) : Option svn_delta_t :=
  match d.edit with
  | none => none
  | some e =>
    match e.content with
    | none => none
    | some c => c.tree_delta

/-- A delta as the tags `<tree-delta><new name="trunk"><dir><tree-delta>` describe
it: the content of its edit holds a nested, still empty, tree-delta. -/
def sample_nested_delta : svn_delta_t :=
  .mk none 0
    (some (.mk (some .action_new) (some "trunk")
      (some (.mk (some .directory_type) none 0 false false (some zeroed_delta)))))

/-- A delta as the tags `<tree-delta><new name="trunk">` describe it: its edit has
no content yet. -/
def sample_edit_delta : svn_delta_t :=
  .mk none 0 (some (.mk (some .action_new) (some "trunk") none))

end DeltaParse

/-!
# Helpers of the client library (`subversion/libsvn_client/util.c`)

`svn_client__assert_homogeneous_target_type` and the three functions that
default an unspecified revision.  `svn_path_is_url` (svn_path.h) is not among the
sources and is a parameter; `svn_opt_revision_t` (svn_opt.h) is not among the
sources either and has the fields that util.c initialises and reads.
-/

namespace Client

/-- The error code that util.c raises for a mixed target list. -/
inductive apr_status_t where
  | SVN_ERR_ILLEGAL_TARGET
  deriving DecidableEq, Repr

/-- An error as `svn_error_createf (apr_err, NULL, message)` makes it. -/
structure svn_error_t where
  apr_err : apr_status_t
  message : String
  deriving DecidableEq, Repr

/-- The error of `svn_client__assert_homogeneous_target_type`. -/
def mixed_targets_error : svn_error_t :=
  { apr_err := .SVN_ERR_ILLEGAL_TARGET
    message := "Cannot mix repository and working copy targets" }

/-- The loop of `svn_client__assert_homogeneous_target_type` over the targets
that are still to come, with the two flags as they stand. -/
def assert_homogeneous_loop (svn_path_is_url : String → Bool) :
    List String → Bool → Bool → Option svn_error_t
  | [], _, _ => none
  | target :: targets, wc_present, url_present =>
    let wc_present := if !svn_path_is_url target then true else wc_present
    let url_present := if !svn_path_is_url target then url_present else true
    if url_present && wc_present then
      some mixed_targets_error
    else
      assert_homogeneous_loop svn_path_is_url targets wc_present url_present

def svn_client__assert_homogeneous_target_type (svn_path_is_url : String → Bool)
    (targets : List String) : Option svn_error_t :=
  assert_homogeneous_loop svn_path_is_url targets false false

/-- The kinds of revision of svn_opt.h. -/
inductive svn_opt_revision_kind where
  | svn_opt_revision_unspecified
  | svn_opt_revision_number
  | svn_opt_revision_date
  | svn_opt_revision_committed
  | svn_opt_revision_previous
  | svn_opt_revision_base
  | svn_opt_revision_working
  | svn_opt_revision_head
  deriving DecidableEq, Repr

/-- A revision: its kind and the value of its union (a revision number or a
date), which the initialiser `{ kind, { 0 } }` sets to 0. -/
structure svn_opt_revision_t where
  kind : svn_opt_revision_kind
  value : Int
  deriving DecidableEq, Repr

/-- The static `head_rev`. -/
def head_rev : svn_opt_revision_t :=
  { kind := .svn_opt_revision_head, value := 0 }

/-- The static `base_rev`. -/
def base_rev : svn_opt_revision_t :=
  { kind := .svn_opt_revision_base, value := 0 }

/-- The static `work_rev`. -/
def work_rev : svn_opt_revision_t :=
  { kind := .svn_opt_revision_working, value := 0 }

def svn_cl__rev_default_to_head_or_base (svn_path_is_url : String → Bool)
    (revision : svn_opt_revision_t) (path_or_url : String) : svn_opt_revision_t :=
  if revision.kind = .svn_opt_revision_unspecified then
    if svn_path_is_url path_or_url then head_rev else base_rev
  else revision

def svn_cl__rev_default_to_head_or_working (svn_path_is_url : String → Bool)
    (revision : svn_opt_revision_t) (path_or_url : String) : svn_opt_revision_t :=
  if revision.kind = .svn_opt_revision_unspecified then
    if svn_path_is_url path_or_url then head_rev else work_rev
  else revision

def svn_cl__rev_default_to_peg (revision peg_revision : svn_opt_revision_t) :
    svn_opt_revision_t :=
  if revision.kind = .svn_opt_revision_unspecified then peg_revision else revision

/-- A stand-in for `svn_path_is_url` in the examples: a target is a URL when it
has `://` behind a scheme of letters. -/
def sample_is_url (target : String) : Bool :=
  let scheme := target.data.takeWhile Char.isAlpha
  !scheme.isEmpty && (target.data.drop scheme.length).take 3 == [':', '/', '/']

end Client

namespace RepCache

/-! ## Properties -/

/-! ### The operations of the keyed-table store -/

@[simp] theorem table_sqlite_open : table_sqlite.svn_sqlite__open = table_open := rfl
@[simp] theorem table_sqlite_read_schema_version :
    table_sqlite.svn_sqlite__read_schema_version = table_read_schema_version := rfl
@[simp] theorem table_sqlite_exec_statements :
    table_sqlite.svn_sqlite__exec_statements = table_exec_statements := rfl
@[simp] theorem table_sqlite_get_statement :
    table_sqlite.svn_sqlite__get_statement = table_get_statement := rfl
@[simp] theorem table_sqlite_bindf : table_sqlite.svn_sqlite__bindf = table_bindf := rfl
@[simp] theorem table_sqlite_step : table_sqlite.svn_sqlite__step = table_step := rfl
@[simp] theorem table_sqlite_step_done : table_sqlite.svn_sqlite__step_done = table_step_done := rfl
@[simp] theorem table_sqlite_insert : table_sqlite.svn_sqlite__insert = table_insert := rfl
@[simp] theorem table_sqlite_reset : table_sqlite.svn_sqlite__reset = table_reset := rfl
@[simp] theorem table_sqlite_column_text :
    table_sqlite.svn_sqlite__column_text = table_column_text := rfl
@[simp] theorem table_sqlite_column_revnum :
    table_sqlite.svn_sqlite__column_revnum = table_column_revnum := rfl
@[simp] theorem table_sqlite_column_int64 :
    table_sqlite.svn_sqlite__column_int64 = table_column_int64 := rfl

theorem set_stmt_set_stmt (db : table_db) (idx : stmt_idx) (a b : stmt_state) :
    set_stmt (set_stmt db idx a) idx b = set_stmt db idx b := by
  unfold set_stmt
  congr 1
  funext j
  by_cases h : j = idx <;> simp [h]

theorem set_stmt_rep_cache (db : table_db) (idx : stmt_idx) (a : stmt_state) :
    (set_stmt db idx a).rep_cache = db.rep_cache := rfl

theorem set_stmt_stmts_same (db : table_db) (idx : stmt_idx) (a : stmt_state) :
    (set_stmt db idx a).stmts idx = a := by
  simp [set_stmt]

theorem filter_hash_of_lookup_none (t : List rep_cache_row) (h : String)
    (hl : lookup_row t h = none) : t.filter (fun r => decide (r.hash = h)) = [] := by
  unfold lookup_row at hl
  rw [List.find?_eq_none] at hl
  rw [List.filter_eq_nil_iff]
  exact hl

theorem filter_hash_of_lookup_some (t : List rep_cache_row) (h : String) (row : rep_cache_row)
    (hl : lookup_row t h = some row) :
    ∃ rest, t.filter (fun r => decide (r.hash = h)) = row :: rest := by
  induction t with
  | nil => simp [lookup_row] at hl
  | cons a t ih =>
    unfold lookup_row at hl ih
    by_cases ha : a.hash = h
    · simp [List.find?, ha] at hl
      subst hl
      exact ⟨t.filter (fun r => decide (r.hash = h)), by rw [List.filter_cons_of_pos (by simpa using ha)]⟩
    · simp [List.find?, ha] at hl
      obtain ⟨rest, hr⟩ := ih hl
      exact ⟨rest, by rw [List.filter_cons_of_neg (by simpa using ha), hr]⟩

theorem get_rep_reference_table (env : collaborators) (fs : svn_fs_t table_db String)
    (sdb : String) (c : svn_checksum_t)
    (hallowed : fs.rep_sharing_allowed = true) (hopen : fs.rep_cache_db = some sdb)
    (hkind : c.kind = .svn_checksum_sha1) :
    svn_fs_x__get_rep_reference table_sqlite env fs c =
      (match lookup_row fs.store.rep_cache (env.svn_checksum_to_cstring c) with
       | none => .ok none
       | some row =>
         match rep_has_been_born env (rep_of_row c.digest row) with
         | some e => .error e
         | none => .ok (some (rep_of_row c.digest row)),
       { fs with store := set_stmt fs.store .STMT_GET_REP idle_stmt }) := by
  unfold svn_fs_x__get_rep_reference
  simp only [hallowed, open_if_needed, hopen, hkind]
  cases hl : lookup_row fs.store.rep_cache (env.svn_checksum_to_cstring c) with
  | none =>
    have hf := filter_hash_of_lookup_none _ _ hl
    simp [table_get_statement, table_bindf, table_step, table_reset, table_insert,
      table_column_revnum, table_column_int64, table_column_text, set_stmt_set_stmt,
      set_stmt_stmts_same, set_stmt_rep_cache,
      run_select, hf, idle_stmt]
  | some row =>
    obtain ⟨rest, hf⟩ := filter_hash_of_lookup_some _ _ _ hl
    simp [table_get_statement, table_bindf, table_step, table_reset, table_insert,
      table_column_revnum, table_column_int64, table_column_text, set_stmt_set_stmt,
      set_stmt_stmts_same, set_stmt_rep_cache,
      run_select, hf, idle_stmt, current_row, rep_of_row, rep_columns]
    cases hb : rep_has_been_born env (rep_of_row c.digest row) <;> simp [rep_of_row] at hb ⊢ <;> simp [hb]

theorem table_db_ext (a b : table_db) (hv : a.user_version = b.user_version)
    (hr : a.rep_cache = b.rep_cache) (hs : ∀ j, a.stmts j = b.stmts j) : a = b := by
  cases a
  cases b
  simp only [table_db.mk.injEq]
  exact ⟨hv, hr, funext hs⟩

theorem set_rep_reference_table (env : collaborators) (fs : svn_fs_t table_db String)
    (sdb : String) (rep : representation_t) (reject_dup : Bool)
    (hallowed : fs.rep_sharing_allowed = true) (hopen : fs.rep_cache_db = some sdb)
    (hsha : rep.has_sha1 = true) :
    svn_fs_x__set_rep_reference table_sqlite env fs rep reject_dup =
      match lookup_row fs.store.rep_cache (row_of_rep env rep).hash with
      | none =>
        (none, { fs with store := set_stmt { fs.store with
                    rep_cache := fs.store.rep_cache ++ [row_of_rep env rep] } .STMT_SET_REP idle_stmt })
      | some row =>
        (match rep_has_been_born env (rep_of_row rep.sha1_digest row) with
         | some e => some e
         | none =>
           if reject_dup && (!svn_fs_x__id_part_eq (rep_of_row rep.sha1_digest row).id rep.id
                || decide ((rep_of_row rep.sha1_digest row).size ≠ rep.size)
                || decide ((rep_of_row rep.sha1_digest row).expanded_size ≠ rep.expanded_size)) then
             some (svn_error_create .SVN_ERR_FS_CORRUPT
               (conflict_message
                 (env.svn_checksum_to_cstring_display { kind := .svn_checksum_sha1, digest := rep.sha1_digest })
                 fs.path (rep_of_row rep.sha1_digest row) rep))
           else none,
         { fs with store := set_stmt (set_stmt fs.store .STMT_SET_REP idle_stmt) .STMT_GET_REP idle_stmt }) := by
  unfold svn_fs_x__set_rep_reference
  simp only [hallowed, open_if_needed, hopen, hsha]
  cases hl : lookup_row fs.store.rep_cache (row_of_rep env rep).hash with
  | none =>
    simp only [row_of_rep] at hl
    simp [table_get_statement, table_bindf, table_step, table_reset, table_insert,
      table_column_revnum, table_column_int64, table_column_text, set_stmt_set_stmt,
      set_stmt_stmts_same, set_stmt_rep_cache,
      hl, idle_stmt, row_of_rep]
    apply table_db_ext
    · rfl
    · rfl
    · intro j
      by_cases hj : j = .STMT_SET_REP <;> simp [set_stmt, hj]
  | some row =>
    simp only [row_of_rep] at hl
    simp [table_get_statement, table_bindf, table_step, table_reset, table_insert,
      table_column_revnum, table_column_int64, table_column_text, set_stmt_set_stmt,
      set_stmt_stmts_same, set_stmt_rep_cache,
      hl, constraint_error, svn_error_create]
    rw [get_rep_reference_table env _ sdb
      { kind := .svn_checksum_sha1, digest := rep.sha1_digest } rfl rfl rfl]
    simp only [set_stmt_rep_cache, hl, idle_stmt]
    cases hb : rep_has_been_born env (rep_of_row rep.sha1_digest row) with
    | some e => rfl
    | none =>
      simp only []
      split <;> rfl

/-! ### Store and lookup -/

theorem to_uint64_to_int64 (n : Nat) (h : n < 2 ^ 64) : to_uint64 (to_int64 n) = n := by
  unfold to_uint64 to_int64
  rw [Nat.mod_eq_of_lt h]
  split <;> omega

theorem rep_of_row_row_of_rep (env : collaborators) (rep : representation_t)
    (hnum : rep.id.number < 2 ^ 64) :
    (rep_of_row rep.sha1_digest (row_of_rep env rep)).id = rep.id
      ∧ (rep_of_row rep.sha1_digest (row_of_rep env rep)).size = rep.size
      ∧ (rep_of_row rep.sha1_digest (row_of_rep env rep)).expanded_size = rep.expanded_size := by
  simp [rep_of_row, row_of_rep, to_uint64_to_int64 _ hnum]

theorem lookup_row_append_of_some (t u : List rep_cache_row) (h : String) (row : rep_cache_row)
    (hl : lookup_row t h = some row) : lookup_row (t ++ u) h = some row := by
  unfold lookup_row at hl ⊢
  rw [List.find?_append, hl]
  rfl

theorem lookup_row_append_of_none (t : List rep_cache_row) (h : String) (row : rep_cache_row)
    (hl : lookup_row t h = none) (hh : row.hash = h) : lookup_row (t ++ [row]) h = some row := by
  unfold lookup_row at hl ⊢
  rw [List.find?_append, hl]
  simp [List.find?, hh]

theorem id_part_eq_iff (a b : svn_fs_x__id_part_t) : svn_fs_x__id_part_eq a b = true ↔ a = b := by
  cases a
  cases b
  simp [svn_fs_x__id_part_eq]

/-- C1 (as amended): on an open rep-cache, when `svn_fs_x__set_rep_reference`
returns successfully for a representation `rep` with the SHA-1 present, and
either `reject_dup` was set or the hash was not mapped before the call, and the
revision of `rep` exists in FS, then `svn_fs_x__get_rep_reference` on the SHA-1
checksum of `rep` returns a representation with the same revision, item index,
size and expanded size. -/
theorem set_then_get_round_trip (env : collaborators) (fs : svn_fs_t table_db String)
    (sdb : String) (rep : representation_t) (reject_dup : Bool)
    (hallowed : fs.rep_sharing_allowed = true) (hopen : fs.rep_cache_db = some sdb)
    (hsha : rep.has_sha1 = true) (hnum : rep.id.number < 2 ^ 64)
    (hok : (svn_fs_x__set_rep_reference table_sqlite env fs rep reject_dup).1 = none)
    (hfresh : reject_dup = true ∨ lookup_row fs.store.rep_cache (row_of_rep env rep).hash = none)
    (hborn : rep_has_been_born env rep = none) :
    ∃ found : representation_t,
      (svn_fs_x__get_rep_reference table_sqlite env
          (svn_fs_x__set_rep_reference table_sqlite env fs rep reject_dup).2
          { kind := .svn_checksum_sha1, digest := rep.sha1_digest }).1 = .ok (some found)
        ∧ found.id.change_set = rep.id.change_set
        ∧ found.id.number = rep.id.number
        ∧ found.size = rep.size
        ∧ found.expanded_size = rep.expanded_size := by
  rw [set_rep_reference_table env fs sdb rep reject_dup hallowed hopen hsha] at hok ⊢
  cases hl : lookup_row fs.store.rep_cache (row_of_rep env rep).hash with
  | none =>
    simp only [hl]
    rw [get_rep_reference_table env _ sdb _ ?_ ?_ ?_]
    rotate_left
    · exact hallowed
    · exact hopen
    · rfl
    have hl2 : lookup_row (fs.store.rep_cache ++ [row_of_rep env rep])
        (env.svn_checksum_to_cstring { kind := .svn_checksum_sha1, digest := rep.sha1_digest })
        = some (row_of_rep env rep) := lookup_row_append_of_none _ _ (row_of_rep env rep) hl rfl
    simp only [set_stmt_rep_cache, hl2]
    obtain ⟨h1, h2, h3⟩ := rep_of_row_row_of_rep env rep hnum
    have hb : rep_has_been_born env (rep_of_row rep.sha1_digest (row_of_rep env rep)) = none := by
      simpa [rep_has_been_born, rep_of_row, row_of_rep] using hborn
    simp only [hb]
    exact ⟨_, rfl, by rw [h1], by rw [h1], h2, h3⟩
  | some row =>
    simp only [hl] at hok ⊢
    rw [get_rep_reference_table env _ sdb _ ?_ ?_ ?_]
    rotate_left
    · exact hallowed
    · exact hopen
    · rfl
    have hl2 : lookup_row fs.store.rep_cache
        (env.svn_checksum_to_cstring { kind := .svn_checksum_sha1, digest := rep.sha1_digest })
        = some row := hl
    simp only [set_stmt_rep_cache, hl2]
    have hd : reject_dup = true := by
      rcases hfresh with h | h
      · exact h
      · rw [hl] at h
        cases h
    cases hb : rep_has_been_born env (rep_of_row rep.sha1_digest row) with
    | some e => simp [hb] at hok
    | none =>
      simp only [hb, hd, Bool.true_and] at hok ⊢
      split at hok
      · cases hok
      · rename_i hne
        simp only [Bool.or_eq_true, Bool.not_eq_true', decide_eq_true_eq, not_or,
          Bool.not_eq_false, id_part_eq_iff, ne_eq, not_not] at hne
        obtain ⟨⟨h1, h2⟩, h3⟩ := hne
        exact ⟨_, rfl, by rw [h1], by rw [h1], h2, h3⟩

theorem set_then_get_round_trip_witness :
    ∃ found : representation_t,
      (svn_fs_x__get_rep_reference table_sqlite (sample_collaborators 10)
          (svn_fs_x__set_rep_reference table_sqlite (sample_collaborators 10) (sample_fs [])
            (sample_rep 5 2 100 100) true).2
          { kind := .svn_checksum_sha1, digest := (sample_rep 5 2 100 100).sha1_digest }).1
            = .ok (some found)
        ∧ found.id.change_set = 5 ∧ found.id.number = 2 ∧ found.size = 100
        ∧ found.expanded_size = 100 :=
  set_then_get_round_trip (sample_collaborators 10) (sample_fs []) (path_rep_cache_db "repos/db")
    (sample_rep 5 2 100 100) true rfl rfl rfl (by decide) (by decide) (Or.inl rfl) (by decide)

/-- C1 (as stated) fails: with `reject_dup` unset the store succeeds on a hash that is
already mapped to another location, and the lookup then returns the old location;
and a stored representation whose revision is not in FS is not returned at all. -/
theorem round_trip_counterexample :
    ((svn_fs_x__set_rep_reference table_sqlite (sample_collaborators 10)
        (sample_fs [{ hash := "abc123", revision := 5, offset := 2, size := 100, expanded_size := 100 }])
        (sample_rep 6 2 100 100) false).1 = none
      ∧ (svn_fs_x__get_rep_reference table_sqlite (sample_collaborators 10)
          (svn_fs_x__set_rep_reference table_sqlite (sample_collaborators 10)
            (sample_fs [{ hash := "abc123", revision := 5, offset := 2, size := 100, expanded_size := 100 }])
            (sample_rep 6 2 100 100) false).2
          { kind := .svn_checksum_sha1, digest := (sample_rep 6 2 100 100).sha1_digest }).1
            = .ok (some (sample_rep 5 2 100 100))
      ∧ (sample_rep 5 2 100 100).id.change_set ≠ (sample_rep 6 2 100 100).id.change_set)
    ∧ ((svn_fs_x__set_rep_reference table_sqlite (sample_collaborators 4) (sample_fs [])
          (sample_rep 5 2 100 100) true).1 = none
      ∧ (svn_fs_x__get_rep_reference table_sqlite (sample_collaborators 4)
          (svn_fs_x__set_rep_reference table_sqlite (sample_collaborators 4) (sample_fs [])
            (sample_rep 5 2 100 100) true).2
          { kind := .svn_checksum_sha1, digest := (sample_rep 5 2 100 100).sha1_digest }).1
            = .error (no_such_revision 5)) :=
  ⟨⟨by decide, rfl, by decide⟩, by decide, rfl⟩

theorem set_rep_reference_table_fst (env : collaborators) (fs : svn_fs_t table_db String)
    (sdb : String) (rep : representation_t) (reject_dup : Bool)
    (hallowed : fs.rep_sharing_allowed = true) (hopen : fs.rep_cache_db = some sdb)
    (hsha : rep.has_sha1 = true) :
    (svn_fs_x__set_rep_reference table_sqlite env fs rep reject_dup).1 =
      match lookup_row fs.store.rep_cache (row_of_rep env rep).hash with
      | none => none
      | some row =>
        match rep_has_been_born env (rep_of_row rep.sha1_digest row) with
        | some e => some e
        | none =>
          if reject_dup && (!svn_fs_x__id_part_eq (rep_of_row rep.sha1_digest row).id rep.id
               || decide ((rep_of_row rep.sha1_digest row).size ≠ rep.size)
               || decide ((rep_of_row rep.sha1_digest row).expanded_size ≠ rep.expanded_size)) then
            some (svn_error_create .SVN_ERR_FS_CORRUPT
              (conflict_message
                (env.svn_checksum_to_cstring_display { kind := .svn_checksum_sha1, digest := rep.sha1_digest })
                fs.path (rep_of_row rep.sha1_digest row) rep))
          else none := by
  rw [set_rep_reference_table env fs sdb rep reject_dup hallowed hopen hsha]
  cases lookup_row fs.store.rep_cache (row_of_rep env rep).hash <;> rfl

theorem set_rep_reference_table_rows (env : collaborators) (fs : svn_fs_t table_db String)
    (sdb : String) (rep : representation_t) (reject_dup : Bool)
    (hallowed : fs.rep_sharing_allowed = true) (hopen : fs.rep_cache_db = some sdb)
    (hsha : rep.has_sha1 = true) :
    (svn_fs_x__set_rep_reference table_sqlite env fs rep reject_dup).2.store.rep_cache =
      match lookup_row fs.store.rep_cache (row_of_rep env rep).hash with
      | none => fs.store.rep_cache ++ [row_of_rep env rep]
      | some _ => fs.store.rep_cache := by
  rw [set_rep_reference_table env fs sdb rep reject_dup hallowed hopen hsha]
  cases lookup_row fs.store.rep_cache (row_of_rep env rep).hash <;> rfl

theorem set_rep_reference_table_frame (env : collaborators) (fs : svn_fs_t table_db String)
    (sdb : String) (rep : representation_t) (reject_dup : Bool)
    (hallowed : fs.rep_sharing_allowed = true) (hopen : fs.rep_cache_db = some sdb)
    (hsha : rep.has_sha1 = true) :
    (svn_fs_x__set_rep_reference table_sqlite env fs rep reject_dup).2.rep_sharing_allowed = true
      ∧ (svn_fs_x__set_rep_reference table_sqlite env fs rep reject_dup).2.rep_cache_db = some sdb
      ∧ (svn_fs_x__set_rep_reference table_sqlite env fs rep reject_dup).2.path = fs.path := by
  rw [set_rep_reference_table env fs sdb rep reject_dup hallowed hopen hsha]
  cases lookup_row fs.store.rep_cache (row_of_rep env rep).hash <;> exact ⟨hallowed, hopen, rfl⟩

/-- C2 (as amended): on an open rep-cache, for a representation `rep` with the SHA-1
present whose revision exists in FS, if a first `svn_fs_x__set_rep_reference`
succeeds, then a second call with the identical `rep` and the same `reject_dup`
(either value) succeeds as well and leaves the rows of the index exactly as they
were after the first call. -/
theorem set_twice_idempotent (env : collaborators) (fs : svn_fs_t table_db String)
    (sdb : String) (rep : representation_t) (reject_dup : Bool)
    (hallowed : fs.rep_sharing_allowed = true) (hopen : fs.rep_cache_db = some sdb)
    (hsha : rep.has_sha1 = true) (hnum : rep.id.number < 2 ^ 64)
    (hfirst : (svn_fs_x__set_rep_reference table_sqlite env fs rep reject_dup).1 = none)
    (hborn : rep_has_been_born env rep = none) :
    (svn_fs_x__set_rep_reference table_sqlite env
        (svn_fs_x__set_rep_reference table_sqlite env fs rep reject_dup).2 rep reject_dup).1 = none
      ∧ (svn_fs_x__set_rep_reference table_sqlite env
          (svn_fs_x__set_rep_reference table_sqlite env fs rep reject_dup).2 rep reject_dup).2.store.rep_cache
        = (svn_fs_x__set_rep_reference table_sqlite env fs rep reject_dup).2.store.rep_cache := by
  obtain ⟨ha1, ho1, hp1⟩ := set_rep_reference_table_frame env fs sdb rep reject_dup hallowed hopen hsha
  have hrows := set_rep_reference_table_rows env fs sdb rep reject_dup hallowed hopen hsha
  rw [set_rep_reference_table_fst env fs sdb rep reject_dup hallowed hopen hsha] at hfirst
  rw [set_rep_reference_table_fst env _ sdb rep reject_dup ha1 ho1 hsha,
    set_rep_reference_table_rows env _ sdb rep reject_dup ha1 ho1 hsha, hrows, hp1]
  cases hl : lookup_row fs.store.rep_cache (row_of_rep env rep).hash with
  | none =>
    have hl2 := lookup_row_append_of_none _ _ (row_of_rep env rep) hl rfl
    obtain ⟨h1, h2, h3⟩ := rep_of_row_row_of_rep env rep hnum
    have hb : rep_has_been_born env (rep_of_row rep.sha1_digest (row_of_rep env rep)) = none := by
      simpa [rep_has_been_born, rep_of_row, row_of_rep] using hborn
    simp only [hl2, hb, h1, h2, h3]
    simp [(id_part_eq_iff rep.id rep.id).2 rfl]
  | some row =>
    simp only [hl] at hfirst ⊢
    exact ⟨hfirst, trivial⟩

theorem set_twice_idempotent_witness :
    (svn_fs_x__set_rep_reference table_sqlite (sample_collaborators 10)
        (svn_fs_x__set_rep_reference table_sqlite (sample_collaborators 10) (sample_fs [])
          (sample_rep 5 2 100 100) true).2 (sample_rep 5 2 100 100) true).1 = none
      ∧ (svn_fs_x__set_rep_reference table_sqlite (sample_collaborators 10)
          (svn_fs_x__set_rep_reference table_sqlite (sample_collaborators 10) (sample_fs [])
            (sample_rep 5 2 100 100) true).2 (sample_rep 5 2 100 100) true).2.store.rep_cache
        = (svn_fs_x__set_rep_reference table_sqlite (sample_collaborators 10) (sample_fs [])
            (sample_rep 5 2 100 100) true).2.store.rep_cache :=
  set_twice_idempotent (sample_collaborators 10) (sample_fs []) (path_rep_cache_db "repos/db")
    (sample_rep 5 2 100 100) true rfl rfl rfl (by decide) (by decide) (by decide)

/-- C2 (as stated) fails: a representation of revision 5 is stored into an empty
index while FS has revisions 0 to 4 only; the first call succeeds and the second
call with the identical representation fails.  And when the hash is mapped to
another location, the second call with `reject_dup` fails like the first. -/
theorem idempotent_store_counterexample :
    ((svn_fs_x__set_rep_reference table_sqlite (sample_collaborators 4) (sample_fs [])
        (sample_rep 5 2 100 100) false).1 = none
      ∧ (svn_fs_x__set_rep_reference table_sqlite (sample_collaborators 4)
          (svn_fs_x__set_rep_reference table_sqlite (sample_collaborators 4) (sample_fs [])
            (sample_rep 5 2 100 100) false).2 (sample_rep 5 2 100 100) false).1
          = some (no_such_revision 5))
    ∧ (svn_fs_x__set_rep_reference table_sqlite (sample_collaborators 10)
          (svn_fs_x__set_rep_reference table_sqlite (sample_collaborators 10)
            (sample_fs [{ hash := "abc123", revision := 5, offset := 2, size := 100, expanded_size := 100 }])
            (sample_rep 6 2 100 100) true).2 (sample_rep 6 2 100 100) true).1 ≠ none := by
  decide

/-- C3 (as amended): on an open rep-cache, for every hash that is mapped to an
entry whose revision exists in FS and every representation `rep` with that hash
whose revision, item index, size or expanded size differs from the stored entry,
`svn_fs_x__set_rep_reference` with `reject_dup` fails with `SVN_ERR_FS_CORRUPT`,
and the message contains the text of the stored tuple followed by the text of the
attempted tuple. -/
theorem set_conflict_rejected (env : collaborators) (fs : svn_fs_t table_db String)
    (sdb : String) (rep : representation_t) (row : rep_cache_row)
    (hallowed : fs.rep_sharing_allowed = true) (hopen : fs.rep_cache_db = some sdb)
    (hsha : rep.has_sha1 = true)
    (hmapped : lookup_row fs.store.rep_cache (row_of_rep env rep).hash = some row)
    (hexists : env.svn_fs_x__ensure_revision_exists (env.svn_fs_x__get_revnum row.revision) = none)
    (hdiff : (rep_of_row rep.sha1_digest row).id.change_set ≠ rep.id.change_set
      ∨ (rep_of_row rep.sha1_digest row).id.number ≠ rep.id.number
      ∨ (rep_of_row rep.sha1_digest row).size ≠ rep.size
      ∨ (rep_of_row rep.sha1_digest row).expanded_size ≠ rep.expanded_size) :
    ∃ err : svn_error_t,
      (svn_fs_x__set_rep_reference table_sqlite env fs rep true).1 = some err
        ∧ err.apr_err = .SVN_ERR_FS_CORRUPT
        ∧ ∃ before between : String,
            err.message = before ++ tuple_text (rep_of_row rep.sha1_digest row) ++ between
              ++ tuple_text rep := by
  rw [set_rep_reference_table_fst env fs sdb rep true hallowed hopen hsha, hmapped]
  have hb : rep_has_been_born env (rep_of_row rep.sha1_digest row) = none := hexists
  have hc : (true && (!svn_fs_x__id_part_eq (rep_of_row rep.sha1_digest row).id rep.id
      || decide ((rep_of_row rep.sha1_digest row).size ≠ rep.size)
      || decide ((rep_of_row rep.sha1_digest row).expanded_size ≠ rep.expanded_size))) = true := by
    by_cases hid : (rep_of_row rep.sha1_digest row).id = rep.id
    · have h1 : (rep_of_row rep.sha1_digest row).size ≠ rep.size
          ∨ (rep_of_row rep.sha1_digest row).expanded_size ≠ rep.expanded_size := by
        rcases hdiff with h | h | h | h
        · exact absurd (by rw [hid]) h
        · exact absurd (by rw [hid]) h
        · exact Or.inl h
        · exact Or.inr h
      rcases h1 with h | h <;> simp [h]
    · have : svn_fs_x__id_part_eq (rep_of_row rep.sha1_digest row).id rep.id = false := by
        rw [← Bool.not_eq_true, id_part_eq_iff]
        exact hid
      simp [this]
  simp only [hb, hc, if_true]
  exact ⟨_, rfl, rfl, _, _, rfl⟩

theorem set_conflict_rejected_witness :
    ∃ err : svn_error_t,
      (svn_fs_x__set_rep_reference table_sqlite (sample_collaborators 10)
        (sample_fs [{ hash := "abc123", revision := 5, offset := 2, size := 100, expanded_size := 100 }])
        (sample_rep 6 2 100 100) true).1 = some err
        ∧ err.apr_err = .SVN_ERR_FS_CORRUPT
        ∧ ∃ before between : String,
            err.message = before
              ++ tuple_text (rep_of_row (sample_rep 6 2 100 100).sha1_digest
                  { hash := "abc123", revision := 5, offset := 2, size := 100, expanded_size := 100 })
              ++ between ++ tuple_text (sample_rep 6 2 100 100) :=
  set_conflict_rejected (sample_collaborators 10)
    (sample_fs [{ hash := "abc123", revision := 5, offset := 2, size := 100, expanded_size := 100 }])
    (path_rep_cache_db "repos/db") (sample_rep 6 2 100 100)
    { hash := "abc123", revision := 5, offset := 2, size := 100, expanded_size := 100 }
    rfl rfl rfl (by decide) (by decide) (Or.inl (by decide))

/-- C3 (as stated) fails: the hash is mapped to an entry of revision 5, FS has
revisions 0 to 4 only; storing another location for the hash with `reject_dup`
fails with the error of the revision check, which is not `SVN_ERR_FS_CORRUPT`. -/
theorem conflict_rejection_counterexample :
    ∃ err : svn_error_t,
      (svn_fs_x__set_rep_reference table_sqlite (sample_collaborators 4)
        (sample_fs [{ hash := "abc123", revision := 5, offset := 2, size := 100, expanded_size := 100 }])
        (sample_rep 6 2 100 100) true).1 = some err
        ∧ err.apr_err ≠ .SVN_ERR_FS_CORRUPT :=
  ⟨no_such_revision 5, by decide, by decide⟩

/-- C4 (as amended): on an open rep-cache, for every hash that is mapped to an
entry whose revision exists in FS and every representation `rep` with that hash,
`svn_fs_x__set_rep_reference` without `reject_dup` returns success, the index
still maps the hash to the original entry, and no row has changed. -/
theorem set_existing_mapping_wins (env : collaborators) (fs : svn_fs_t table_db String)
    (sdb : String) (rep : representation_t) (row : rep_cache_row)
    (hallowed : fs.rep_sharing_allowed = true) (hopen : fs.rep_cache_db = some sdb)
    (hsha : rep.has_sha1 = true)
    (hmapped : lookup_row fs.store.rep_cache (row_of_rep env rep).hash = some row)
    (hexists : env.svn_fs_x__ensure_revision_exists (env.svn_fs_x__get_revnum row.revision) = none) :
    (svn_fs_x__set_rep_reference table_sqlite env fs rep false).1 = none
      ∧ lookup_row (svn_fs_x__set_rep_reference table_sqlite env fs rep false).2.store.rep_cache
          (row_of_rep env rep).hash = some row
      ∧ (svn_fs_x__set_rep_reference table_sqlite env fs rep false).2.store.rep_cache
          = fs.store.rep_cache := by
  have hb : rep_has_been_born env (rep_of_row rep.sha1_digest row) = none := hexists
  rw [set_rep_reference_table_fst env fs sdb rep false hallowed hopen hsha,
    set_rep_reference_table_rows env fs sdb rep false hallowed hopen hsha, hmapped]
  simp only [hb, Bool.false_and]
  exact ⟨rfl, hmapped, trivial⟩

theorem set_existing_mapping_wins_witness :
    (svn_fs_x__set_rep_reference table_sqlite (sample_collaborators 10)
        (sample_fs [{ hash := "abc123", revision := 5, offset := 2, size := 100, expanded_size := 100 }])
        (sample_rep 6 2 100 100) false).1 = none
      ∧ lookup_row (svn_fs_x__set_rep_reference table_sqlite (sample_collaborators 10)
          (sample_fs [{ hash := "abc123", revision := 5, offset := 2, size := 100, expanded_size := 100 }])
          (sample_rep 6 2 100 100) false).2.store.rep_cache
          (row_of_rep (sample_collaborators 10) (sample_rep 6 2 100 100)).hash
        = some { hash := "abc123", revision := 5, offset := 2, size := 100, expanded_size := 100 }
      ∧ (svn_fs_x__set_rep_reference table_sqlite (sample_collaborators 10)
          (sample_fs [{ hash := "abc123", revision := 5, offset := 2, size := 100, expanded_size := 100 }])
          (sample_rep 6 2 100 100) false).2.store.rep_cache
        = (sample_fs [{ hash := "abc123", revision := 5, offset := 2, size := 100,
                        expanded_size := 100 }]).store.rep_cache :=
  set_existing_mapping_wins (sample_collaborators 10)
    (sample_fs [{ hash := "abc123", revision := 5, offset := 2, size := 100, expanded_size := 100 }])
    (path_rep_cache_db "repos/db") (sample_rep 6 2 100 100)
    { hash := "abc123", revision := 5, offset := 2, size := 100, expanded_size := 100 }
    rfl rfl rfl (by decide) (by decide)

/-- C4 (as stated) fails: the hash is mapped to an entry of revision 5, FS has
revisions 0 to 4 only; storing another location for the hash without `reject_dup`
does not return success, it returns the error of the revision check. -/
theorem existing_mapping_wins_counterexample :
    (svn_fs_x__set_rep_reference table_sqlite (sample_collaborators 4)
        (sample_fs [{ hash := "abc123", revision := 5, offset := 2, size := 100, expanded_size := 100 }])
        (sample_rep 6 2 100 100) false).1 = some (no_such_revision 5) := by
  decide

theorem open_rep_cache_table_frame (fs : svn_fs_t table_db String) :
    (open_rep_cache table_sqlite fs).2.store.rep_cache = fs.store.rep_cache
      ∧ (open_rep_cache table_sqlite fs).2.rep_sharing_allowed = fs.rep_sharing_allowed
      ∧ (open_rep_cache table_sqlite fs).2.path = fs.path := by
  simp only [open_rep_cache, table_sqlite_open, table_open, table_sqlite_read_schema_version,
    table_read_schema_version, table_sqlite_exec_statements, table_exec_statements]
  split <;> exact ⟨rfl, rfl, rfl⟩

theorem open_if_needed_table_frame (fs : svn_fs_t table_db String) :
    (open_if_needed table_sqlite fs).2.store.rep_cache = fs.store.rep_cache
      ∧ (open_if_needed table_sqlite fs).2.rep_sharing_allowed = fs.rep_sharing_allowed
      ∧ (open_if_needed table_sqlite fs).2.path = fs.path := by
  unfold open_if_needed
  cases hdb : fs.rep_cache_db with
  | some sdb => exact ⟨rfl, rfl, rfl⟩
  | none =>
    simp only [svn_fs_x__open_rep_cache, svn_atomic__init_once]
    cases hst : fs.rep_cache_db_opened with
    | initialized => exact ⟨rfl, rfl, rfl⟩
    | init_failed e => exact ⟨rfl, rfl, rfl⟩
    | uninitialized =>
      have h := open_rep_cache_table_frame fs
      rcases hr : open_rep_cache table_sqlite fs with ⟨r, fs1⟩
      rw [hr] at h
      cases r <;> exact h

theorem set_rep_reference_after_open (env : collaborators) (fs fs1 : svn_fs_t table_db String)
    (sdb : String) (rep : representation_t) (reject_dup : Bool)
    (hallowed : fs.rep_sharing_allowed = true)
    (hres : open_if_needed table_sqlite fs = (none, fs1)) (hdb : fs1.rep_cache_db = some sdb) :
    svn_fs_x__set_rep_reference table_sqlite env fs rep reject_dup
      = svn_fs_x__set_rep_reference table_sqlite env fs1 rep reject_dup := by
  obtain ⟨_, ha, hp⟩ := open_if_needed_table_frame fs
  rw [hres] at ha hp
  simp only at ha hp
  have ha1 : fs1.rep_sharing_allowed = true := by rw [ha, hallowed]
  have ho1 : open_if_needed table_sqlite fs1 = (none, fs1) := by
    unfold open_if_needed
    rw [hdb]
  unfold svn_fs_x__set_rep_reference
  simp only [hallowed, ha1, hres, ho1, ← hp, Bool.true_eq_false, if_false]

/-- C5: for every state of the filesystem object and of the index, every
representation and either value of `reject_dup`, after
`svn_fs_x__set_rep_reference` has returned (successfully or with an error) every
hash that was mapped before the call is still mapped to the same row: a store
never overwrites or removes an existing entry. -/
theorem set_never_overwrites (env : collaborators) (fs : svn_fs_t table_db String)
    (rep : representation_t) (reject_dup : Bool) (hash : String) (row : rep_cache_row)
    (hmapped : lookup_row fs.store.rep_cache hash = some row) :
    lookup_row (svn_fs_x__set_rep_reference table_sqlite env fs rep reject_dup).2.store.rep_cache hash
      = some row := by
  by_cases hallowed : fs.rep_sharing_allowed = false
  · unfold svn_fs_x__set_rep_reference
    simp only [hallowed, if_true]
    exact hmapped
  · have hallowed1 : fs.rep_sharing_allowed = true := by simpa using hallowed
    obtain ⟨hr, ha, _⟩ := open_if_needed_table_frame fs
    rcases hres : open_if_needed table_sqlite fs with ⟨r, fs1⟩
    rw [hres] at hr ha
    simp only at hr ha
    have hmapped1 : lookup_row fs1.store.rep_cache hash = some row := by rw [hr]; exact hmapped
    cases r with
    | some e =>
      unfold svn_fs_x__set_rep_reference
      simp only [hallowed1, hres]
      exact hmapped1
    | none =>
      by_cases hsha : rep.has_sha1 = false
      · unfold svn_fs_x__set_rep_reference
        simp only [hallowed1, hres, hsha]
        exact hmapped1
      · have hsha1 : rep.has_sha1 = true := by simpa using hsha
        cases hdb : fs1.rep_cache_db with
        | none =>
          unfold svn_fs_x__set_rep_reference
          simp only [hallowed1, hres, hsha1, hdb, table_sqlite_get_statement, table_get_statement]
          exact hmapped1
        | some sdb =>
          rw [set_rep_reference_after_open env fs fs1 sdb rep reject_dup hallowed1 hres hdb,
            set_rep_reference_table_rows env fs1 sdb rep reject_dup (by rw [ha, hallowed1]) hdb hsha1]
          cases hl : lookup_row fs1.store.rep_cache (row_of_rep env rep).hash with
          | none => exact lookup_row_append_of_some _ _ _ _ hmapped1
          | some old => exact hmapped1

theorem set_never_overwrites_witness :
    lookup_row (svn_fs_x__set_rep_reference table_sqlite (sample_collaborators 10)
        (sample_fs [{ hash := "00ff", revision := 1, offset := 7, size := 30, expanded_size := 40 }])
        (sample_rep 5 2 100 100) false).2.store.rep_cache "00ff"
      = some { hash := "00ff", revision := 1, offset := 7, size := 30, expanded_size := 40 } :=
  set_never_overwrites (sample_collaborators 10)
    (sample_fs [{ hash := "00ff", revision := 1, offset := 7, size := 30, expanded_size := 40 }])
    (sample_rep 5 2 100 100) false "00ff"
    { hash := "00ff", revision := 1, offset := 7, size := 30, expanded_size := 40 } (by decide)

/-- C6: on an open rep-cache, for every SHA-1 checksum that the index maps to an
entry whose revision the revision-existence oracle reports as absent,
`svn_fs_x__get_rep_reference` returns the error of the oracle: it returns neither
the stored representation nor `NULL` as a successful result. -/
theorem get_hit_of_absent_revision_fails (env : collaborators) (fs : svn_fs_t table_db String)
    (sdb : String) (checksum : svn_checksum_t) (row : rep_cache_row) (err : svn_error_t)
    (hallowed : fs.rep_sharing_allowed = true) (hopen : fs.rep_cache_db = some sdb)
    (hkind : checksum.kind = .svn_checksum_sha1)
    (hmapped : lookup_row fs.store.rep_cache (env.svn_checksum_to_cstring checksum) = some row)
    (habsent : env.svn_fs_x__ensure_revision_exists (env.svn_fs_x__get_revnum row.revision) = some err) :
    (svn_fs_x__get_rep_reference table_sqlite env fs checksum).1 = .error err
      ∧ (∀ found, (svn_fs_x__get_rep_reference table_sqlite env fs checksum).1 ≠ .ok found) := by
  have hb : rep_has_been_born env (rep_of_row checksum.digest row) = some err := habsent
  rw [get_rep_reference_table env fs sdb checksum hallowed hopen hkind, hmapped]
  simp only [hb]
  exact ⟨trivial, fun found h => by cases h⟩

theorem get_hit_of_absent_revision_fails_witness :
    (svn_fs_x__get_rep_reference table_sqlite (sample_collaborators 4)
        (sample_fs [{ hash := "abc123", revision := 5, offset := 2, size := 100, expanded_size := 100 }])
        { kind := .svn_checksum_sha1, digest := [171, 193, 35] }).1 = .error (no_such_revision 5)
      ∧ (∀ found, (svn_fs_x__get_rep_reference table_sqlite (sample_collaborators 4)
        (sample_fs [{ hash := "abc123", revision := 5, offset := 2, size := 100, expanded_size := 100 }])
        { kind := .svn_checksum_sha1, digest := [171, 193, 35] }).1 ≠ .ok found) :=
  get_hit_of_absent_revision_fails (sample_collaborators 4)
    (sample_fs [{ hash := "abc123", revision := 5, offset := 2, size := 100, expanded_size := 100 }])
    (path_rep_cache_db "repos/db") { kind := .svn_checksum_sha1, digest := [171, 193, 35] }
    { hash := "abc123", revision := 5, offset := 2, size := 100, expanded_size := 100 }
    (no_such_revision 5) rfl rfl rfl (by decide) (by decide)

theorem get_rep_reference_after_open (env : collaborators) (fs fs1 : svn_fs_t table_db String)
    (sdb : String) (checksum : svn_checksum_t)
    (hallowed : fs.rep_sharing_allowed = true)
    (hres : open_if_needed table_sqlite fs = (none, fs1)) (hdb : fs1.rep_cache_db = some sdb) :
    svn_fs_x__get_rep_reference table_sqlite env fs checksum
      = svn_fs_x__get_rep_reference table_sqlite env fs1 checksum := by
  obtain ⟨_, ha, _⟩ := open_if_needed_table_frame fs
  rw [hres] at ha
  simp only at ha
  have ha1 : fs1.rep_sharing_allowed = true := by rw [ha, hallowed]
  have ho1 : open_if_needed table_sqlite fs1 = (none, fs1) := by
    unfold open_if_needed
    rw [hdb]
  unfold svn_fs_x__get_rep_reference
  simp only [hallowed, ha1, hres, ho1, Bool.true_eq_false, if_false]

/-- C7 (as amended): when rep-sharing is allowed and the rep-cache is open, or
the lazy open of the call succeeds and leaves it open, for every SHA-1 checksum
that is not a key of the index, `svn_fs_x__get_rep_reference` succeeds and returns no
representation, and it does so whatever revision-existence oracle is put in
place of the one of the collaborators: the oracle is not consulted.  The rows of
the index are as they were. -/
theorem get_miss_returns_none (env : collaborators) (fs fs1 : svn_fs_t table_db String)
    (sdb : String) (checksum : svn_checksum_t) (oracle : Int → Option svn_error_t)
    (hallowed : fs.rep_sharing_allowed = true)
    (hopen : open_if_needed table_sqlite fs = (none, fs1))
    (hdb : fs1.rep_cache_db = some sdb)
    (hkind : checksum.kind = .svn_checksum_sha1)
    (hmiss : lookup_row fs.store.rep_cache (env.svn_checksum_to_cstring checksum) = none) :
    (svn_fs_x__get_rep_reference table_sqlite
        { env with svn_fs_x__ensure_revision_exists := oracle } fs checksum).1 = .ok none
      ∧ (svn_fs_x__get_rep_reference table_sqlite
          { env with svn_fs_x__ensure_revision_exists := oracle } fs checksum).2.store.rep_cache
        = fs.store.rep_cache := by
  obtain ⟨hrows, ha, _⟩ := open_if_needed_table_frame fs
  rw [hopen] at hrows ha
  simp only at hrows ha
  have ha1 : fs1.rep_sharing_allowed = true := by rw [ha, hallowed]
  rw [get_rep_reference_after_open _ fs fs1 sdb checksum hallowed hopen hdb,
    get_rep_reference_table _ fs1 sdb checksum ha1 hdb hkind]
  simp only [hrows, hmiss]
  exact ⟨trivial, by rw [set_stmt_rep_cache, hrows]⟩

theorem get_miss_returns_none_witness :
    (svn_fs_x__get_rep_reference table_sqlite
        { sample_collaborators 10 with
          svn_fs_x__ensure_revision_exists := fun rev => some (no_such_revision rev) }
        (fresh_fs sample_rows 1)
        { kind := .svn_checksum_sha1, digest := [222, 173] }).1 = .ok none
      ∧ (svn_fs_x__get_rep_reference table_sqlite
          { sample_collaborators 10 with
            svn_fs_x__ensure_revision_exists := fun rev => some (no_such_revision rev) }
          (fresh_fs sample_rows 1)
          { kind := .svn_checksum_sha1, digest := [222, 173] }).2.store.rep_cache
        = (fresh_fs sample_rows 1).store.rep_cache :=
  get_miss_returns_none (sample_collaborators 10) (fresh_fs sample_rows 1)
    (open_if_needed table_sqlite (fresh_fs sample_rows 1)).2
    (path_rep_cache_db "repos/db") { kind := .svn_checksum_sha1, digest := [222, 173] }
    (fun rev => some (no_such_revision rev)) rfl rfl rfl rfl (by decide)

/-- C7 (as stated) fails: the checksum `dead` is not a key of the index, yet the
lookup does not succeed when the rep-cache still has to be opened and the open
fails (the call returns the error of the open), nor when rep-sharing is not
allowed (the call returns the failed assertion). -/
theorem lookup_miss_counterexample :
    lookup_row sample_rows
        ((sample_collaborators 10).svn_checksum_to_cstring
          { kind := .svn_checksum_sha1, digest := [222, 173] }) = none
      ∧ (svn_fs_x__get_rep_reference (faulty_sqlite .on_open) (sample_collaborators 10)
          (fresh_fs sample_rows 1) { kind := .svn_checksum_sha1, digest := [222, 173] }).1
          = .error { apr_err := .other 200030, message := "Couldn\x27t open rep-cache database",
                     child := [{ apr_err := .other 200030, message := "sqlite: disk I/O error" }] }
      ∧ (svn_fs_x__get_rep_reference table_sqlite (sample_collaborators 10)
          { sample_fs sample_rows with rep_sharing_allowed := false }
          { kind := .svn_checksum_sha1, digest := [222, 173] }).1
          = .error (assertion_failed "ffd->rep_sharing_allowed") :=
  ⟨by decide, rfl, rfl⟩

theorem set_without_sha1_table_frame (env : collaborators) (fs : svn_fs_t table_db String)
    (rep : representation_t) (reject_dup : Bool) (hsha : rep.has_sha1 = false) :
    (svn_fs_x__set_rep_reference table_sqlite env fs rep reject_dup).1 ≠ none
      ∧ (svn_fs_x__set_rep_reference table_sqlite env fs rep reject_dup).2.store.rep_cache
          = fs.store.rep_cache := by
  unfold svn_fs_x__set_rep_reference
  by_cases hallowed : fs.rep_sharing_allowed = true
  · have ho := (open_if_needed_table_frame fs).1
    rcases hopen : open_if_needed table_sqlite fs with ⟨r, fs1⟩
    rw [hopen] at ho
    simp only at ho
    cases r <;> simp [hallowed, hsha, ho]
  · simp [hallowed]

/-- C8 (as amended): over any embedded store, when rep-sharing is allowed and the
rep-cache is open or the lazy open of the call succeeds, for every
representation whose `has_sha1` flag is false `svn_fs_x__set_rep_reference`
fails with `SVN_ERR_BAD_CHECKSUM_KIND` and hands back the filesystem object and
the store exactly as the open left them: no statement is fetched, nothing is
inserted.  On the keyed-table store, in every state of the filesystem object,
the call fails and leaves the rows of the index as they were. -/
theorem set_without_sha1_rejected {σ δ : Type} (sq : svn_sqlite σ δ) (env : collaborators)
    (fs fs1 : svn_fs_t σ δ) (rep : representation_t) (reject_dup : Bool)
    (tfs : svn_fs_t table_db String)
    (hallowed : fs.rep_sharing_allowed = true)
    (hopen : open_if_needed sq fs = (none, fs1))
    (hsha : rep.has_sha1 = false) :
    svn_fs_x__set_rep_reference sq env fs rep reject_dup = (some bad_checksum_kind_error, fs1)
      ∧ bad_checksum_kind_error.apr_err = .SVN_ERR_BAD_CHECKSUM_KIND
      ∧ (svn_fs_x__set_rep_reference table_sqlite env tfs rep reject_dup).1 ≠ none
      ∧ (svn_fs_x__set_rep_reference table_sqlite env tfs rep reject_dup).2.store.rep_cache
          = tfs.store.rep_cache := by
  refine ⟨?_, rfl, set_without_sha1_table_frame env tfs rep reject_dup hsha⟩
  unfold svn_fs_x__set_rep_reference
  simp only [hallowed, hopen, hsha, Bool.true_eq_false, if_false, if_true]

theorem set_without_sha1_rejected_witness :
    svn_fs_x__set_rep_reference table_sqlite (sample_collaborators 10) (fresh_fs sample_rows 1)
        { sample_rep 5 2 100 100 with has_sha1 := false } true
      = (some bad_checksum_kind_error, (open_if_needed table_sqlite (fresh_fs sample_rows 1)).2)
      ∧ bad_checksum_kind_error.apr_err = .SVN_ERR_BAD_CHECKSUM_KIND
      ∧ (svn_fs_x__set_rep_reference table_sqlite (sample_collaborators 10)
          (sample_fs sample_rows) { sample_rep 5 2 100 100 with has_sha1 := false } true).1 ≠ none
      ∧ (svn_fs_x__set_rep_reference table_sqlite (sample_collaborators 10)
          (sample_fs sample_rows)
          { sample_rep 5 2 100 100 with has_sha1 := false } true).2.store.rep_cache
          = (sample_fs sample_rows).store.rep_cache :=
  set_without_sha1_rejected table_sqlite (sample_collaborators 10) (fresh_fs sample_rows 1)
    (open_if_needed table_sqlite (fresh_fs sample_rows 1)).2
    { sample_rep 5 2 100 100 with has_sha1 := false } true (sample_fs sample_rows)
    rfl rfl rfl

/-- C8 (as stated) fails: for a representation without SHA-1, the error of the
store call is not `SVN_ERR_BAD_CHECKSUM_KIND` when the rep-cache still has to be
opened and the open fails (the call returns the error of the open), nor when
rep-sharing is not allowed (the call returns the failed assertion). -/
theorem store_without_sha1_counterexample :
    (svn_fs_x__set_rep_reference (faulty_sqlite .on_open) (sample_collaborators 10)
        (fresh_fs sample_rows 1) { sample_rep 5 2 100 100 with has_sha1 := false } true).1
        = some { apr_err := .other 200030, message := "Couldn\x27t open rep-cache database",
                 child := [{ apr_err := .other 200030, message := "sqlite: disk I/O error" }] }
      ∧ (svn_fs_x__set_rep_reference table_sqlite (sample_collaborators 10)
          { sample_fs sample_rows with rep_sharing_allowed := false }
          { sample_rep 5 2 100 100 with has_sha1 := false } true).1
          = some (assertion_failed "ffd->rep_sharing_allowed")
      ∧ apr_status_t.other 200030 ≠ .SVN_ERR_BAD_CHECKSUM_KIND
      ∧ (assertion_failed "ffd->rep_sharing_allowed").apr_err ≠ .SVN_ERR_BAD_CHECKSUM_KIND :=
  ⟨by decide, by decide, by decide, by decide⟩

/-- C9 (as amended): over any embedded store, when rep-sharing is allowed and the
rep-cache is open or the lazy open of the call succeeds, for every checksum
whose kind is not SHA-1 `svn_fs_x__get_rep_reference` fails and hands back the
filesystem object and the store exactly as the open left them (no statement is
fetched, the index is not queried); the error has the code
`SVN_ERR_BAD_CHECKSUM_KIND`, which the taxonomy of the spec puts in the class
corruption, the class of the code `SVN_ERR_FS_CORRUPT` of the error for a
conflicting rep-cache entry. -/
theorem get_wrong_kind_rejected {σ δ : Type} (sq : svn_sqlite σ δ) (env : collaborators)
    (fs fs1 : svn_fs_t σ δ) (checksum : svn_checksum_t) (conflict_text : String)
    (hallowed : fs.rep_sharing_allowed = true)
    (hopen : open_if_needed sq fs = (none, fs1))
    (hkind : checksum.kind ≠ .svn_checksum_sha1) :
    svn_fs_x__get_rep_reference sq env fs checksum = (.error bad_checksum_kind_error, fs1)
      ∧ bad_checksum_kind_error.apr_err = .SVN_ERR_BAD_CHECKSUM_KIND
      ∧ error_class_of bad_checksum_kind_error.apr_err = some .corruption
      ∧ error_class_of bad_checksum_kind_error.apr_err
          = error_class_of (svn_error_create .SVN_ERR_FS_CORRUPT conflict_text).apr_err := by
  refine ⟨?_, rfl, rfl, rfl⟩
  unfold svn_fs_x__get_rep_reference
  simp only [hallowed, hopen, hkind, Bool.true_eq_false, if_false, if_true,
    ne_eq, not_false_eq_true]

theorem get_wrong_kind_rejected_witness :
    (svn_fs_x__get_rep_reference table_sqlite (sample_collaborators 10) (fresh_fs sample_rows 1)
        { kind := .svn_checksum_md5, digest := [171, 193, 35] }
      = (.error bad_checksum_kind_error, (open_if_needed table_sqlite (fresh_fs sample_rows 1)).2)
      ∧ bad_checksum_kind_error.apr_err = .SVN_ERR_BAD_CHECKSUM_KIND
      ∧ error_class_of bad_checksum_kind_error.apr_err = some .corruption
      ∧ error_class_of bad_checksum_kind_error.apr_err
          = error_class_of (svn_error_create .SVN_ERR_FS_CORRUPT
              (conflict_message "abc123" "repos/db" (sample_rep 5 2 100 100)
                (sample_rep 6 2 100 100))).apr_err)
      ∧ (svn_fs_x__set_rep_reference table_sqlite (sample_collaborators 10)
          (sample_fs [{ hash := "abc123", revision := 5, offset := 2, size := 100,
                        expanded_size := 100 }])
          (sample_rep 6 2 100 100) true).1
          = some (svn_error_create .SVN_ERR_FS_CORRUPT
              (conflict_message "abc123" "repos/db" (sample_rep 5 2 100 100)
                (sample_rep 6 2 100 100))) :=
  ⟨get_wrong_kind_rejected table_sqlite (sample_collaborators 10) (fresh_fs sample_rows 1)
    (open_if_needed table_sqlite (fresh_fs sample_rows 1)).2
    { kind := .svn_checksum_md5, digest := [171, 193, 35] }
    (conflict_message "abc123" "repos/db" (sample_rep 5 2 100 100) (sample_rep 6 2 100 100))
    rfl rfl (by decide),
   by decide⟩

/-- C9 (as stated) fails: with a checksum that is not SHA-1, when the rep-cache
still has to be opened and the open fails, the lookup returns the error of the
open, an I/O failure of the storage underneath and not an error of the class
corruption; the kind of the checksum is not even looked at. -/
theorem wrong_kind_unopened_counterexample :
    ∃ err : svn_error_t,
      (svn_fs_x__get_rep_reference (faulty_sqlite .on_open) (sample_collaborators 10)
          (fresh_fs sample_rows 1) { kind := .svn_checksum_md5, digest := [171, 193, 35] }).1
          = .error err
        ∧ err.apr_err = io_error.apr_err
        ∧ err.apr_err ≠ .SVN_ERR_BAD_CHECKSUM_KIND
        ∧ error_class_of err.apr_err = some .io_failure
        ∧ error_class_of err.apr_err
            ≠ error_class_of (svn_error_create .SVN_ERR_FS_CORRUPT "conflict").apr_err :=
  ⟨{ apr_err := .other 200030, message := "Couldn\x27t open rep-cache database",
     child := [{ apr_err := .other 200030, message := "sqlite: disk I/O error" }] },
   rfl, by decide, by decide, by decide, by decide⟩


/-! ### Walking -/

theorem walk_loop_table {β γ : Type} (env : collaborators)
    (walker : representation_t → β → Option svn_error_t × β)
    (hwalker : ∀ rep b, (walker rep b).1 = none)
    (rows : List rep_cache_row)
    (hvalid : ∀ row ∈ rows, ∃ d, env.svn_checksum_parse_hex row.hash = .ok d) :
    ∀ (fuel : Nat) (db : table_db) (b : β) (c : γ),
      rows.length ≤ fuel →
      (db.stmts .STMT_GET_REPS_FOR_RANGE).cursor = some (rows.map range_columns) →
      ∃ db1 : table_db,
        walk_loop table_sqlite env walker (none : Option (γ → Option svn_error_t × γ))
            fuel (!(rows.map range_columns).isEmpty) db b c
          = some (.done, db1, rows.foldl (fun acc row => (walker (walked_rep env row) acc).2) b, c)
        ∧ db1.rep_cache = db.rep_cache := by
  induction rows with
  | nil =>
    intro fuel db b c _ _
    refine ⟨db, ?_, rfl⟩
    cases fuel <;> rfl
  | cons r rest ih =>
    intro fuel db b c hfuel hcur
    cases fuel with
    | zero => simp at hfuel
    | succ fuel =>
      obtain ⟨d, hd⟩ := hvalid r (List.mem_cons_self _ _)
      have hrest : ∀ row ∈ rest, ∃ d, env.svn_checksum_parse_hex row.hash = .ok d :=
        fun row hrow => hvalid row (List.mem_cons_of_mem _ hrow)
      have hw := hwalker (walked_rep env r) b
      obtain ⟨db1, hloop, hrows⟩ := ih hrest fuel
        (set_stmt db .STMT_GET_REPS_FOR_RANGE
          { db.stmts .STMT_GET_REPS_FOR_RANGE with cursor := some (rest.map range_columns) })
        (walker (walked_rep env r) b).2 c (by simpa using hfuel) (by simp [set_stmt])
      refine ⟨db1, ?_, hrows⟩
      rw [List.foldl_cons, ← hloop]
      have hrep : walked_rep env r = rep_of_row d r := by simp [walked_rep, hd]
      rw [hrep] at hw ⊢
      rcases hwr : walker (rep_of_row d r) b with ⟨we, b1⟩
      rw [hwr] at hw
      simp only at hw
      subst hw
      simp only [rep_of_row] at hwr
      simp [walk_loop, table_column_text, table_column_revnum, table_column_int64, current_row,
        hcur, range_columns, hd, table_step, hwr]

theorem walk_check_global_invariants_table (env : collaborators) (fs : svn_fs_t table_db String)
    (sdb : String) (hopen : fs.rep_cache_db = some sdb) :
    walk_check_global_invariants table_sqlite env fs =
      ((match max_revision fs.store.rep_cache with
        | .integer m => if 0 ≤ m then env.svn_fs_x__ensure_revision_exists m else none
        | _ => none),
       set_stmt fs.store .STMT_GET_MAX_REV idle_stmt) := by
  unfold walk_check_global_invariants
  simp only [hopen, table_sqlite_get_statement, table_get_statement, table_reset,
    table_sqlite_step, table_step, set_stmt_stmts_same, table_sqlite_reset, set_stmt_set_stmt,
    table_sqlite_column_revnum, table_column_revnum, current_row, run_select, set_stmt_rep_cache,
    SVN_IS_VALID_REVNUM, idle_stmt]
  cases hm : max_revision fs.store.rep_cache with
  | null => simp
  | text t => simp
  | integer m => by_cases h0 : 0 ≤ m <;> simp [h0]

/-- C10 (as amended): on an open rep-cache whose entries all carry valid hash
text, for every `start` and `end_rev`, a visitor that never fails and no
cancellation callback, provided that for `start = 0` the youngest indexed
revision exists in FS, `svn_fs_x__walk_rep_reference` returns successfully (given
fuel for one iteration per entry in range) after invoking the visitor on exactly
the entries whose revision lies in `[start, end_rev)`, once each and in the order
of the table, and on no other entry; the rows are left unchanged; and when all
entries lie in the range, the entries visited are all entries of the index. -/
theorem walk_visits_range {β γ : Type} (env : collaborators) (fs : svn_fs_t table_db String)
    (sdb : String) (start end_rev : Int)
    (walker : representation_t → β → Option svn_error_t × β) (walker_baton : β) (cancel_baton : γ)
    (fuel : Nat)
    (hopen : fs.rep_cache_db = some sdb)
    (hvalid : ∀ row ∈ fs.store.rep_cache, ∃ d, env.svn_checksum_parse_hex row.hash = .ok d)
    (hwalker : ∀ rep b, (walker rep b).1 = none)
    (hyoungest : start = 0 → ∀ m, max_revision fs.store.rep_cache = .integer m → 0 ≤ m →
      env.svn_fs_x__ensure_revision_exists m = none)
    (hfuel : (rows_in_range start end_rev fs.store.rep_cache).length ≤ fuel) :
    ∃ res : walk_result table_db String β γ,
      svn_fs_x__walk_rep_reference table_sqlite env fuel fs start end_rev walker walker_baton
          (none : Option (γ → Option svn_error_t × γ)) cancel_baton = some res
        ∧ res.err = none
        ∧ res.walker_baton =
            (rows_in_range start end_rev fs.store.rep_cache).foldl
              (fun acc row => (walker (walked_rep env row) acc).2) walker_baton
        ∧ res.fs.store.rep_cache = fs.store.rep_cache
        ∧ ((∀ row ∈ fs.store.rep_cache, start ≤ row.revision ∧ row.revision < end_rev) →
            rows_in_range start end_rev fs.store.rep_cache = fs.store.rep_cache) := by
  have hall : (∀ row ∈ fs.store.rep_cache, start ≤ row.revision ∧ row.revision < end_rev) →
      rows_in_range start end_rev fs.store.rep_cache = fs.store.rep_cache := by
    intro h
    unfold rows_in_range
    rw [List.filter_eq_self]
    intro row hrow
    simp [h row hrow]
  have hv : ∀ row ∈ rows_in_range start end_rev fs.store.rep_cache,
      ∃ d, env.svn_checksum_parse_hex row.hash = .ok d :=
    fun row hrow => hvalid row (List.mem_of_mem_filter hrow)
  have hl : ∀ s0 : table_db, s0.rep_cache = fs.store.rep_cache → ∃ db1 : table_db,
      walk_loop table_sqlite env walker (none : Option (γ → Option svn_error_t × γ)) fuel
          (!((rows_in_range start end_rev fs.store.rep_cache).map range_columns).isEmpty)
          (set_stmt s0 .STMT_GET_REPS_FOR_RANGE
            { args := [.integer start, .integer end_rev],
              cursor := some ((rows_in_range start end_rev fs.store.rep_cache).map range_columns) })
          walker_baton cancel_baton
        = some (.done, db1,
            (rows_in_range start end_rev fs.store.rep_cache).foldl
              (fun acc row => (walker (walked_rep env row) acc).2) walker_baton, cancel_baton)
      ∧ db1.rep_cache = fs.store.rep_cache := by
    intro s0 hs0
    obtain ⟨db1, hloop, hrows⟩ := @walk_loop_table β γ env walker hwalker
      (rows_in_range start end_rev fs.store.rep_cache) hv fuel
      (set_stmt s0 .STMT_GET_REPS_FOR_RANGE
        { args := [.integer start, .integer end_rev],
          cursor := some ((rows_in_range start end_rev fs.store.rep_cache).map range_columns) })
      walker_baton cancel_baton hfuel (by simp [set_stmt])
    exact ⟨db1, hloop, by rw [hrows, set_stmt_rep_cache, hs0]⟩
  have ho : open_if_needed table_sqlite fs = (none, fs) := by
    unfold open_if_needed
    rw [hopen]
  unfold svn_fs_x__walk_rep_reference
  rw [ho]
  by_cases hstart : start = 0
  · have hchk : (walk_check_global_invariants table_sqlite env fs).1 = none := by
      rw [walk_check_global_invariants_table env fs sdb hopen]
      cases hm : max_revision fs.store.rep_cache with
      | null => rfl
      | text t => rfl
      | integer m =>
        by_cases h0 : 0 ≤ m
        · simp [h0, hyoungest hstart m hm h0]
        · simp [h0]
    have hchk2 : (walk_check_global_invariants table_sqlite env fs).2.rep_cache
        = fs.store.rep_cache := by
      rw [walk_check_global_invariants_table env fs sdb hopen]
      rfl
    rcases hc : walk_check_global_invariants table_sqlite env fs with ⟨r, s0⟩
    rw [hc] at hchk hchk2
    simp only at hchk hchk2
    subst hchk
    obtain ⟨db1, hloop, hrows⟩ := hl s0 hchk2
    simp only [if_pos hstart, hc, hopen, table_sqlite_get_statement, table_get_statement,
      table_reset, table_sqlite_bindf, table_bindf, table_sqlite_step, table_step,
      set_stmt_stmts_same, set_stmt_set_stmt, set_stmt_rep_cache, run_select, hchk2, hloop,
      table_sqlite_reset]
    exact ⟨_, rfl, rfl, rfl, hrows, hall⟩
  · obtain ⟨db1, hloop, hrows⟩ := hl fs.store rfl
    simp only [if_neg hstart, hopen, table_sqlite_get_statement, table_get_statement,
      table_reset, table_sqlite_bindf, table_bindf, table_sqlite_step, table_step,
      set_stmt_stmts_same, set_stmt_set_stmt, set_stmt_rep_cache, run_select, hloop,
      table_sqlite_reset]
    exact ⟨_, rfl, rfl, rfl, hrows, hall⟩

theorem walk_visits_range_witness :
    ∃ res : walk_result table_db String (List representation_t) Unit,
      svn_fs_x__walk_rep_reference table_sqlite (sample_collaborators 10) 5
          (sample_fs sample_rows)
          0 6 (fun rep acc => (none, acc ++ [rep])) []
          (none : Option (Unit → Option svn_error_t × Unit)) () = some res
        ∧ res.err = none
        ∧ res.walker_baton =
            (rows_in_range 0 6
                (sample_fs sample_rows).store.rep_cache).foldl
              (fun acc row => ((fun rep acc => ((none : Option svn_error_t), acc ++ [rep]))
                (walked_rep (sample_collaborators 10) row) acc).2) []
        ∧ res.fs.store.rep_cache =
            (sample_fs sample_rows).store.rep_cache
        ∧ ((∀ row ∈ (sample_fs sample_rows).store.rep_cache,
              (0 : Int) ≤ row.revision ∧ row.revision < 6) →
            rows_in_range 0 6
                (sample_fs sample_rows).store.rep_cache
              = (sample_fs sample_rows).store.rep_cache) :=
  walk_visits_range (sample_collaborators 10)
    (sample_fs sample_rows)
    (path_rep_cache_db "repos/db") 0 6 (fun rep acc => (none, acc ++ [rep])) [] () 5 rfl
    (by
      intro row hrow
      simp only [sample_fs, sample_db, sample_rows, List.mem_cons, List.mem_singleton, List.not_mem_nil,
        or_false] at hrow
      rcases hrow with h | h | h <;> subst h <;> exact ⟨_, rfl⟩)
    (fun _ _ => rfl)
    (by
      intro _ m hm _
      cases hm
      decide)
    (by decide)

/-- C10 (as stated) fails: the index holds one entry, of revision 5, and FS has
revisions 0 to 4 only; the walk over `[0, 10)` fails in its check of the youngest
indexed revision and never invokes the visitor, although the entry lies in the
range. -/
theorem walk_completeness_counterexample :
    (svn_fs_x__walk_rep_reference table_sqlite (sample_collaborators 4) 5
        (sample_fs [{ hash := "abc123", revision := 5, offset := 2, size := 100, expanded_size := 100 }])
        0 10 (fun rep acc => (none, acc ++ [rep])) ([] : List representation_t)
        (none : Option (Unit → Option svn_error_t × Unit)) ()).map
        (fun res => (res.err, res.walker_baton)) = some (some (no_such_revision 5), [])
      ∧ rows_in_range 0 10
          [{ hash := "abc123", revision := 5, offset := 2, size := 100, expanded_size := 100 }]
        = [{ hash := "abc123", revision := 5, offset := 2, size := 100, expanded_size := 100 }] := by
  decide

/-! ### Opening -/

/-- C16: when the store has been opened and its schema version read,
`open_rep_cache` executes `STMT_CREATE_SCHEMA` exactly when the version is less
than `REP_CACHE_SCHEMA_FORMAT` (1): then its outcome is the outcome of that
execution; for a version of 1 or more the outcome is success with the store as
reading the version left it, whatever executing statements would do, so no
schema statement is executed; and in the keyed-table store such an open leaves
the version, the rows and the statements untouched. -/
theorem open_rep_cache_creates_schema_iff {σ δ : Type} (sq : svn_sqlite σ δ) (fs : svn_fs_t σ δ)
    (sdb : δ) (s1 s2 : σ) (version : Int)
    (hopen : sq.svn_sqlite__open (path_rep_cache_db fs.path) fs.store = (.ok sdb, s1))
    (hver : sq.svn_sqlite__read_schema_version sdb s1 = (.ok version, s2)) :
    (version < REP_CACHE_SCHEMA_FORMAT →
        (open_rep_cache sq fs).1 = (sq.svn_sqlite__exec_statements sdb .STMT_CREATE_SCHEMA s2).1
          ∧ (open_rep_cache sq fs).2.store
              = (sq.svn_sqlite__exec_statements sdb .STMT_CREATE_SCHEMA s2).2)
      ∧ (REP_CACHE_SCHEMA_FORMAT ≤ version →
          ∀ exec : δ → stmt_idx → σ → Option svn_error_t × σ,
            open_rep_cache { sq with svn_sqlite__exec_statements := exec } fs
              = (none, { fs with store := s2, rep_cache_db := some sdb }))
      ∧ (∀ tfs : svn_fs_t table_db String, REP_CACHE_SCHEMA_FORMAT ≤ tfs.store.user_version →
          (open_rep_cache table_sqlite tfs).1 = none
            ∧ (open_rep_cache table_sqlite tfs).2.store = tfs.store) := by
  refine ⟨?_, ?_, ?_⟩
  · intro hlt
    unfold open_rep_cache
    simp only [hopen, hver, hlt, if_true]
    rcases sq.svn_sqlite__exec_statements sdb .STMT_CREATE_SCHEMA s2 with ⟨r, s3⟩
    cases r <;> exact ⟨rfl, rfl⟩
  · intro hge exec
    have hnot : ¬ version < REP_CACHE_SCHEMA_FORMAT := not_lt.mpr hge
    unfold open_rep_cache
    simp only [hopen, hver, hnot, if_false]
  · intro tfs hge
    have hnot : ¬ tfs.store.user_version < REP_CACHE_SCHEMA_FORMAT := not_lt.mpr hge
    unfold open_rep_cache
    simp only [table_sqlite_open, table_open, table_sqlite_read_schema_version,
      table_read_schema_version, hnot, if_false]
    exact ⟨trivial, trivial⟩

theorem open_rep_cache_creates_schema_iff_witness :
    ((open_rep_cache table_sqlite (fresh_fs [] 0)).1
            = (table_sqlite.svn_sqlite__exec_statements (path_rep_cache_db "repos/db")
                .STMT_CREATE_SCHEMA (fresh_fs [] 0).store).1
          ∧ (open_rep_cache table_sqlite (fresh_fs [] 0)).2.store
            = (table_sqlite.svn_sqlite__exec_statements (path_rep_cache_db "repos/db")
                .STMT_CREATE_SCHEMA (fresh_fs [] 0).store).2)
      ∧ (open_rep_cache table_sqlite (fresh_fs [] 0)).2.store.user_version = 1
      ∧ open_rep_cache (faulty_sqlite .on_exec_statements) (fresh_fs sample_rows 1)
          = (none, { fresh_fs sample_rows 1 with
                     rep_cache_db := some (path_rep_cache_db "repos/db") }) :=
  ⟨(open_rep_cache_creates_schema_iff table_sqlite (fresh_fs [] 0)
      (path_rep_cache_db "repos/db") (fresh_fs [] 0).store (fresh_fs [] 0).store 0 rfl rfl).1
      (by decide),
   rfl,
   (open_rep_cache_creates_schema_iff table_sqlite (fresh_fs sample_rows 1)
      (path_rep_cache_db "repos/db") (fresh_fs sample_rows 1).store (fresh_fs sample_rows 1).store
      1 rfl rfl).2.1 (by decide) (fun _ _ db => (some io_error, db))⟩

theorem open_rep_cache_when_initialized {σ δ : Type} (sq : svn_sqlite σ δ) (fs : svn_fs_t σ δ)
    (h : fs.rep_cache_db_opened = .initialized) :
    svn_fs_x__open_rep_cache sq fs = (none, fs) := by
  unfold svn_fs_x__open_rep_cache svn_atomic__init_once
  rw [h]
  rfl

/-- C17: when the first call of `svn_fs_x__open_rep_cache` on a filesystem object (its
gate still untouched) succeeds, that call has run the body `open_rep_cache`
once: what it leaves behind is what the body leaves behind, with the gate set
to initialised.  After any number `n` of later calls, a further call returns
success and leaves the whole filesystem object (the stored handle, the gate and
the store with the index) as the first call left it, whatever the store
operations would do: the body is not run again. -/
theorem open_rep_cache_runs_once {σ δ : Type} (sq later : svn_sqlite σ δ) (fs : svn_fs_t σ δ)
    (n : Nat)
    (hfresh : fs.rep_cache_db_opened = .uninitialized)
    (hfirst : (svn_fs_x__open_rep_cache sq fs).1 = none) :
    (open_rep_cache sq fs).1 = none
      ∧ (svn_fs_x__open_rep_cache sq fs).2
          = { (open_rep_cache sq fs).2 with rep_cache_db_opened := .initialized }
      ∧ svn_fs_x__open_rep_cache later
          (Nat.iterate (fun f => (svn_fs_x__open_rep_cache later f).2) n
            (svn_fs_x__open_rep_cache sq fs).2)
          = (none, (svn_fs_x__open_rep_cache sq fs).2) := by
  have hbody : (open_rep_cache sq fs).1 = none
      ∧ (svn_fs_x__open_rep_cache sq fs).2
          = { (open_rep_cache sq fs).2 with rep_cache_db_opened := .initialized } := by
    unfold svn_fs_x__open_rep_cache svn_atomic__init_once at hfirst ⊢
    rw [hfresh] at hfirst ⊢
    rcases hb : open_rep_cache sq fs with ⟨r, fs1⟩
    rw [hb] at hfirst
    cases r with
    | some e => simp [svn_error_quick_wrap] at hfirst
    | none => exact ⟨rfl, rfl⟩
  have hinit : (svn_fs_x__open_rep_cache sq fs).2.rep_cache_db_opened = .initialized := by
    rw [hbody.2]
  have hiter : ∀ k : Nat, Nat.iterate (fun f => (svn_fs_x__open_rep_cache later f).2) k
      (svn_fs_x__open_rep_cache sq fs).2 = (svn_fs_x__open_rep_cache sq fs).2 := by
    intro k
    induction k with
    | zero => rfl
    | succ k ih =>
      rw [Function.iterate_succ_apply', ih, open_rep_cache_when_initialized later _ hinit]
  exact ⟨hbody.1, hbody.2, by rw [hiter n, open_rep_cache_when_initialized later _ hinit]⟩

theorem open_rep_cache_runs_once_witness :
    (open_rep_cache table_sqlite (fresh_fs sample_rows 0)).1 = none
      ∧ (svn_fs_x__open_rep_cache table_sqlite (fresh_fs sample_rows 0)).2
          = { (open_rep_cache table_sqlite (fresh_fs sample_rows 0)).2 with
              rep_cache_db_opened := .initialized }
      ∧ svn_fs_x__open_rep_cache (faulty_sqlite .on_open)
          (Nat.iterate (fun f => (svn_fs_x__open_rep_cache (faulty_sqlite .on_open) f).2) 3
            (svn_fs_x__open_rep_cache table_sqlite (fresh_fs sample_rows 0)).2)
          = (none, (svn_fs_x__open_rep_cache table_sqlite (fresh_fs sample_rows 0)).2) :=
  open_rep_cache_runs_once table_sqlite (faulty_sqlite .on_open) (fresh_fs sample_rows 0) 3
    rfl (by decide)

/-! ### Failures of the store -/

/-- C19: over any embedded store, on an open rep-cache, when the insert of
`svn_fs_x__set_rep_reference` fails with an error whose code is not
`SVN_ERR_SQLITE_CONSTRAINT`, the call returns that same error and hands back the
store exactly as the insert left it, for either value of `reject_dup`: no
follow-up lookup is made, and the error is neither turned into success nor into
`SVN_ERR_FS_CORRUPT`. -/
theorem set_returns_insert_failure {σ δ : Type} (sq : svn_sqlite σ δ) (env : collaborators)
    (fs : svn_fs_t σ δ) (sdb : δ) (rep : representation_t) (reject_dup : Bool)
    (s1 s2 s3 : σ) (err : svn_error_t)
    (hallowed : fs.rep_sharing_allowed = true) (hopen : fs.rep_cache_db = some sdb)
    (hsha : rep.has_sha1 = true)
    (hget : sq.svn_sqlite__get_statement (some sdb) .STMT_SET_REP fs.store = (none, s1))
    (hbind : sq.svn_sqlite__bindf .STMT_SET_REP
      [.text (env.svn_checksum_to_cstring { kind := .svn_checksum_sha1, digest := rep.sha1_digest }),
       .integer rep.id.change_set, .integer (to_int64 rep.id.number), .integer rep.size,
       .integer rep.expanded_size] s1 = (none, s2))
    (hinsert : sq.svn_sqlite__insert .STMT_SET_REP s2 = (some err, s3))
    (hcode : err.apr_err ≠ .SVN_ERR_SQLITE_CONSTRAINT) :
    svn_fs_x__set_rep_reference sq env fs rep reject_dup = (some err, { fs with store := s3 }) := by
  unfold svn_fs_x__set_rep_reference
  simp only [hallowed, open_if_needed, hopen, hsha, hget, hbind, hinsert, hcode,
    Bool.true_eq_false, if_false, ne_eq, not_false_eq_true, if_true]

theorem set_returns_insert_failure_witness :
    svn_fs_x__set_rep_reference (faulty_sqlite .on_insert) (sample_collaborators 10)
        (sample_fs sample_rows) (sample_rep 5 2 100 100) true
      = (some io_error,
         { sample_fs sample_rows with
           store := set_stmt (sample_fs sample_rows).store .STMT_SET_REP
             { args := [.text "abc123", .integer 5, .integer 2, .integer 100, .integer 100],
               cursor := none } }) :=
  set_returns_insert_failure (faulty_sqlite .on_insert) (sample_collaborators 10)
    (sample_fs sample_rows) (path_rep_cache_db "repos/db") (sample_rep 5 2 100 100) true
    (set_stmt (sample_fs sample_rows).store .STMT_SET_REP idle_stmt)
    (set_stmt (sample_fs sample_rows).store .STMT_SET_REP
      { args := [.text "abc123", .integer 5, .integer 2, .integer 100, .integer 100],
        cursor := none })
    (set_stmt (sample_fs sample_rows).store .STMT_SET_REP
      { args := [.text "abc123", .integer 5, .integer 2, .integer 100, .integer 100],
        cursor := none })
    io_error rfl rfl rfl rfl
    (by
      simp only [faulty_sqlite, table_bindf, set_stmt_set_stmt, table_sqlite, idle_stmt,
        set_stmt_stmts_same]
      rfl)
    rfl (by decide)

/-- C20: over any embedded store, for a filesystem object whose `rep_cache_db` is
unset: if opening the database fails, or reading the schema version fails, or
(for a version below 1) creating the schema fails, then `open_rep_cache`
returns the error of that step and `rep_cache_db` is still unset; and whenever
`open_rep_cache` returns an error at all, `rep_cache_db` is still unset. -/
theorem open_rep_cache_failure_leaves_handle_unset {σ δ : Type} (sq : svn_sqlite σ δ)
    (fs : svn_fs_t σ δ) (hunset : fs.rep_cache_db = none) :
    (∀ e s1, sq.svn_sqlite__open (path_rep_cache_db fs.path) fs.store = (.error e, s1) →
        (open_rep_cache sq fs).1 = some e ∧ (open_rep_cache sq fs).2.rep_cache_db = none)
      ∧ (∀ sdb s1 e s2,
          sq.svn_sqlite__open (path_rep_cache_db fs.path) fs.store = (.ok sdb, s1) →
          sq.svn_sqlite__read_schema_version sdb s1 = (.error e, s2) →
          (open_rep_cache sq fs).1 = some e ∧ (open_rep_cache sq fs).2.rep_cache_db = none)
      ∧ (∀ sdb s1 version s2 e s3,
          sq.svn_sqlite__open (path_rep_cache_db fs.path) fs.store = (.ok sdb, s1) →
          sq.svn_sqlite__read_schema_version sdb s1 = (.ok version, s2) →
          version < REP_CACHE_SCHEMA_FORMAT →
          sq.svn_sqlite__exec_statements sdb .STMT_CREATE_SCHEMA s2 = (some e, s3) →
          (open_rep_cache sq fs).1 = some e ∧ (open_rep_cache sq fs).2.rep_cache_db = none)
      ∧ ((open_rep_cache sq fs).1 ≠ none → (open_rep_cache sq fs).2.rep_cache_db = none) := by
  refine ⟨?_, ?_, ?_, ?_⟩
  · intro e s1 h1
    unfold open_rep_cache
    simp only [h1]
    exact ⟨trivial, hunset⟩
  · intro sdb s1 e s2 h1 h2
    unfold open_rep_cache
    simp only [h1, h2]
    exact ⟨trivial, hunset⟩
  · intro sdb s1 version s2 e s3 h1 h2 hlt h3
    unfold open_rep_cache
    simp only [h1, h2, hlt, if_true, h3]
    exact ⟨trivial, hunset⟩
  · intro hne
    unfold open_rep_cache at hne ⊢
    rcases h1 : sq.svn_sqlite__open (path_rep_cache_db fs.path) fs.store with ⟨r1, s1⟩
    rw [h1] at hne
    cases r1 with
    | error e => exact hunset
    | ok sdb =>
      simp only at hne ⊢
      rcases h2 : sq.svn_sqlite__read_schema_version sdb s1 with ⟨r2, s2⟩
      rw [h2] at hne
      cases r2 with
      | error e => exact hunset
      | ok version =>
        simp only at hne ⊢
        by_cases hlt : version < REP_CACHE_SCHEMA_FORMAT
        · simp only [hlt, if_true] at hne ⊢
          rcases h3 : sq.svn_sqlite__exec_statements sdb .STMT_CREATE_SCHEMA s2 with ⟨r3, s3⟩
          rw [h3] at hne
          cases r3 with
          | some e => exact hunset
          | none => exact absurd rfl hne
        · simp only [hlt, if_false] at hne
          exact absurd rfl hne

theorem open_rep_cache_failure_leaves_handle_unset_witness :
    ((open_rep_cache (faulty_sqlite .on_open) (fresh_fs sample_rows 1)).1 = some io_error
        ∧ (open_rep_cache (faulty_sqlite .on_open) (fresh_fs sample_rows 1)).2.rep_cache_db = none)
      ∧ ((open_rep_cache (faulty_sqlite .on_read_schema_version) (fresh_fs sample_rows 1)).1
            = some io_error
        ∧ (open_rep_cache (faulty_sqlite .on_read_schema_version)
            (fresh_fs sample_rows 1)).2.rep_cache_db = none)
      ∧ ((open_rep_cache (faulty_sqlite .on_exec_statements) (fresh_fs [] 0)).1 = some io_error
        ∧ (open_rep_cache (faulty_sqlite .on_exec_statements) (fresh_fs [] 0)).2.rep_cache_db
            = none) :=
  ⟨(open_rep_cache_failure_leaves_handle_unset (faulty_sqlite .on_open) (fresh_fs sample_rows 1)
      rfl).1 io_error (fresh_fs sample_rows 1).store rfl,
   (open_rep_cache_failure_leaves_handle_unset (faulty_sqlite .on_read_schema_version)
      (fresh_fs sample_rows 1) rfl).2.1 (path_rep_cache_db "repos/db")
      (fresh_fs sample_rows 1).store io_error (fresh_fs sample_rows 1).store rfl rfl,
   (open_rep_cache_failure_leaves_handle_unset (faulty_sqlite .on_exec_statements)
      (fresh_fs [] 0) rfl).2.2.1 (path_rep_cache_db "repos/db") (fresh_fs [] 0).store 0
      (fresh_fs [] 0).store io_error (fresh_fs [] 0).store rfl rfl (by decide) rfl⟩

/-! ### The walk on the keyed-table store, row by row -/

theorem walk_loop_table_prefix {β γ : Type} (env : collaborators)
    (walker : representation_t → β → Option svn_error_t × β)
    (cancel_func : Option (γ → Option svn_error_t × γ))
    (pre post : List rep_cache_row) :
    ∀ (fuel : Nat) (db : table_db) (b : β) (c : γ),
      rows_pass env walker cancel_func pre b c = true →
      (db.stmts .STMT_GET_REPS_FOR_RANGE).cursor = some ((pre ++ post).map range_columns) →
      ∃ db1 : table_db,
        walk_loop table_sqlite env walker cancel_func (fuel + pre.length)
            (!((pre ++ post).map range_columns).isEmpty) db b c
          = walk_loop table_sqlite env walker cancel_func fuel
              (!(post.map range_columns).isEmpty) db1
              (batons_after env walker cancel_func pre b c).1
              (batons_after env walker cancel_func pre b c).2
        ∧ db1.rep_cache = db.rep_cache
        ∧ (db1.stmts .STMT_GET_REPS_FOR_RANGE).cursor = some (post.map range_columns) := by
  induction pre with
  | nil =>
    intro fuel db b c _ hcur
    exact ⟨db, rfl, rfl, hcur⟩
  | cons r rest ih =>
    intro fuel db b c hpass hcur
    simp only [rows_pass, Bool.and_eq_true, Option.isNone_iff_eq_none] at hpass
    obtain ⟨⟨⟨hc, hp⟩, hw⟩, hrest⟩ := hpass
    obtain ⟨db1, hloop, hrows, hcur1⟩ := ih fuel
      (set_stmt db .STMT_GET_REPS_FOR_RANGE
        { db.stmts .STMT_GET_REPS_FOR_RANGE with
          cursor := some ((rest ++ post).map range_columns) })
      (walker (walked_rep env r) b).2 (call_cancel cancel_func c).2 hrest (by simp [set_stmt])
    refine ⟨db1, ?_, by rw [hrows]; rfl, hcur1⟩
    simp only [batons_after]
    rw [← hloop]
    rcases hd : env.svn_checksum_parse_hex r.hash with e | d
    · simp [hd] at hp
    · have hrep : walked_rep env r = rep_of_row d r := by simp [walked_rep, hd]
      rw [hrep] at hw ⊢
      rcases hwr : walker (rep_of_row d r) b with ⟨we, b1⟩
      rw [hwr] at hw
      simp only at hw
      subst hw
      rcases hcc : call_cancel cancel_func c with ⟨ce, c1⟩
      rw [hcc] at hc
      simp only at hc
      subst hc
      simp only [rep_of_row] at hwr
      simp only [call_cancel] at hcc
      simp [walk_loop, table_column_text, table_column_revnum, table_column_int64, current_row,
        hcur, range_columns, hd, table_step, hwr, hcc]

theorem walk_loop_no_row {σ δ β γ : Type} (sq : svn_sqlite σ δ) (env : collaborators)
    (walker : representation_t → β → Option svn_error_t × β)
    (cancel_func : Option (γ → Option svn_error_t × γ)) (fuel : Nat) (s : σ) (b : β) (c : γ) :
    walk_loop sq env walker cancel_func fuel false s b c = some (.done, s, b, c) := by
  cases fuel <;> rfl

theorem walk_loop_table_cancelled {β γ : Type} (env : collaborators)
    (walker : representation_t → β → Option svn_error_t × β)
    (cancel_func : Option (γ → Option svn_error_t × γ)) (fuel : Nat) (db : table_db)
    (b : β) (c c1 : γ) (e : svn_error_t)
    (hc : call_cancel cancel_func c = (some e, c1)) :
    walk_loop table_sqlite env walker cancel_func (fuel + 1) true db b c
      = some (.returned (some e), set_stmt db .STMT_GET_REPS_FOR_RANGE idle_stmt, b, c1) := by
  simp only [call_cancel] at hc
  simp [walk_loop, hc, table_reset, svn_error_compose_create, idle_stmt]

theorem walk_loop_table_parse_failed {β γ : Type} (env : collaborators)
    (walker : representation_t → β → Option svn_error_t × β)
    (cancel_func : Option (γ → Option svn_error_t × γ)) (fuel : Nat) (db : table_db)
    (b : β) (c c1 : γ) (r : rep_cache_row) (rest : List (List sql_value)) (e : svn_error_t)
    (hcur : (db.stmts .STMT_GET_REPS_FOR_RANGE).cursor = some (range_columns r :: rest))
    (hc : call_cancel cancel_func c = (none, c1))
    (hp : env.svn_checksum_parse_hex r.hash = .error e) :
    walk_loop table_sqlite env walker cancel_func (fuel + 1) true db b c
      = some (.returned (some e), set_stmt db .STMT_GET_REPS_FOR_RANGE idle_stmt, b, c1) := by
  simp only [call_cancel] at hc
  simp [walk_loop, hc, table_reset, svn_error_compose_create, idle_stmt, table_column_text,
    current_row, hcur, range_columns, hp]

theorem walk_loop_table_visitor_failed {β γ : Type} (env : collaborators)
    (walker : representation_t → β → Option svn_error_t × β)
    (cancel_func : Option (γ → Option svn_error_t × γ)) (fuel : Nat) (db : table_db)
    (b b1 : β) (c c1 : γ) (r : rep_cache_row) (rest : List (List sql_value)) (d : List Nat)
    (e : svn_error_t)
    (hcur : (db.stmts .STMT_GET_REPS_FOR_RANGE).cursor = some (range_columns r :: rest))
    (hc : call_cancel cancel_func c = (none, c1))
    (hp : env.svn_checksum_parse_hex r.hash = .ok d)
    (hw : walker (walked_rep env r) b = (some e, b1)) :
    walk_loop table_sqlite env walker cancel_func (fuel + 1) true db b c
      = some (.returned (some e), set_stmt db .STMT_GET_REPS_FOR_RANGE idle_stmt, b1, c1) := by
  simp only [call_cancel] at hc
  simp only [walked_rep, hp, rep_of_row] at hw
  simp [walk_loop, hc, table_reset, svn_error_compose_create, idle_stmt, table_column_text,
    table_column_revnum, table_column_int64, current_row, hcur, range_columns, hp, hw]

theorem walk_check_passes_of_youngest_exists (env : collaborators) (fs : svn_fs_t table_db String)
    (sdb : String) (hopen : fs.rep_cache_db = some sdb)
    (hyoungest : ∀ m, max_revision fs.store.rep_cache = .integer m → 0 ≤ m →
      env.svn_fs_x__ensure_revision_exists m = none) :
    (walk_check_global_invariants table_sqlite env fs).1 = none := by
  rw [walk_check_global_invariants_table env fs sdb hopen]
  cases hm : max_revision fs.store.rep_cache with
  | null => rfl
  | text t => rfl
  | integer m =>
    by_cases h0 : 0 ≤ m
    · simp [h0, hyoungest m hm h0]
    · simp [h0]

theorem walk_rep_reference_table {β γ : Type} (env : collaborators) (fs : svn_fs_t table_db String)
    (sdb : String) (start end_rev : Int)
    (walker : representation_t → β → Option svn_error_t × β) (b : β)
    (cancel_func : Option (γ → Option svn_error_t × γ)) (c : γ) (fuel : Nat)
    (hopen : fs.rep_cache_db = some sdb)
    (hcheck : start = 0 → (walk_check_global_invariants table_sqlite env fs).1 = none) :
    ∃ db0 : table_db,
      db0.rep_cache = fs.store.rep_cache
        ∧ (db0.stmts .STMT_GET_REPS_FOR_RANGE).cursor
            = some ((rows_in_range start end_rev fs.store.rep_cache).map range_columns)
        ∧ svn_fs_x__walk_rep_reference table_sqlite env fuel fs start end_rev walker b cancel_func c
            = walk_finish table_sqlite fs
                (walk_loop table_sqlite env walker cancel_func fuel
                  (!((rows_in_range start end_rev fs.store.rep_cache).map range_columns).isEmpty)
                  db0 b c) := by
  have ho : open_if_needed table_sqlite fs = (none, fs) := by
    unfold open_if_needed
    rw [hopen]
  unfold svn_fs_x__walk_rep_reference
  rw [ho]
  by_cases hstart : start = 0
  · have hchk := hcheck hstart
    have hchk2 : (walk_check_global_invariants table_sqlite env fs).2.rep_cache
        = fs.store.rep_cache := by
      rw [walk_check_global_invariants_table env fs sdb hopen]
      rfl
    rcases hc : walk_check_global_invariants table_sqlite env fs with ⟨r, s0⟩
    rw [hc] at hchk hchk2
    simp only at hchk hchk2
    subst hchk
    refine ⟨set_stmt s0 .STMT_GET_REPS_FOR_RANGE
      { args := [.integer start, .integer end_rev],
        cursor := some ((rows_in_range start end_rev fs.store.rep_cache).map range_columns) },
      by rw [set_stmt_rep_cache, hchk2], by rw [set_stmt_stmts_same], ?_⟩
    simp only [if_pos hstart, hc, hopen, table_sqlite_get_statement, table_get_statement,
      table_reset, table_sqlite_bindf, table_bindf, table_sqlite_step, table_step,
      set_stmt_stmts_same, set_stmt_set_stmt, set_stmt_rep_cache, run_select, hchk2,
      table_sqlite_reset]
    split <;> rename_i hres <;> rw [hres] <;> simp [walk_finish, table_reset, hopen]
  · refine ⟨set_stmt fs.store .STMT_GET_REPS_FOR_RANGE
      { args := [.integer start, .integer end_rev],
        cursor := some ((rows_in_range start end_rev fs.store.rep_cache).map range_columns) },
      by rw [set_stmt_rep_cache], by rw [set_stmt_stmts_same], ?_⟩
    simp only [if_neg hstart, hopen, table_sqlite_get_statement, table_get_statement,
      table_reset, table_sqlite_bindf, table_bindf, table_sqlite_step, table_step,
      set_stmt_stmts_same, set_stmt_set_stmt, set_stmt_rep_cache, run_select,
      table_sqlite_reset]
    split <;> rename_i hres <;> rw [hres] <;> simp [walk_finish, table_reset, hopen]

/-- C12: on an open rep-cache (for `start = 0`: with the youngest indexed revision
in FS), let the range query return the rows `before ++ row :: later`.  If the
body of the loop gets through the rows `before` and comes to invoke the visitor
on `row` (the cancellation callback, if any, does not fire and the hash text is
parsed), and the visitor fails there for the first time with `err`, then with
fuel for these iterations `svn_fs_x__walk_rep_reference` returns `err`; the
visitor baton is the one left by the calls for `before` and the failing call for
`row`, so the visitor has been invoked `before.length + 1` times and on none of
the rows `later`; the rows of the index are unchanged. -/
theorem walk_returns_first_visitor_error {β γ : Type} (env : collaborators)
    (fs : svn_fs_t table_db String) (sdb : String) (start end_rev : Int)
    (walker : representation_t → β → Option svn_error_t × β) (walker_baton : β)
    (cancel_func : Option (γ → Option svn_error_t × γ)) (cancel_baton : γ) (fuel : Nat)
    (before later : List rep_cache_row) (row : rep_cache_row) (digest : List Nat)
    (err : svn_error_t)
    (hopen : fs.rep_cache_db = some sdb)
    (hyoungest : start = 0 → ∀ m, max_revision fs.store.rep_cache = .integer m → 0 ≤ m →
      env.svn_fs_x__ensure_revision_exists m = none)
    (hrows : rows_in_range start end_rev fs.store.rep_cache = before ++ row :: later)
    (hbefore : rows_pass env walker cancel_func before walker_baton cancel_baton = true)
    (hcancel : (call_cancel cancel_func
      (batons_after env walker cancel_func before walker_baton cancel_baton).2).1 = none)
    (hparse : env.svn_checksum_parse_hex row.hash = .ok digest)
    (hfail : (walker (walked_rep env row)
      (batons_after env walker cancel_func before walker_baton cancel_baton).1).1 = some err)
    (hfuel : before.length + 1 ≤ fuel) :
    ∃ res : walk_result table_db String β γ,
      svn_fs_x__walk_rep_reference table_sqlite env fuel fs start end_rev walker walker_baton
          cancel_func cancel_baton = some res
        ∧ res.err = some err
        ∧ res.walker_baton = (walker (walked_rep env row)
            (batons_after env walker cancel_func before walker_baton cancel_baton).1).2
        ∧ res.cancel_baton = (call_cancel cancel_func
            (batons_after env walker cancel_func before walker_baton cancel_baton).2).2
        ∧ res.fs.store.rep_cache = fs.store.rep_cache := by
  obtain ⟨db0, hr0, hcur0, hwalk⟩ := walk_rep_reference_table env fs sdb start end_rev walker
    walker_baton cancel_func cancel_baton fuel hopen
    (fun h => walk_check_passes_of_youngest_exists env fs sdb hopen (hyoungest h))
  obtain ⟨k, rfl⟩ : ∃ k, fuel = (k + 1) + before.length := ⟨fuel - before.length - 1, by omega⟩
  rw [hrows] at hcur0 hwalk
  obtain ⟨db1, hloop, hr1, hcur1⟩ := walk_loop_table_prefix env walker cancel_func before
    (row :: later) (k + 1) db0 walker_baton cancel_baton hbefore hcur0
  rcases hcc : call_cancel cancel_func
    (batons_after env walker cancel_func before walker_baton cancel_baton).2 with ⟨ce, c1⟩
  rw [hcc] at hcancel
  simp only at hcancel
  subst hcancel
  rcases hw : walker (walked_rep env row)
    (batons_after env walker cancel_func before walker_baton cancel_baton).1 with ⟨we, b1⟩
  rw [hw] at hfail
  simp only at hfail
  subst hfail
  have hhead := walk_loop_table_visitor_failed env walker cancel_func k db1 _ b1 _ c1 row
    (later.map range_columns) digest err (by simpa using hcur1) hcc hparse hw
  rw [hloop] at hwalk
  simp only [List.map_cons, List.isEmpty_cons, Bool.not_false] at hwalk
  rw [hhead] at hwalk
  exact ⟨_, hwalk, rfl, rfl, rfl, by simp [set_stmt_rep_cache, hr1, hr0]⟩

theorem walk_returns_first_visitor_error_witness :
    ∃ res : walk_result table_db String (List representation_t) Unit,
      svn_fs_x__walk_rep_reference table_sqlite (sample_collaborators 10) 5
          (sample_fs sample_rows) 1 8 (stopping_walker 5) []
          (none : Option (Unit → Option svn_error_t × Unit)) () = some res
        ∧ res.err = some visitor_stop
        ∧ res.walker_baton = (stopping_walker 5
            (walked_rep (sample_collaborators 10)
              { hash := "abc123", revision := 5, offset := 2, size := 100, expanded_size := 100 })
            (batons_after (sample_collaborators 10) (stopping_walker 5)
              (none : Option (Unit → Option svn_error_t × Unit))
              [{ hash := "00ff", revision := 1, offset := 7, size := 30, expanded_size := 40 }]
              [] ()).1).2
        ∧ res.cancel_baton = (call_cancel (none : Option (Unit → Option svn_error_t × Unit))
            (batons_after (sample_collaborators 10) (stopping_walker 5)
              (none : Option (Unit → Option svn_error_t × Unit))
              [{ hash := "00ff", revision := 1, offset := 7, size := 30, expanded_size := 40 }]
              [] ()).2).2
        ∧ res.fs.store.rep_cache = (sample_fs sample_rows).store.rep_cache :=
  walk_returns_first_visitor_error (sample_collaborators 10) (sample_fs sample_rows)
    (path_rep_cache_db "repos/db") 1 8 (stopping_walker 5) []
    (none : Option (Unit → Option svn_error_t × Unit)) () 5
    [{ hash := "00ff", revision := 1, offset := 7, size := 30, expanded_size := 40 }]
    [{ hash := "0a", revision := 7, offset := 0, size := 9, expanded_size := 9 }]
    { hash := "abc123", revision := 5, offset := 2, size := 100, expanded_size := 100 }
    [171, 193, 35] visitor_stop rfl (fun h => absurd h (by decide)) (by decide) (by decide)
    (by decide) rfl (by decide) (by decide)

/-- C13: on an open rep-cache (for `start = 0`: with the youngest indexed revision
in FS), with a cancellation callback `cancel`.  (1) When the body of the loop
gets through all rows of the range, the walk succeeds and the batons are the
ones left by one call of the callback and one call of the visitor per row.
(2) Let the rows of the range be `before ++ row :: later`; when the body gets
through the rows `before` and the callback then fails with `err`, its first
failure, the walk returns `err`, the callback baton is the one left by the
failing call, and the visitor baton is the one left by the calls for `before`:
the visitor has been invoked `before.length` times and not on `row`, whatever
the hash text of `row` and whatever the visitor would do there.  (3) When the
range has no rows, the walk succeeds and both batons are untouched: the callback
is never called. -/
theorem walk_cancellation {β γ : Type} (env : collaborators)
    (fs : svn_fs_t table_db String) (sdb : String) (start end_rev : Int)
    (walker : representation_t → β → Option svn_error_t × β) (walker_baton : β)
    (cancel : γ → Option svn_error_t × γ) (cancel_baton : γ) (fuel : Nat)
    (hopen : fs.rep_cache_db = some sdb)
    (hyoungest : start = 0 → ∀ m, max_revision fs.store.rep_cache = .integer m → 0 ≤ m →
      env.svn_fs_x__ensure_revision_exists m = none) :
    ((rows_in_range start end_rev fs.store.rep_cache).length ≤ fuel →
        rows_pass env walker (some cancel) (rows_in_range start end_rev fs.store.rep_cache)
          walker_baton cancel_baton = true →
        ∃ res : walk_result table_db String β γ,
          svn_fs_x__walk_rep_reference table_sqlite env fuel fs start end_rev walker walker_baton
              (some cancel) cancel_baton = some res
            ∧ res.err = none
            ∧ (res.walker_baton, res.cancel_baton)
                = batons_after env walker (some cancel)
                    (rows_in_range start end_rev fs.store.rep_cache) walker_baton cancel_baton)
      ∧ (∀ (before later : List rep_cache_row) (row : rep_cache_row) (err : svn_error_t),
          rows_in_range start end_rev fs.store.rep_cache = before ++ row :: later →
          before.length + 1 ≤ fuel →
          rows_pass env walker (some cancel) before walker_baton cancel_baton = true →
          (cancel (batons_after env walker (some cancel) before walker_baton cancel_baton).2).1
            = some err →
          ∃ res : walk_result table_db String β γ,
            svn_fs_x__walk_rep_reference table_sqlite env fuel fs start end_rev walker
                walker_baton (some cancel) cancel_baton = some res
              ∧ res.err = some err
              ∧ res.walker_baton
                  = (batons_after env walker (some cancel) before walker_baton cancel_baton).1
              ∧ res.cancel_baton
                  = (cancel
                      (batons_after env walker (some cancel) before walker_baton cancel_baton).2).2)
      ∧ (rows_in_range start end_rev fs.store.rep_cache = [] →
          ∃ res : walk_result table_db String β γ,
            svn_fs_x__walk_rep_reference table_sqlite env fuel fs start end_rev walker
                walker_baton (some cancel) cancel_baton = some res
              ∧ res.err = none
              ∧ res.walker_baton = walker_baton
              ∧ res.cancel_baton = cancel_baton) := by
  obtain ⟨db0, hr0, hcur0, hwalk⟩ := walk_rep_reference_table env fs sdb start end_rev walker
    walker_baton (some cancel) cancel_baton fuel hopen
    (fun h => walk_check_passes_of_youngest_exists env fs sdb hopen (hyoungest h))
  have hfull : (rows_in_range start end_rev fs.store.rep_cache).length ≤ fuel →
      rows_pass env walker (some cancel) (rows_in_range start end_rev fs.store.rep_cache)
        walker_baton cancel_baton = true →
      ∃ res : walk_result table_db String β γ,
        svn_fs_x__walk_rep_reference table_sqlite env fuel fs start end_rev walker walker_baton
            (some cancel) cancel_baton = some res
          ∧ res.err = none
          ∧ (res.walker_baton, res.cancel_baton)
              = batons_after env walker (some cancel)
                  (rows_in_range start end_rev fs.store.rep_cache) walker_baton cancel_baton := by
    intro hfuel hpass
    obtain ⟨k, hk⟩ : ∃ k, fuel = k + (rows_in_range start end_rev fs.store.rep_cache).length :=
      ⟨fuel - (rows_in_range start end_rev fs.store.rep_cache).length, by omega⟩
    have hcur : (db0.stmts .STMT_GET_REPS_FOR_RANGE).cursor
        = some ((rows_in_range start end_rev fs.store.rep_cache ++ []).map range_columns) := by
      rw [List.append_nil]
      exact hcur0
    obtain ⟨db1, hloop, _, _⟩ := walk_loop_table_prefix env walker (some cancel)
      (rows_in_range start end_rev fs.store.rep_cache) [] k db0 walker_baton cancel_baton
      hpass hcur
    rw [List.append_nil, ← hk] at hloop
    rw [hloop] at hwalk
    simp only [List.map_nil, List.isEmpty_nil, Bool.not_true] at hwalk
    rw [walk_loop_no_row] at hwalk
    exact ⟨_, hwalk, rfl, rfl⟩
  refine ⟨hfull, ?_, ?_⟩
  · intro before later row err hrows hfuel hbefore hfire
    obtain ⟨k, rfl⟩ : ∃ k, fuel = (k + 1) + before.length := ⟨fuel - before.length - 1, by omega⟩
    rw [hrows] at hcur0 hwalk
    obtain ⟨db1, hloop, _, _⟩ := walk_loop_table_prefix env walker (some cancel) before
      (row :: later) (k + 1) db0 walker_baton cancel_baton hbefore hcur0
    rcases hcc : cancel (batons_after env walker (some cancel) before walker_baton cancel_baton).2
      with ⟨ce, c1⟩
    rw [hcc] at hfire
    simp only at hfire
    subst hfire
    have hhead := walk_loop_table_cancelled env walker (some cancel) k db1
      (batons_after env walker (some cancel) before walker_baton cancel_baton).1
      (batons_after env walker (some cancel) before walker_baton cancel_baton).2 c1 err hcc
    rw [hloop] at hwalk
    simp only [List.map_cons, List.isEmpty_cons, Bool.not_false] at hwalk
    rw [hhead] at hwalk
    exact ⟨_, hwalk, rfl, rfl, rfl⟩
  · intro hnone
    obtain ⟨res, h1, h2, h3⟩ := hfull (by rw [hnone]; exact Nat.zero_le _) (by rw [hnone]; rfl)
    rw [hnone] at h3
    simp only [batons_after, Prod.mk.injEq] at h3
    exact ⟨res, h1, h2, h3.1, h3.2⟩

theorem walk_cancellation_witness :
    (∃ res : walk_result table_db String (List representation_t) Nat,
        svn_fs_x__walk_rep_reference table_sqlite (sample_collaborators 10) 5
            (sample_fs sample_rows) 1 8 collecting_walker [] (some (cancel_from 9)) 0 = some res
          ∧ res.err = none
          ∧ (res.walker_baton, res.cancel_baton)
              = batons_after (sample_collaborators 10) collecting_walker (some (cancel_from 9))
                  (rows_in_range 1 8 (sample_fs sample_rows).store.rep_cache) [] 0)
      ∧ (∃ res : walk_result table_db String (List representation_t) Nat,
          svn_fs_x__walk_rep_reference table_sqlite (sample_collaborators 10) 5
              (sample_fs sample_rows) 1 8 collecting_walker [] (some (cancel_from 1)) 0 = some res
            ∧ res.err = some cancelled_error
            ∧ res.walker_baton
                = (batons_after (sample_collaborators 10) collecting_walker (some (cancel_from 1))
                    [{ hash := "00ff", revision := 1, offset := 7, size := 30, expanded_size := 40 }]
                    [] 0).1
            ∧ res.cancel_baton
                = (cancel_from 1
                    (batons_after (sample_collaborators 10) collecting_walker
                      (some (cancel_from 1))
                      [{ hash := "00ff", revision := 1, offset := 7, size := 30,
                         expanded_size := 40 }] [] 0).2).2)
      ∧ (∃ res : walk_result table_db String (List representation_t) Nat,
          svn_fs_x__walk_rep_reference table_sqlite (sample_collaborators 10) 5
              (sample_fs sample_rows) 20 30 collecting_walker [] (some (cancel_from 0)) 0
              = some res
            ∧ res.err = none
            ∧ res.walker_baton = []
            ∧ res.cancel_baton = 0) :=
  ⟨(walk_cancellation (sample_collaborators 10) (sample_fs sample_rows)
      (path_rep_cache_db "repos/db") 1 8 collecting_walker [] (cancel_from 9) 0 5 rfl
      (fun h => absurd h (by decide))).1 (by decide) (by decide),
   (walk_cancellation (sample_collaborators 10) (sample_fs sample_rows)
      (path_rep_cache_db "repos/db") 1 8 collecting_walker [] (cancel_from 1) 0 5 rfl
      (fun h => absurd h (by decide))).2.1
      [{ hash := "00ff", revision := 1, offset := 7, size := 30, expanded_size := 40 }]
      [{ hash := "0a", revision := 7, offset := 0, size := 9, expanded_size := 9 }]
      { hash := "abc123", revision := 5, offset := 2, size := 100, expanded_size := 100 }
      cancelled_error (by decide) (by decide) (by decide) (by decide),
   (walk_cancellation (sample_collaborators 10) (sample_fs sample_rows)
      (path_rep_cache_db "repos/db") 20 30 collecting_walker [] (cancel_from 0) 0 5 rfl
      (fun h => absurd h (by decide))).2.2 (by decide)⟩

/-! ### Release of the range statement -/

theorem walk_loop_oracle_free {σ δ β γ : Type} (sq : svn_sqlite σ δ) (env : collaborators)
    (oracle : Int → Option svn_error_t)
    (walker : representation_t → β → Option svn_error_t × β)
    (cancel_func : Option (γ → Option svn_error_t × γ)) :
    ∀ (fuel : Nat) (have_row : Bool) (s : σ) (b : β) (c : γ),
      walk_loop sq { env with svn_fs_x__ensure_revision_exists := oracle } walker cancel_func
          fuel have_row s b c
        = walk_loop sq env walker cancel_func fuel have_row s b c := by
  intro fuel
  induction fuel with
  | zero =>
    intro have_row s b c
    cases have_row <;> rfl
  | succ fuel ih =>
    intro have_row s b c
    cases have_row with
    | false => rfl
    | true =>
      simp only [walk_loop, ih]

/-- C11 (as amended): on an open rep-cache.  (1) When `start` is 0 and the largest
indexed revision is a valid revision number (not negative) that does not exist
in FS, `svn_fs_x__walk_rep_reference` returns the error of the existence check
and both batons are untouched: neither the visitor nor the cancellation callback
has been called.  (2) When the index is empty the walk succeeds for every
oracle, with both batons untouched.  (3) Over any embedded store, when `start`
is not 0 the outcome of the walk is the same for every oracle: the existence
oracle is not consulted. -/
theorem walk_global_invariant_check {β γ : Type} (env : collaborators)
    (fs : svn_fs_t table_db String) (sdb : String) (start end_rev : Int)
    (walker : representation_t → β → Option svn_error_t × β) (walker_baton : β)
    (cancel_func : Option (γ → Option svn_error_t × γ)) (cancel_baton : γ) (fuel : Nat)
    (hopen : fs.rep_cache_db = some sdb) :
    (∀ (m : Int) (err : svn_error_t),
        start = 0 → max_revision fs.store.rep_cache = .integer m → 0 ≤ m →
        env.svn_fs_x__ensure_revision_exists m = some err →
        ∃ res : walk_result table_db String β γ,
          svn_fs_x__walk_rep_reference table_sqlite env fuel fs start end_rev walker walker_baton
              cancel_func cancel_baton = some res
            ∧ res.err = some err
            ∧ res.walker_baton = walker_baton
            ∧ res.cancel_baton = cancel_baton)
      ∧ (fs.store.rep_cache = [] →
          ∃ res : walk_result table_db String β γ,
            svn_fs_x__walk_rep_reference table_sqlite env fuel fs start end_rev walker
                walker_baton cancel_func cancel_baton = some res
              ∧ res.err = none
              ∧ res.walker_baton = walker_baton
              ∧ res.cancel_baton = cancel_baton)
      ∧ (∀ (σ δ : Type) (sq : svn_sqlite σ δ) (gfs : svn_fs_t σ δ)
          (oracle : Int → Option svn_error_t),
          start ≠ 0 →
          svn_fs_x__walk_rep_reference sq { env with svn_fs_x__ensure_revision_exists := oracle }
              fuel gfs start end_rev walker walker_baton cancel_func cancel_baton
            = svn_fs_x__walk_rep_reference sq env fuel gfs start end_rev walker walker_baton
                cancel_func cancel_baton) := by
  refine ⟨?_, ?_, ?_⟩
  · intro m err hstart hmax hvalid habsent
    have ho : open_if_needed table_sqlite fs = (none, fs) := by
      unfold open_if_needed
      rw [hopen]
    have hchk : walk_check_global_invariants table_sqlite env fs
        = (some err, set_stmt fs.store .STMT_GET_MAX_REV idle_stmt) := by
      rw [walk_check_global_invariants_table env fs sdb hopen, hmax]
      simp [hvalid, habsent]
    unfold svn_fs_x__walk_rep_reference
    simp only [ho, if_pos hstart, hchk]
    exact ⟨_, rfl, rfl, rfl, rfl⟩
  · intro hempty
    have hcheck : start = 0 → (walk_check_global_invariants table_sqlite env fs).1 = none := by
      intro _
      rw [walk_check_global_invariants_table env fs sdb hopen, hempty]
      rfl
    obtain ⟨db0, _, _, hwalk⟩ := walk_rep_reference_table env fs sdb start end_rev walker
      walker_baton cancel_func cancel_baton fuel hopen hcheck
    have hrange : rows_in_range start end_rev fs.store.rep_cache = [] := by
      rw [hempty]
      rfl
    rw [hrange] at hwalk
    simp only [List.map_nil, List.isEmpty_nil, Bool.not_true] at hwalk
    rw [walk_loop_no_row] at hwalk
    exact ⟨_, hwalk, rfl, rfl, rfl⟩
  · intro σ δ sq gfs oracle hstart
    unfold svn_fs_x__walk_rep_reference
    simp only [if_neg hstart, walk_loop_oracle_free]

theorem walk_global_invariant_check_witness :
    (∃ res : walk_result table_db String (List representation_t) Nat,
        svn_fs_x__walk_rep_reference table_sqlite (sample_collaborators 4) 5
            (sample_fs sample_rows) 0 8 collecting_walker [] (some (cancel_from 9)) 0 = some res
          ∧ res.err = some (no_such_revision 7)
          ∧ res.walker_baton = []
          ∧ res.cancel_baton = 0)
      ∧ (∃ res : walk_result table_db String (List representation_t) Nat,
          svn_fs_x__walk_rep_reference table_sqlite (sample_collaborators 4) 5
              (sample_fs []) 0 8 collecting_walker [] (some (cancel_from 0)) 0 = some res
            ∧ res.err = none
            ∧ res.walker_baton = []
            ∧ res.cancel_baton = 0)
      ∧ svn_fs_x__walk_rep_reference table_sqlite
            { sample_collaborators 4 with
              svn_fs_x__ensure_revision_exists := fun rev => some (no_such_revision rev) }
            5 (sample_fs sample_rows) 1 8 collecting_walker [] (some (cancel_from 9)) 0
          = svn_fs_x__walk_rep_reference table_sqlite (sample_collaborators 4) 5
              (sample_fs sample_rows) 1 8 collecting_walker [] (some (cancel_from 9)) 0 :=
  ⟨(walk_global_invariant_check (sample_collaborators 4) (sample_fs sample_rows)
      (path_rep_cache_db "repos/db") 0 8 collecting_walker [] (some (cancel_from 9)) 0 5 rfl).1
      7 (no_such_revision 7) rfl (by decide) (by decide) (by decide),
   (walk_global_invariant_check (sample_collaborators 4) (sample_fs [])
      (path_rep_cache_db "repos/db") 0 8 collecting_walker [] (some (cancel_from 0)) 0 5 rfl).2.1
      rfl,
   (walk_global_invariant_check (sample_collaborators 4) (sample_fs sample_rows)
      (path_rep_cache_db "repos/db") 1 8 collecting_walker [] (some (cancel_from 9)) 0 5 rfl).2.2
      table_db String table_sqlite (sample_fs sample_rows)
      (fun rev => some (no_such_revision rev)) (by decide)⟩

/-- C11 (as stated) fails: a representation of the change set -3 is stored into an
empty index; the index is then non-empty and its largest revision, -3, does not
exist in FS, yet the walk from 0 skips the existence check, because -3 is not a
valid revision number, and succeeds. -/
theorem walk_invariant_check_counterexample :
    max_revision
        (svn_fs_x__set_rep_reference table_sqlite (sample_collaborators 10) (sample_fs [])
          (sample_rep (-3) 2 100 100) true).2.store.rep_cache = .integer (-3)
      ∧ (sample_collaborators 10).svn_fs_x__ensure_revision_exists (-3)
          = some (no_such_revision (-3))
      ∧ (svn_fs_x__walk_rep_reference table_sqlite (sample_collaborators 10) 5
          (svn_fs_x__set_rep_reference table_sqlite (sample_collaborators 10) (sample_fs [])
            (sample_rep (-3) 2 100 100) true).2
          0 10 collecting_walker [] (none : Option (Unit → Option svn_error_t × Unit)) ()).map
            (fun res => res.err) = some none := by
  decide

/-! ### Deleting -/

theorem walk_loop_table_invariant {β γ : Type} (env : collaborators)
    (walker : representation_t → β → Option svn_error_t × β)
    (cancel_func : Option (γ → Option svn_error_t × γ)) (inv : β → Prop)
    (rows : List rep_cache_row)
    (hstep : ∀ row ∈ rows, ∀ b, inv b → inv (walker (walked_rep env row) b).2) :
    ∀ (fuel : Nat) (db : table_db) (b : β) (c : γ),
      (db.stmts .STMT_GET_REPS_FOR_RANGE).cursor = some (rows.map range_columns) →
      inv b →
      ∀ (ex : loop_exit) (db1 : table_db) (b1 : β) (c1 : γ),
        walk_loop table_sqlite env walker cancel_func fuel (!(rows.map range_columns).isEmpty)
            db b c = some (ex, db1, b1, c1) →
        inv b1 := by
  induction rows with
  | nil =>
    intro fuel db b c _ hb ex db1 b1 c1 h
    simp only [List.map_nil, List.isEmpty_nil, Bool.not_true, walk_loop_no_row,
      Option.some.injEq, Prod.mk.injEq] at h
    rw [← h.2.2.1]
    exact hb
  | cons r rest ih =>
    intro fuel db b c hcur hb ex db1 b1 c1 h
    cases fuel with
    | zero => simp [walk_loop] at h
    | succ fuel =>
      have hrest : ∀ row ∈ rest, ∀ b, inv b → inv (walker (walked_rep env row) b).2 :=
        fun row hrow => hstep row (List.mem_cons_of_mem _ hrow)
      have hhead := hstep r (List.mem_cons_self _ _) b hb
      simp only [List.map_cons, List.isEmpty_cons, Bool.not_false] at h
      rcases hcc : call_cancel cancel_func c with ⟨ce, c2⟩
      cases ce with
      | some e =>
        rw [walk_loop_table_cancelled env walker cancel_func fuel db b c c2 e hcc] at h
        simp only [Option.some.injEq, Prod.mk.injEq] at h
        rw [← h.2.2.1]
        exact hb
      | none =>
        rcases hp : env.svn_checksum_parse_hex r.hash with e | d
        · rw [walk_loop_table_parse_failed env walker cancel_func fuel db b c c2 r
            (rest.map range_columns) e (by simpa using hcur) hcc hp] at h
          simp only [Option.some.injEq, Prod.mk.injEq] at h
          rw [← h.2.2.1]
          exact hb
        · rcases hw : walker (walked_rep env r) b with ⟨we, b2⟩
          rw [hw] at hhead
          cases we with
          | some e =>
            rw [walk_loop_table_visitor_failed env walker cancel_func fuel db b b2 c c2 r
              (rest.map range_columns) d e (by simpa using hcur) hcc hp hw] at h
            simp only [Option.some.injEq, Prod.mk.injEq] at h
            rw [← h.2.2.1]
            exact hhead
          | none =>
            have hpass : rows_pass env walker cancel_func [r] b c = true := by
              simp [rows_pass, hcc, hp, hw]
            obtain ⟨db2, hloop, _, hcur2⟩ := walk_loop_table_prefix env walker cancel_func [r] rest
              fuel db b c hpass (by simpa using hcur)
            simp only [List.singleton_append, List.map_cons, List.isEmpty_cons, Bool.not_false,
              List.length_singleton, batons_after, hw, hcc] at hloop
            rw [hloop] at h
            exact ih hrest fuel db2 b2 c2 hcur2 hhead ex db1 b1 c1 h

theorem walk_rep_reference_table_invariant {β γ : Type} (env : collaborators)
    (fs : svn_fs_t table_db String) (sdb : String) (start end_rev : Int)
    (walker : representation_t → β → Option svn_error_t × β) (b : β)
    (cancel_func : Option (γ → Option svn_error_t × γ)) (c : γ) (fuel : Nat) (inv : β → Prop)
    (hopen : fs.rep_cache_db = some sdb) (hb : inv b)
    (hstep : ∀ row ∈ rows_in_range start end_rev fs.store.rep_cache,
      ∀ b, inv b → inv (walker (walked_rep env row) b).2) :
    ∀ res : walk_result table_db String β γ,
      svn_fs_x__walk_rep_reference table_sqlite env fuel fs start end_rev walker b cancel_func c
        = some res → inv res.walker_baton := by
  intro res hres
  by_cases hcheck : start = 0 → (walk_check_global_invariants table_sqlite env fs).1 = none
  · obtain ⟨db0, _, hcur0, hwalk⟩ := walk_rep_reference_table env fs sdb start end_rev walker
      b cancel_func c fuel hopen hcheck
    rw [hwalk] at hres
    rcases hloop : walk_loop table_sqlite env walker cancel_func fuel
        (!((rows_in_range start end_rev fs.store.rep_cache).map range_columns).isEmpty)
        db0 b c with _ | ⟨ex, s4, b4, c4⟩
    · rw [hloop] at hres
      simp [walk_finish] at hres
    · rw [hloop] at hres
      have hinv := walk_loop_table_invariant env walker cancel_func inv _ hstep fuel db0 b c
        hcur0 hb ex s4 b4 c4 hloop
      cases ex <;> simp only [walk_finish, Option.some.injEq] at hres <;> rw [← hres] <;>
        exact hinv
  · have hstart : start = 0 := by
      by_contra hne
      exact hcheck (fun h => absurd h hne)
    have hfail : (walk_check_global_invariants table_sqlite env fs).1 ≠ none :=
      fun h => hcheck (fun _ => h)
    have ho : open_if_needed table_sqlite fs = (none, fs) := by
      unfold open_if_needed
      rw [hopen]
    unfold svn_fs_x__walk_rep_reference at hres
    rcases hc : walk_check_global_invariants table_sqlite env fs with ⟨r, s0⟩
    rw [hc] at hfail
    cases r with
    | none => exact absurd rfl hfail
    | some e =>
      simp only [ho, if_pos hstart, hc, Option.some.injEq] at hres
      rw [← hres]
      exact hb

theorem del_rep_reference_table (fs : svn_fs_t table_db String) (sdb : String)
    (youngest : Int) (hopen : fs.rep_cache_db = some sdb) :
    (svn_fs_x__del_rep_reference table_sqlite fs youngest).1 = none
      ∧ (svn_fs_x__del_rep_reference table_sqlite fs youngest).2.store.rep_cache
          = fs.store.rep_cache.filter (fun r => decide (r.revision ≤ youngest))
      ∧ (svn_fs_x__del_rep_reference table_sqlite fs youngest).2.rep_cache_db = some sdb := by
  unfold svn_fs_x__del_rep_reference
  simp [open_if_needed, hopen, table_get_statement, table_reset, table_bindf, table_step_done,
    set_stmt_stmts_same, set_stmt_rep_cache]

/-- C15: on an open rep-cache, for every index state and every revision
`youngest`, `svn_fs_x__del_rep_reference` succeeds and the index then holds
exactly the rows it held before whose revision is at most `youngest`, each
unchanged and in the same order; every row of a younger revision is gone; and
in a subsequent walk over any range, full or not, whatever way it ends, every
representation handed to a recording visitor has a revision of at most
`youngest`. -/
theorem del_removes_younger_revisions {γ : Type} (env : collaborators)
    (fs : svn_fs_t table_db String) (sdb : String) (youngest : Int)
    (start end_rev : Int) (cancel_func : Option (γ → Option svn_error_t × γ)) (cancel_baton : γ)
    (fuel : Nat) (hopen : fs.rep_cache_db = some sdb) :
    (svn_fs_x__del_rep_reference table_sqlite fs youngest).1 = none
      ∧ (svn_fs_x__del_rep_reference table_sqlite fs youngest).2.store.rep_cache
          = fs.store.rep_cache.filter (fun r => decide (r.revision ≤ youngest))
      ∧ (∀ row, row ∈ (svn_fs_x__del_rep_reference table_sqlite fs youngest).2.store.rep_cache
          ↔ row ∈ fs.store.rep_cache ∧ row.revision ≤ youngest)
      ∧ Option.elim
          (svn_fs_x__walk_rep_reference table_sqlite env fuel
            (svn_fs_x__del_rep_reference table_sqlite fs youngest).2 start end_rev
            collecting_walker [] cancel_func cancel_baton)
          True
          (fun res => ∀ rep ∈ res.walker_baton, rep.id.change_set ≤ youngest) := by
  obtain ⟨h1, h2, h3⟩ := del_rep_reference_table fs sdb youngest hopen
  refine ⟨h1, h2, ?_, ?_⟩
  · intro row
    rw [h2, List.mem_filter]
    simp
  · rcases hw : svn_fs_x__walk_rep_reference table_sqlite env fuel
        (svn_fs_x__del_rep_reference table_sqlite fs youngest).2 start end_rev
        collecting_walker [] cancel_func cancel_baton with _ | res
    · trivial
    · refine walk_rep_reference_table_invariant env _ sdb start end_rev collecting_walker []
        cancel_func cancel_baton fuel (fun seen => ∀ rep ∈ seen, rep.id.change_set ≤ youngest)
        h3 (fun rep hrep => absurd hrep (List.not_mem_nil _)) ?_ res hw
      intro row hrow seen hseen rep hrep
      simp only [collecting_walker, List.mem_append, List.mem_singleton] at hrep
      rcases hrep with hrep | hrep
      · exact hseen rep hrep
      · have hmem := List.mem_of_mem_filter hrow
        rw [h2, List.mem_filter] at hmem
        rw [hrep]
        simpa [walked_rep, rep_of_row] using hmem.2

theorem del_removes_younger_revisions_witness :
    (svn_fs_x__del_rep_reference table_sqlite (sample_fs sample_rows) 5).1 = none
      ∧ (svn_fs_x__del_rep_reference table_sqlite (sample_fs sample_rows) 5).2.store.rep_cache
          = (sample_fs sample_rows).store.rep_cache.filter (fun r => decide (r.revision ≤ 5))
      ∧ (∀ row, row ∈ (svn_fs_x__del_rep_reference table_sqlite
            (sample_fs sample_rows) 5).2.store.rep_cache
          ↔ row ∈ (sample_fs sample_rows).store.rep_cache ∧ row.revision ≤ 5)
      ∧ Option.elim
          (svn_fs_x__walk_rep_reference table_sqlite (sample_collaborators 10) 5
            (svn_fs_x__del_rep_reference table_sqlite (sample_fs sample_rows) 5).2 0 100
            collecting_walker [] (none : Option (Unit → Option svn_error_t × Unit)) ())
          True
          (fun res => ∀ rep ∈ res.walker_baton, rep.id.change_set ≤ 5) :=
  del_removes_younger_revisions (sample_collaborators 10) (sample_fs sample_rows)
    (path_rep_cache_db "repos/db") 5 0 100 (none : Option (Unit → Option svn_error_t × Unit)) ()
    5 rfl

end RepCache

namespace FsFs

/-! ### The lock order -/

theorem acquisition_order_pairwise :
    acquisition_order.Pairwise (fun a b => precedes a b) := by
  decide

theorem held_precedes_waited (plan : List lock_field) (k : Nat) (x y : lock_field)
    (hp : plan.Pairwise (fun a b => precedes a b))
    (hx : x ∈ plan.take k) (hy : plan[k]? = some y) : precedes x y := by
  have hsplit : plan.take k ++ plan.drop k = plan := List.take_append_drop k plan
  rw [← hsplit, List.pairwise_append] at hp
  have hmem : y ∈ plan.drop k := by
    have hh : (plan.drop k).head? = some y := by
      rw [List.head?_drop]
      exact hy
    exact List.mem_of_mem_head? hh
  exact hp.2.2 x hx y hmem

/-- C18: the acquisition order txn-current, pack, write, txn-list is exactly the
reverse of the declaration order of the four lock fields of
`fs_fs_shared_data_t`; `precedes` is a strict total order on the four locks
(irreflexive, transitive, any two different locks are ordered); and two
acquirers that each take a subset of the four locks in the acquisition order
never wait for one another in a cycle. -/
theorem lock_order_total_and_acyclic (a b : acquirer)
    (ha : a.plan.Sublist acquisition_order) (hb : b.plan.Sublist acquisition_order) :
    acquisition_order = declaration_order.reverse
      ∧ (∀ x : lock_field, ¬ precedes x x)
      ∧ (∀ x y z : lock_field, precedes x y → precedes y z → precedes x z)
      ∧ (∀ x y : lock_field, precedes x y ∨ x = y ∨ precedes y x)
      ∧ cyclic_wait a b = false := by
  refine ⟨rfl, ?_, ?_, ?_, ?_⟩
  · intro x
    exact Nat.lt_irrefl _
  · intro x y z hxy hyz
    exact Nat.lt_trans hxy hyz
  · intro x y
    cases x <;> cases y <;> decide
  · have hpa := acquisition_order_pairwise.sublist ha
    have hpb := acquisition_order_pairwise.sublist hb
    unfold cyclic_wait
    cases hwa : a.waits_for with
    | none => rfl
    | some la =>
      cases hwb : b.waits_for with
      | none => rfl
      | some lb =>
        simp only [Bool.and_eq_false_imp]
        intro hla
        have hla2 : la ∈ b.held := by simpa using hla
        have h1 : precedes la lb := held_precedes_waited b.plan b.progress la lb hpb hla2 hwb
        by_contra hlb
        have hlb2 : lb ∈ a.held := by simpa using hlb
        have h2 : precedes lb la := held_precedes_waited a.plan a.progress lb la hpa hlb2 hwa
        exact Nat.lt_irrefl _ (Nat.lt_trans h1 h2)

theorem lock_order_total_and_acyclic_witness :
    acquisition_order = declaration_order.reverse
      ∧ (∀ x : lock_field, ¬ precedes x x)
      ∧ (∀ x y z : lock_field, precedes x y → precedes y z → precedes x z)
      ∧ (∀ x y : lock_field, precedes x y ∨ x = y ∨ precedes y x)
      ∧ cyclic_wait { plan := [.txn_current_lock, .fs_write_lock], progress := 1 }
          { plan := [.fs_pack_lock, .fs_write_lock, .txn_list_lock], progress := 2 } = false :=
  lock_order_total_and_acyclic { plan := [.txn_current_lock, .fs_write_lock], progress := 1 }
    { plan := [.fs_pack_lock, .fs_write_lock, .txn_list_lock], progress := 2 }
    (by decide) (by decide)

end FsFs

namespace RepCache

/-! ### What a reconstructed representation carries -/

theorem get_rep_reference_shape {σ δ : Type} (sq : svn_sqlite σ δ) (env : collaborators)
    (fs : svn_fs_t σ δ) (checksum : svn_checksum_t) (rep : representation_t)
    (h : (svn_fs_x__get_rep_reference sq env fs checksum).1 = .ok (some rep)) :
    ∃ s : σ, rep =
      { zeroed_representation with
        sha1_digest := checksum.digest
        has_sha1 := true
        id := { change_set := sq.svn_sqlite__column_revnum .STMT_GET_REP 0 s
                number := to_uint64 (sq.svn_sqlite__column_int64 .STMT_GET_REP 1 s) }
        size := sq.svn_sqlite__column_int64 .STMT_GET_REP 2 s
        expanded_size := sq.svn_sqlite__column_int64 .STMT_GET_REP 3 s } := by
  unfold svn_fs_x__get_rep_reference at h
  repeat' split at h
  all_goals try (exfalso; simp at h; done)
  all_goals
    simp only [] at h
    split at h
    · simp at h
    · simp only [Except.ok.injEq, Option.some.injEq] at h
      exact ⟨_, h.symm⟩



theorem walk_loop_table_invariant_parsed {β γ : Type} (env : collaborators)
    (walker : representation_t → β → Option svn_error_t × β)
    (cancel_func : Option (γ → Option svn_error_t × γ)) (inv : β → Prop)
    (rows : List rep_cache_row)
    (hstep : ∀ row ∈ rows, ∀ d, env.svn_checksum_parse_hex row.hash = .ok d →
      ∀ b, inv b → inv (walker (rep_of_row d row) b).2) :
    ∀ (fuel : Nat) (db : table_db) (b : β) (c : γ),
      (db.stmts .STMT_GET_REPS_FOR_RANGE).cursor = some (rows.map range_columns) →
      inv b →
      ∀ (ex : loop_exit) (db1 : table_db) (b1 : β) (c1 : γ),
        walk_loop table_sqlite env walker cancel_func fuel (!(rows.map range_columns).isEmpty)
            db b c = some (ex, db1, b1, c1) →
        inv b1 := by
  induction rows with
  | nil =>
    intro fuel db b c _ hb ex db1 b1 c1 h
    simp only [List.map_nil, List.isEmpty_nil, Bool.not_true, walk_loop_no_row,
      Option.some.injEq, Prod.mk.injEq] at h
    rw [← h.2.2.1]
    exact hb
  | cons r rest ih =>
    intro fuel db b c hcur hb ex db1 b1 c1 h
    cases fuel with
    | zero => simp [walk_loop] at h
    | succ fuel =>
      have hrest : ∀ row ∈ rest, ∀ d, env.svn_checksum_parse_hex row.hash = .ok d →
          ∀ b, inv b → inv (walker (rep_of_row d row) b).2 :=
        fun row hrow => hstep row (List.mem_cons_of_mem _ hrow)
      simp only [List.map_cons, List.isEmpty_cons, Bool.not_false] at h
      rcases hcc : call_cancel cancel_func c with ⟨ce, c2⟩
      cases ce with
      | some e =>
        rw [walk_loop_table_cancelled env walker cancel_func fuel db b c c2 e hcc] at h
        simp only [Option.some.injEq, Prod.mk.injEq] at h
        rw [← h.2.2.1]
        exact hb
      | none =>
        rcases hp : env.svn_checksum_parse_hex r.hash with e | d
        · rw [walk_loop_table_parse_failed env walker cancel_func fuel db b c c2 r
            (rest.map range_columns) e (by simpa using hcur) hcc hp] at h
          simp only [Option.some.injEq, Prod.mk.injEq] at h
          rw [← h.2.2.1]
          exact hb
        · have hrep : walked_rep env r = rep_of_row d r := by simp [walked_rep, hp]
          have hhead := hstep r (List.mem_cons_self _ _) d hp b hb
          rw [← hrep] at hhead
          rcases hw : walker (walked_rep env r) b with ⟨we, b2⟩
          rw [hw] at hhead
          cases we with
          | some e =>
            rw [walk_loop_table_visitor_failed env walker cancel_func fuel db b b2 c c2 r
              (rest.map range_columns) d e (by simpa using hcur) hcc hp hw] at h
            simp only [Option.some.injEq, Prod.mk.injEq] at h
            rw [← h.2.2.1]
            exact hhead
          | none =>
            have hpass : rows_pass env walker cancel_func [r] b c = true := by
              simp [rows_pass, hcc, hp, hw]
            obtain ⟨db2, hloop, _, hcur2⟩ := walk_loop_table_prefix env walker cancel_func [r] rest
              fuel db b c hpass (by simpa using hcur)
            simp only [List.singleton_append, List.map_cons, List.isEmpty_cons, Bool.not_false,
              List.length_singleton, batons_after, hw, hcc] at hloop
            rw [hloop] at h
            exact ih hrest fuel db2 b2 c2 hcur2 hhead ex db1 b1 c1 h

theorem walk_rep_reference_table_invariant_parsed {β γ : Type} (env : collaborators)
    (fs : svn_fs_t table_db String) (sdb : String) (start end_rev : Int)
    (walker : representation_t → β → Option svn_error_t × β) (b : β)
    (cancel_func : Option (γ → Option svn_error_t × γ)) (c : γ) (fuel : Nat) (inv : β → Prop)
    (hopen : fs.rep_cache_db = some sdb) (hb : inv b)
    (hstep : ∀ row ∈ rows_in_range start end_rev fs.store.rep_cache,
      ∀ d, env.svn_checksum_parse_hex row.hash = .ok d →
      ∀ b, inv b → inv (walker (rep_of_row d row) b).2) :
    ∀ res : walk_result table_db String β γ,
      svn_fs_x__walk_rep_reference table_sqlite env fuel fs start end_rev walker b cancel_func c
        = some res → inv res.walker_baton := by
  intro res hres
  by_cases hcheck : start = 0 → (walk_check_global_invariants table_sqlite env fs).1 = none
  · obtain ⟨db0, _, hcur0, hwalk⟩ := walk_rep_reference_table env fs sdb start end_rev walker
      b cancel_func c fuel hopen hcheck
    rw [hwalk] at hres
    rcases hloop : walk_loop table_sqlite env walker cancel_func fuel
        (!((rows_in_range start end_rev fs.store.rep_cache).map range_columns).isEmpty)
        db0 b c with _ | ⟨ex, s4, b4, c4⟩
    · rw [hloop] at hres
      simp [walk_finish] at hres
    · rw [hloop] at hres
      have hinv := walk_loop_table_invariant_parsed env walker cancel_func inv _ hstep fuel db0
        b c hcur0 hb ex s4 b4 c4 hloop
      cases ex <;> simp only [walk_finish, Option.some.injEq] at hres <;> rw [← hres] <;>
        exact hinv
  · have hstart : start = 0 := by
      by_contra hne
      exact hcheck (fun h => absurd h hne)
    have hfail : (walk_check_global_invariants table_sqlite env fs).1 ≠ none :=
      fun h => hcheck (fun _ => h)
    have ho : open_if_needed table_sqlite fs = (none, fs) := by
      unfold open_if_needed
      rw [hopen]
    unfold svn_fs_x__walk_rep_reference at hres
    rcases hc : walk_check_global_invariants table_sqlite env fs with ⟨r, s0⟩
    rw [hc] at hfail
    cases r with
    | none => exact absurd rfl hfail
    | some e =>
      simp only [ho, if_pos hstart, hc, Option.some.injEq] at hres
      rw [← hres]
      exact hb

/-- C21: representations reconstructed from the index carry only the strong
hash.  (1) Over any embedded store and for any state of the filesystem object,
a representation that `svn_fs_x__get_rep_reference` returns has `has_sha1` set,
the digest of the requested checksum as its SHA-1 digest, an all-zero MD5 digest,
and as revision, item index, size and expanded size the four columns read from
the row of `STMT_GET_REP` (the item index converted to unsigned).  (2) On the
keyed-table store with an open rep-cache these are the columns of the row stored
under the text of the checksum.  (3) On the keyed-table store with an open
rep-cache, for every range, visitor, cancellation callback and fuel, and whatever
way the walk ends, every representation handed to the visitor has `has_sha1`
set, an all-zero MD5 digest, and belongs to a row of the range: its SHA-1 digest
is the digest parsed from the hash text of that row, and its revision, item
index (converted to unsigned), size and expanded size are the columns of that
row. -/
theorem reconstructed_rep_carries_only_sha1 {σ δ β γ : Type} (sq : svn_sqlite σ δ)
    (env : collaborators) (fs : svn_fs_t σ δ) (checksum : svn_checksum_t)
    (tfs : svn_fs_t table_db String) (sdb : String) (start end_rev : Int)
    (walker : representation_t → β → Option svn_error_t × β) (walker_baton : β)
    (cancel_func : Option (γ → Option svn_error_t × γ)) (cancel_baton : γ) (fuel : Nat)
    (hopen : tfs.rep_cache_db = some sdb) :
    (∀ rep, (svn_fs_x__get_rep_reference sq env fs checksum).1 = .ok (some rep) →
        rep.has_sha1 = true ∧ rep.sha1_digest = checksum.digest
          ∧ rep.md5_digest = List.replicate APR_MD5_DIGESTSIZE 0
          ∧ ∃ s : σ,
              rep.id.change_set = sq.svn_sqlite__column_revnum .STMT_GET_REP 0 s
                ∧ rep.id.number = to_uint64 (sq.svn_sqlite__column_int64 .STMT_GET_REP 1 s)
                ∧ rep.size = sq.svn_sqlite__column_int64 .STMT_GET_REP 2 s
                ∧ rep.expanded_size = sq.svn_sqlite__column_int64 .STMT_GET_REP 3 s)
      ∧ (∀ rep, (svn_fs_x__get_rep_reference table_sqlite env tfs checksum).1 = .ok (some rep) →
          ∃ row, lookup_row tfs.store.rep_cache (env.svn_checksum_to_cstring checksum) = some row
            ∧ rep.id.change_set = row.revision ∧ rep.id.number = to_uint64 row.offset
            ∧ rep.size = row.size ∧ rep.expanded_size = row.expanded_size)
      ∧ Option.elim
          (svn_fs_x__walk_rep_reference table_sqlite env fuel tfs start end_rev
            (recording_walker walker) ([], walker_baton) cancel_func cancel_baton)
          True
          (fun res => ∀ rep ∈ res.walker_baton.1,
            rep.has_sha1 = true ∧ rep.md5_digest = List.replicate APR_MD5_DIGESTSIZE 0
              ∧ ∃ row ∈ rows_in_range start end_rev tfs.store.rep_cache,
                  env.svn_checksum_parse_hex row.hash = .ok rep.sha1_digest
                    ∧ rep.id.change_set = row.revision ∧ rep.id.number = to_uint64 row.offset
                    ∧ rep.size = row.size ∧ rep.expanded_size = row.expanded_size) := by
  refine ⟨?_, ?_, ?_⟩
  · intro rep h
    obtain ⟨s, hs⟩ := get_rep_reference_shape sq env fs checksum rep h
    subst hs
    exact ⟨rfl, rfl, rfl, s, rfl, rfl, rfl, rfl⟩
  · intro rep h
    by_cases hallowed : tfs.rep_sharing_allowed = true
    · by_cases hkind : checksum.kind = .svn_checksum_sha1
      · rw [get_rep_reference_table env tfs sdb checksum hallowed hopen hkind] at h
        cases hl : lookup_row tfs.store.rep_cache (env.svn_checksum_to_cstring checksum) with
        | none =>
          rw [hl] at h
          simp at h
        | some row =>
          rw [hl] at h
          simp only at h
          cases hb : rep_has_been_born env (rep_of_row checksum.digest row) with
          | some e =>
            rw [hb] at h
            simp at h
          | none =>
            rw [hb] at h
            simp only [Except.ok.injEq, Option.some.injEq] at h
            subst h
            exact ⟨row, rfl, rfl, rfl, rfl, rfl⟩
      · exfalso
        unfold svn_fs_x__get_rep_reference at h
        simp [hallowed, open_if_needed, hopen, hkind] at h
    · exfalso
      unfold svn_fs_x__get_rep_reference at h
      simp [hallowed] at h
  · rcases hw : svn_fs_x__walk_rep_reference table_sqlite env fuel tfs start end_rev
        (recording_walker walker) ([], walker_baton) cancel_func cancel_baton with _ | res
    · trivial
    · refine walk_rep_reference_table_invariant_parsed env tfs sdb start end_rev
        (recording_walker walker) ([], walker_baton) cancel_func cancel_baton fuel
        (fun b => ∀ rep ∈ b.1,
          rep.has_sha1 = true ∧ rep.md5_digest = List.replicate APR_MD5_DIGESTSIZE 0
            ∧ ∃ row ∈ rows_in_range start end_rev tfs.store.rep_cache,
                env.svn_checksum_parse_hex row.hash = .ok rep.sha1_digest
                  ∧ rep.id.change_set = row.revision ∧ rep.id.number = to_uint64 row.offset
                  ∧ rep.size = row.size ∧ rep.expanded_size = row.expanded_size)
        hopen (fun rep hrep => absurd hrep (List.not_mem_nil _)) ?_ res hw
      intro row hrow d hd b hb rep hrep
      simp only [recording_walker, List.mem_append, List.mem_singleton] at hrep
      rcases hrep with hrep | hrep
      · exact hb rep hrep
      · subst hrep
        exact ⟨rfl, rfl, row, hrow, hd, rfl, rfl, rfl, rfl⟩



theorem reconstructed_rep_carries_only_sha1_witness :
    ((sample_rep 5 2 100 100).has_sha1 = true
        ∧ (sample_rep 5 2 100 100).sha1_digest = [171, 193, 35]
        ∧ (sample_rep 5 2 100 100).md5_digest
            = List.replicate APR_MD5_DIGESTSIZE 0
        ∧ ∃ s : table_db,
            (sample_rep 5 2 100 100).id.change_set
                = table_sqlite.svn_sqlite__column_revnum .STMT_GET_REP 0 s
              ∧ (sample_rep 5 2 100 100).id.number
                = to_uint64 (table_sqlite.svn_sqlite__column_int64 .STMT_GET_REP 1 s)
              ∧ (sample_rep 5 2 100 100).size
                = table_sqlite.svn_sqlite__column_int64 .STMT_GET_REP 2 s
              ∧ (sample_rep 5 2 100 100).expanded_size
                = table_sqlite.svn_sqlite__column_int64 .STMT_GET_REP 3 s)
      ∧ (∃ row, lookup_row (sample_fs sample_rows).store.rep_cache "abc123" = some row
          ∧ (5 : Int) = row.revision ∧ (2 : Nat) = to_uint64 row.offset
          ∧ (100 : Int) = row.size ∧ (100 : Int) = row.expanded_size)
      ∧ Option.elim
          (svn_fs_x__walk_rep_reference table_sqlite (sample_collaborators 10) 5
            (sample_fs sample_rows) 1 8 (recording_walker (stopping_walker 7))
            ([], ([] : List representation_t))
            (none : Option (Unit → Option svn_error_t × Unit)) ())
          True
          (fun res => ∀ rep ∈ res.walker_baton.1,
            rep.has_sha1 = true ∧ rep.md5_digest = List.replicate APR_MD5_DIGESTSIZE 0
              ∧ ∃ row ∈ rows_in_range 1 8 (sample_fs sample_rows).store.rep_cache,
                  (sample_collaborators 10).svn_checksum_parse_hex row.hash = .ok rep.sha1_digest
                    ∧ rep.id.change_set = row.revision ∧ rep.id.number = to_uint64 row.offset
                    ∧ rep.size = row.size ∧ rep.expanded_size = row.expanded_size) :=
  ⟨(reconstructed_rep_carries_only_sha1 table_sqlite (sample_collaborators 10)
      (sample_fs sample_rows) { kind := .svn_checksum_sha1, digest := [171, 193, 35] }
      (sample_fs sample_rows) (path_rep_cache_db "repos/db") 1 8 (stopping_walker 7)
      ([] : List representation_t) (none : Option (Unit → Option svn_error_t × Unit)) () 5
      rfl).1 (sample_rep 5 2 100 100) rfl,
   (reconstructed_rep_carries_only_sha1 table_sqlite (sample_collaborators 10)
      (sample_fs sample_rows) { kind := .svn_checksum_sha1, digest := [171, 193, 35] }
      (sample_fs sample_rows) (path_rep_cache_db "repos/db") 1 8 (stopping_walker 7)
      ([] : List representation_t) (none : Option (Unit → Option svn_error_t × Unit)) () 5
      rfl).2.1 (sample_rep 5 2 100 100) rfl,
   (reconstructed_rep_carries_only_sha1 table_sqlite (sample_collaborators 10)
      (sample_fs sample_rows) { kind := .svn_checksum_sha1, digest := [171, 193, 35] }
      (sample_fs sample_rows) (path_rep_cache_db "repos/db") 1 8 (stopping_walker 7)
      ([] : List representation_t) (none : Option (Unit → Option svn_error_t × Unit)) () 5
      rfl).2.2⟩


/-! ### A constraint failure without a row -/

/-- C27: (1) over any embedded store, on an open rep-cache: when the insert of
`svn_fs_x__set_rep_reference` fails with the code `SVN_ERR_SQLITE_CONSTRAINT` and
the follow-up `svn_fs_x__get_rep_reference` for the hash succeeds and finds no
entry, the call returns success, for either value of `reject_dup`, and hands
back the filesystem object as the lookup left it: nothing in the call has
written a mapping for the hash.  (2) On the keyed-table store this branch is not
reachable: when the insert of the statement that the call has bound fails with
the constraint code, the table has a row for the hash, and the follow-up lookup
does not return "no entry". -/
theorem set_succeeds_when_constraint_lookup_misses {σ δ : Type} (sq : svn_sqlite σ δ)
    (env : collaborators) (fs fs2 : svn_fs_t σ δ) (sdb : δ) (rep : representation_t)
    (reject_dup : Bool) (s1 s2 s3 : σ) (err : svn_error_t)
    (tfs : svn_fs_t table_db String) (tsdb : String) (trep : representation_t)
    (hallowed : fs.rep_sharing_allowed = true) (hopen : fs.rep_cache_db = some sdb)
    (hsha : rep.has_sha1 = true)
    (hget : sq.svn_sqlite__get_statement (some sdb) .STMT_SET_REP fs.store = (none, s1))
    (hbind : sq.svn_sqlite__bindf .STMT_SET_REP
      [.text (env.svn_checksum_to_cstring { kind := .svn_checksum_sha1, digest := rep.sha1_digest }),
       .integer rep.id.change_set, .integer (to_int64 rep.id.number), .integer rep.size,
       .integer rep.expanded_size] s1 = (none, s2))
    (hinsert : sq.svn_sqlite__insert .STMT_SET_REP s2 = (some err, s3))
    (hcode : err.apr_err = .SVN_ERR_SQLITE_CONSTRAINT)
    (hlookup : svn_fs_x__get_rep_reference sq env { fs with store := s3 }
      { kind := .svn_checksum_sha1, digest := rep.sha1_digest } = (.ok none, fs2))
    (htopen : tfs.rep_cache_db = some tsdb) :
    svn_fs_x__set_rep_reference sq env fs rep reject_dup = (none, fs2)
      ∧ ∀ e : svn_error_t,
          (table_insert .STMT_SET_REP
            (table_bindf .STMT_SET_REP
              [.text (env.svn_checksum_to_cstring
                 { kind := .svn_checksum_sha1, digest := trep.sha1_digest }),
               .integer trep.id.change_set, .integer (to_int64 trep.id.number),
               .integer trep.size, .integer trep.expanded_size]
              (table_get_statement (some tsdb) .STMT_SET_REP tfs.store).2).2).1 = some e →
          e.apr_err = .SVN_ERR_SQLITE_CONSTRAINT →
          (∃ row, lookup_row tfs.store.rep_cache (row_of_rep env trep).hash = some row)
            ∧ ((svn_fs_x__get_rep_reference table_sqlite env
                  { tfs with store := (table_insert .STMT_SET_REP
                      (table_bindf .STMT_SET_REP
                        [.text (env.svn_checksum_to_cstring
                           { kind := .svn_checksum_sha1, digest := trep.sha1_digest }),
                         .integer trep.id.change_set, .integer (to_int64 trep.id.number),
                         .integer trep.size, .integer trep.expanded_size]
                        (table_get_statement (some tsdb) .STMT_SET_REP tfs.store).2).2).2 }
                  { kind := .svn_checksum_sha1, digest := trep.sha1_digest }).1 ≠ .ok none) := by
  constructor
  · unfold svn_fs_x__set_rep_reference
    simp only [hallowed, hopen] at hlookup
    simp only [hallowed, open_if_needed, hopen, hsha, hget, hbind, hinsert, hcode, hlookup,
      Bool.true_eq_false, if_false, ne_eq, not_true_eq_false]
  · intro e he hc
    cases hl : lookup_row tfs.store.rep_cache (row_of_rep env trep).hash with
    | none =>
      exfalso
      simp only [row_of_rep] at hl
      simp [table_get_statement, table_bindf, table_reset, table_insert, set_stmt_set_stmt,
        set_stmt_stmts_same, set_stmt_rep_cache, hl] at he
    | some row =>
      refine ⟨⟨row, rfl⟩, ?_⟩
      by_cases htallowed : tfs.rep_sharing_allowed = true
      swap
      · unfold svn_fs_x__get_rep_reference
        simp [htallowed]
      have key : ∀ db3 : table_db, db3.rep_cache = tfs.store.rep_cache →
          (svn_fs_x__get_rep_reference table_sqlite env { tfs with store := db3 }
            { kind := .svn_checksum_sha1, digest := trep.sha1_digest }).1 ≠ .ok none := by
        intro db3 hrows
        rw [get_rep_reference_table env { tfs with store := db3 } tsdb
          { kind := .svn_checksum_sha1, digest := trep.sha1_digest } htallowed htopen rfl]
        simp only [row_of_rep] at hl
        simp only [hrows, hl]
        cases rep_has_been_born env (rep_of_row trep.sha1_digest row) <;> simp
      apply key
      simp only [row_of_rep] at hl
      simp [table_get_statement, table_bindf, table_reset, table_insert, set_stmt_set_stmt,
        set_stmt_stmts_same, set_stmt_rep_cache, hl]

theorem set_succeeds_when_constraint_lookup_misses_witness :
    ((svn_fs_x__set_rep_reference phantom_constraint_sqlite (sample_collaborators 10)
        (sample_fs []) (sample_rep 5 2 100 100) true).1 = none
      ∧ (svn_fs_x__set_rep_reference phantom_constraint_sqlite (sample_collaborators 10)
        (sample_fs []) (sample_rep 5 2 100 100) true).2.store.rep_cache = [])
      ∧ (∃ row, lookup_row (sample_fs sample_rows).store.rep_cache
            (row_of_rep (sample_collaborators 10) (sample_rep 6 2 100 100)).hash = some row)
      ∧ (svn_fs_x__get_rep_reference table_sqlite (sample_collaborators 10)
          { sample_fs sample_rows with store := (table_insert .STMT_SET_REP
              (table_bindf .STMT_SET_REP
                [.text ((sample_collaborators 10).svn_checksum_to_cstring
                   { kind := .svn_checksum_sha1, digest := (sample_rep 6 2 100 100).sha1_digest }),
                 .integer (sample_rep 6 2 100 100).id.change_set,
                 .integer (to_int64 (sample_rep 6 2 100 100).id.number),
                 .integer (sample_rep 6 2 100 100).size,
                 .integer (sample_rep 6 2 100 100).expanded_size]
                (table_get_statement (some (path_rep_cache_db "repos/db")) .STMT_SET_REP
                  (sample_fs sample_rows).store).2).2).2 }
          { kind := .svn_checksum_sha1, digest := (sample_rep 6 2 100 100).sha1_digest }).1
            ≠ .ok none :=
  ⟨⟨congrArg Prod.fst (set_succeeds_when_constraint_lookup_misses phantom_constraint_sqlite
      (sample_collaborators 10) (sample_fs [])
      (svn_fs_x__get_rep_reference phantom_constraint_sqlite (sample_collaborators 10)
        { sample_fs [] with store := set_stmt (sample_fs []).store .STMT_SET_REP idle_stmt }
        { kind := .svn_checksum_sha1, digest := (sample_rep 5 2 100 100).sha1_digest }).2
      (path_rep_cache_db "repos/db") (sample_rep 5 2 100 100) true
      (phantom_constraint_sqlite.svn_sqlite__get_statement (some (path_rep_cache_db "repos/db"))
        .STMT_SET_REP (sample_fs []).store).2
      (table_bindf .STMT_SET_REP
        [.text "abc123", .integer 5, .integer 2, .integer 100, .integer 100]
        (phantom_constraint_sqlite.svn_sqlite__get_statement (some (path_rep_cache_db "repos/db"))
          .STMT_SET_REP (sample_fs []).store).2).2
      (set_stmt (sample_fs []).store .STMT_SET_REP idle_stmt)
      constraint_error (sample_fs sample_rows) (path_rep_cache_db "repos/db")
      (sample_rep 6 2 100 100) rfl rfl rfl rfl rfl
      (by
        simp only [phantom_constraint_sqlite, table_sqlite, table_get_statement, table_bindf,
          table_reset, set_stmt_set_stmt, set_stmt_stmts_same, idle_stmt])
      rfl rfl rfl).1,
    congrArg (fun r => r.2.store.rep_cache) (set_succeeds_when_constraint_lookup_misses phantom_constraint_sqlite
      (sample_collaborators 10) (sample_fs [])
      (svn_fs_x__get_rep_reference phantom_constraint_sqlite (sample_collaborators 10)
        { sample_fs [] with store := set_stmt (sample_fs []).store .STMT_SET_REP idle_stmt }
        { kind := .svn_checksum_sha1, digest := (sample_rep 5 2 100 100).sha1_digest }).2
      (path_rep_cache_db "repos/db") (sample_rep 5 2 100 100) true
      (phantom_constraint_sqlite.svn_sqlite__get_statement (some (path_rep_cache_db "repos/db"))
        .STMT_SET_REP (sample_fs []).store).2
      (table_bindf .STMT_SET_REP
        [.text "abc123", .integer 5, .integer 2, .integer 100, .integer 100]
        (phantom_constraint_sqlite.svn_sqlite__get_statement (some (path_rep_cache_db "repos/db"))
          .STMT_SET_REP (sample_fs []).store).2).2
      (set_stmt (sample_fs []).store .STMT_SET_REP idle_stmt)
      constraint_error (sample_fs sample_rows) (path_rep_cache_db "repos/db")
      (sample_rep 6 2 100 100) rfl rfl rfl rfl rfl
      (by
        simp only [phantom_constraint_sqlite, table_sqlite, table_get_statement, table_bindf,
          table_reset, set_stmt_set_stmt, set_stmt_stmts_same, idle_stmt])
      rfl rfl rfl).1⟩,
   ((set_succeeds_when_constraint_lookup_misses phantom_constraint_sqlite
      (sample_collaborators 10) (sample_fs [])
      (svn_fs_x__get_rep_reference phantom_constraint_sqlite (sample_collaborators 10)
        { sample_fs [] with store := set_stmt (sample_fs []).store .STMT_SET_REP idle_stmt }
        { kind := .svn_checksum_sha1, digest := (sample_rep 5 2 100 100).sha1_digest }).2
      (path_rep_cache_db "repos/db") (sample_rep 5 2 100 100) true
      (phantom_constraint_sqlite.svn_sqlite__get_statement (some (path_rep_cache_db "repos/db"))
        .STMT_SET_REP (sample_fs []).store).2
      (table_bindf .STMT_SET_REP
        [.text "abc123", .integer 5, .integer 2, .integer 100, .integer 100]
        (phantom_constraint_sqlite.svn_sqlite__get_statement (some (path_rep_cache_db "repos/db"))
          .STMT_SET_REP (sample_fs []).store).2).2
      (set_stmt (sample_fs []).store .STMT_SET_REP idle_stmt)
      constraint_error (sample_fs sample_rows) (path_rep_cache_db "repos/db")
      (sample_rep 6 2 100 100) rfl rfl rfl rfl rfl
      (by
        simp only [phantom_constraint_sqlite, table_sqlite, table_get_statement, table_bindf,
          table_reset, set_stmt_set_stmt, set_stmt_stmts_same, idle_stmt])
      rfl rfl rfl).2 constraint_error rfl rfl)⟩


/-! ### A malformed hash column -/

theorem batons_after_recording {β γ : Type} (env : collaborators)
    (walker : representation_t → β → Option svn_error_t × β)
    (cancel_func : Option (γ → Option svn_error_t × γ)) (rows : List rep_cache_row) :
    ∀ (seen : List representation_t) (b : β) (c : γ),
      (batons_after env (recording_walker walker) cancel_func rows (seen, b) c).1.1
        = seen ++ rows.map (walked_rep env) := by
  induction rows with
  | nil =>
    intro seen b c
    simp [batons_after]
  | cons r rest ih =>
    intro seen b c
    simp only [batons_after, recording_walker, ih, List.map_cons, List.append_assoc,
      List.singleton_append]

/-- C28: on an open rep-cache (for `start = 0`: with the youngest indexed revision
in FS), let the range query return the rows `before ++ row :: later`, so that
`row` is the row number `before.length`, counted from 0.  If the body of the
loop gets through the rows `before` (no cancellation, hash text parsed, visitor
succeeds), the cancellation callback, if any, does not fire at `row`, and the
hash text of `row` cannot be parsed, the parse failing with `err`, then with
fuel for these iterations `svn_fs_x__walk_rep_reference` returns `err`; the
representations the visitor has been invoked on are exactly those of the rows
`before`, in their order: `before.length` invocations, none for `row` and none
for the rows `later`; the rows of the index are unchanged. -/
theorem walk_stops_at_malformed_hash {β γ : Type} (env : collaborators)
    (fs : svn_fs_t table_db String) (sdb : String) (start end_rev : Int)
    (walker : representation_t → β → Option svn_error_t × β) (walker_baton : β)
    (cancel_func : Option (γ → Option svn_error_t × γ)) (cancel_baton : γ) (fuel : Nat)
    (before later : List rep_cache_row) (row : rep_cache_row) (err : svn_error_t)
    (hopen : fs.rep_cache_db = some sdb)
    (hyoungest : start = 0 → ∀ m, max_revision fs.store.rep_cache = .integer m → 0 ≤ m →
      env.svn_fs_x__ensure_revision_exists m = none)
    (hrows : rows_in_range start end_rev fs.store.rep_cache = before ++ row :: later)
    (hbefore : rows_pass env (recording_walker walker) cancel_func before ([], walker_baton)
      cancel_baton = true)
    (hcancel : (call_cancel cancel_func
      (batons_after env (recording_walker walker) cancel_func before ([], walker_baton)
        cancel_baton).2).1 = none)
    (hparse : env.svn_checksum_parse_hex row.hash = .error err)
    (hfuel : before.length + 1 ≤ fuel) :
    ∃ res : walk_result table_db String (List representation_t × β) γ,
      svn_fs_x__walk_rep_reference table_sqlite env fuel fs start end_rev
          (recording_walker walker) ([], walker_baton) cancel_func cancel_baton = some res
        ∧ res.err = some err
        ∧ res.walker_baton.1 = before.map (walked_rep env)
        ∧ res.walker_baton.1.length = before.length
        ∧ res.walker_baton = (batons_after env (recording_walker walker) cancel_func before
            ([], walker_baton) cancel_baton).1
        ∧ res.fs.store.rep_cache = fs.store.rep_cache := by
  obtain ⟨db0, hr0, hcur0, hwalk⟩ := walk_rep_reference_table env fs sdb start end_rev
    (recording_walker walker) ([], walker_baton) cancel_func cancel_baton fuel hopen
    (fun h => walk_check_passes_of_youngest_exists env fs sdb hopen (hyoungest h))
  obtain ⟨k, rfl⟩ : ∃ k, fuel = (k + 1) + before.length := ⟨fuel - before.length - 1, by omega⟩
  rw [hrows] at hcur0 hwalk
  obtain ⟨db1, hloop, hr1, hcur1⟩ := walk_loop_table_prefix env (recording_walker walker)
    cancel_func before (row :: later) (k + 1) db0 ([], walker_baton) cancel_baton hbefore hcur0
  rcases hcc : call_cancel cancel_func
    (batons_after env (recording_walker walker) cancel_func before ([], walker_baton)
      cancel_baton).2 with ⟨ce, c1⟩
  rw [hcc] at hcancel
  simp only at hcancel
  subst hcancel
  have hhead := walk_loop_table_parse_failed env (recording_walker walker) cancel_func k db1
    (batons_after env (recording_walker walker) cancel_func before ([], walker_baton)
      cancel_baton).1 _ c1 row (later.map range_columns) err (by simpa using hcur1) hcc hparse
  rw [hloop] at hwalk
  simp only [List.map_cons, List.isEmpty_cons, Bool.not_false] at hwalk
  rw [hhead] at hwalk
  have hseen := batons_after_recording env walker cancel_func before [] walker_baton cancel_baton
  simp only [List.nil_append] at hseen
  exact ⟨_, hwalk, rfl, hseen, by simp only [walk_finish, hseen, List.length_map], rfl,
    by simp [walk_finish, set_stmt_rep_cache, hr1, hr0]⟩

theorem walk_stops_at_malformed_hash_witness :
    ∃ res : walk_result table_db String (List representation_t × List representation_t) Unit,
      svn_fs_x__walk_rep_reference table_sqlite (sample_collaborators 10) 5
          (sample_fs
            [{ hash := "00ff", revision := 1, offset := 7, size := 30, expanded_size := 40 },
             { hash := "0g", revision := 5, offset := 2, size := 100, expanded_size := 100 },
             { hash := "0a", revision := 7, offset := 0, size := 9, expanded_size := 9 }])
          1 8 (recording_walker collecting_walker) ([], [])
          (none : Option (Unit → Option svn_error_t × Unit)) () = some res
        ∧ res.err = some (svn_error_create (.other 125013) "bad checksum parse")
        ∧ res.walker_baton.1
            = [{ hash := "00ff", revision := 1, offset := 7, size := 30, expanded_size := 40 }].map
                (walked_rep (sample_collaborators 10))
        ∧ res.walker_baton.1.length
            = [({ hash := "00ff", revision := 1, offset := 7, size := 30, expanded_size := 40 } :
                rep_cache_row)].length
        ∧ res.walker_baton = (batons_after (sample_collaborators 10)
            (recording_walker collecting_walker)
            (none : Option (Unit → Option svn_error_t × Unit))
            [{ hash := "00ff", revision := 1, offset := 7, size := 30, expanded_size := 40 }]
            ([], []) ()).1
        ∧ res.fs.store.rep_cache = (sample_fs
            [{ hash := "00ff", revision := 1, offset := 7, size := 30, expanded_size := 40 },
             { hash := "0g", revision := 5, offset := 2, size := 100, expanded_size := 100 },
             { hash := "0a", revision := 7, offset := 0, size := 9, expanded_size := 9 }]).store.rep_cache :=
  walk_stops_at_malformed_hash (sample_collaborators 10)
    (sample_fs
      [{ hash := "00ff", revision := 1, offset := 7, size := 30, expanded_size := 40 },
       { hash := "0g", revision := 5, offset := 2, size := 100, expanded_size := 100 },
       { hash := "0a", revision := 7, offset := 0, size := 9, expanded_size := 9 }])
    (path_rep_cache_db "repos/db") 1 8 collecting_walker []
    (none : Option (Unit → Option svn_error_t × Unit)) () 5
    [{ hash := "00ff", revision := 1, offset := 7, size := 30, expanded_size := 40 }]
    [{ hash := "0a", revision := 7, offset := 0, size := 9, expanded_size := 9 }]
    { hash := "0g", revision := 5, offset := 2, size := 100, expanded_size := 100 }
    (svn_error_create (.other 125013) "bad checksum parse")
    rfl (fun h => absurd h (by decide)) (by decide) (by decide) (by decide) rfl
    (by decide)


/-! ### Lookup and walk leave the rows alone -/

theorem get_rep_reference_table_frame (env : collaborators) (fs : svn_fs_t table_db String)
    (checksum : svn_checksum_t) :
    (svn_fs_x__get_rep_reference table_sqlite env fs checksum).2.store.rep_cache
      = fs.store.rep_cache := by
  unfold svn_fs_x__get_rep_reference
  split
  · rfl
  · have ho := (open_if_needed_table_frame fs).1
    rcases hopen : open_if_needed table_sqlite fs with ⟨r, fs1⟩
    rw [hopen] at ho
    simp only at ho
    cases r with
    | some e => simpa using ho
    | none =>
      simp only []
      split
      · exact ho
      · cases hdb : fs1.rep_cache_db with
        | none => simpa [table_get_statement] using ho
        | some sdb =>
          simp only [table_sqlite_get_statement, table_get_statement, table_reset,
            table_sqlite_bindf, table_bindf, table_sqlite_step, table_step, table_sqlite_reset,
            set_stmt_stmts_same, set_stmt_set_stmt]
          repeat' split
          all_goals simp [set_stmt_rep_cache, ho]

theorem walk_loop_frame {σ δ β γ ρ : Type} (sq : svn_sqlite σ δ) (env : collaborators)
    (walker : representation_t → β → Option svn_error_t × β)
    (cancel_func : Option (γ → Option svn_error_t × γ)) (view : σ → ρ)
    (hreset : ∀ s, view (sq.svn_sqlite__reset .STMT_GET_REPS_FOR_RANGE s).2 = view s)
    (hstep : ∀ s, view (sq.svn_sqlite__step .STMT_GET_REPS_FOR_RANGE s).2 = view s) :
    ∀ (fuel : Nat) (have_row : Bool) (s : σ) (b : β) (c : γ)
      (ex : loop_exit) (s1 : σ) (b1 : β) (c1 : γ),
      walk_loop sq env walker cancel_func fuel have_row s b c = some (ex, s1, b1, c1) →
      view s1 = view s := by
  intro fuel
  induction fuel with
  | zero =>
    intro have_row s b c ex s1 b1 c1 h
    cases have_row with
    | false =>
      simp only [walk_loop_no_row, Option.some.injEq, Prod.mk.injEq] at h
      rw [← h.2.1]
    | true => simp [walk_loop] at h
  | succ fuel ih =>
    intro have_row s b c ex s1 b1 c1 h
    cases have_row with
    | false =>
      simp only [walk_loop_no_row, Option.some.injEq, Prod.mk.injEq] at h
      rw [← h.2.1]
    | true =>
      simp only [walk_loop] at h
      have hr := hreset s
      have hs := hstep s
      split at h
      · simp only [Option.some.injEq, Prod.mk.injEq] at h
        rw [← h.2.1]
        exact hr
      · split at h
        · simp only [Option.some.injEq, Prod.mk.injEq] at h
          rw [← h.2.1]
          exact hr
        · split at h
          · simp only [Option.some.injEq, Prod.mk.injEq] at h
            rw [← h.2.1]
            exact hr
          · split at h
            · rename_i hres
              rw [hres] at hs
              simp only [Option.some.injEq, Prod.mk.injEq] at h
              rw [← h.2.1]
              exact hs
            · rename_i hres
              rw [hres] at hs
              rw [ih _ _ _ _ _ _ _ _ h]
              exact hs

theorem walk_check_global_invariants_table_frame (env : collaborators)
    (fs : svn_fs_t table_db String) :
    (walk_check_global_invariants table_sqlite env fs).2.rep_cache = fs.store.rep_cache := by
  unfold walk_check_global_invariants
  cases hdb : fs.rep_cache_db with
  | none => simp [table_get_statement]
  | some sdb =>
    simp only [table_sqlite_get_statement, table_get_statement, table_reset,
      table_sqlite_step, table_step, table_sqlite_reset, set_stmt_stmts_same, set_stmt_set_stmt]
    repeat' split
    all_goals simp [set_stmt_rep_cache]

theorem table_get_statement_rep_cache (sdb : Option String) (idx : stmt_idx) (db : table_db) :
    (table_get_statement sdb idx db).2.rep_cache = db.rep_cache := by
  cases sdb <;> rfl

theorem table_step_rep_cache (idx : stmt_idx) (db : table_db) :
    (table_step idx db).2.rep_cache = db.rep_cache := by
  unfold table_step
  split <;> rfl

theorem walk_rep_reference_table_frame {β γ : Type} (env : collaborators)
    (fs : svn_fs_t table_db String) (start end_rev : Int)
    (walker : representation_t → β → Option svn_error_t × β) (b : β)
    (cancel_func : Option (γ → Option svn_error_t × γ)) (c : γ) (fuel : Nat) :
    ∀ res : walk_result table_db String β γ,
      svn_fs_x__walk_rep_reference table_sqlite env fuel fs start end_rev walker b cancel_func c
        = some res → res.fs.store.rep_cache = fs.store.rep_cache := by
  intro res hres
  unfold svn_fs_x__walk_rep_reference at hres
  have ho := (open_if_needed_table_frame fs).1
  rcases hopen : open_if_needed table_sqlite fs with ⟨r, fs1⟩
  rw [hopen] at ho hres
  simp only at ho hres
  cases r with
  | some e =>
    simp only [Option.some.injEq] at hres
    rw [← hres]
    exact ho
  | none =>
    simp only at hres
    have hc0 : (if start = 0 then walk_check_global_invariants table_sqlite env fs1
        else (none, fs1.store)).2.rep_cache = fs1.store.rep_cache := by
      split
      · exact walk_check_global_invariants_table_frame env fs1
      · rfl
    rcases hc : (if start = 0 then walk_check_global_invariants table_sqlite env fs1
        else (none, fs1.store)) with ⟨r0, s0⟩
    rw [hc] at hc0 hres
    simp only at hc0 hres
    cases r0 with
    | some e =>
      simp only [Option.some.injEq] at hres
      rw [← hres]
      exact hc0.trans ho
    | none =>
      simp only [table_sqlite_get_statement, table_sqlite_bindf, table_sqlite_step,
        table_sqlite_reset] at hres
      have hg := table_get_statement_rep_cache fs1.rep_cache_db .STMT_GET_REPS_FOR_RANGE s0
      rcases hget : table_get_statement fs1.rep_cache_db .STMT_GET_REPS_FOR_RANGE s0 with ⟨r1, s1⟩
      rw [hget] at hg hres
      simp only at hg hres
      cases r1 with
      | some e =>
        simp only [Option.some.injEq] at hres
        rw [← hres]
        exact hg.trans (hc0.trans ho)
      | none =>
        simp only [table_bindf] at hres
        have hst := table_step_rep_cache .STMT_GET_REPS_FOR_RANGE
          (set_stmt s1 .STMT_GET_REPS_FOR_RANGE
            { s1.stmts .STMT_GET_REPS_FOR_RANGE with args := [.integer start, .integer end_rev] })
        rcases hstep : table_step .STMT_GET_REPS_FOR_RANGE
          (set_stmt s1 .STMT_GET_REPS_FOR_RANGE
            { s1.stmts .STMT_GET_REPS_FOR_RANGE with args := [.integer start, .integer end_rev] })
          with ⟨r3, s3⟩
        rw [hstep] at hst hres
        simp only [set_stmt_rep_cache] at hst hres
        have h3 : s3.rep_cache = fs.store.rep_cache := hst.trans (hg.trans (hc0.trans ho))
        cases r3 with
        | error e =>
          simp only [Option.some.injEq] at hres
          rw [← hres]
          exact h3
        | ok have_row =>
          simp only at hres
          rcases hloop : walk_loop table_sqlite env walker cancel_func fuel have_row s3 b c
            with _ | ⟨ex, s4, b4, c4⟩
          · rw [hloop] at hres
            simp at hres
          · rw [hloop] at hres
            have h4 := walk_loop_frame table_sqlite env walker cancel_func
              (fun db : table_db => db.rep_cache) (fun s => rfl)
              (fun s => table_step_rep_cache _ s) fuel have_row s3 b c ex s4 b4 c4 hloop
            simp only at h4
            cases ex with
            | returned err =>
              simp only [Option.some.injEq] at hres
              rw [← hres]
              exact h4.trans h3
            | done =>
              simp only [table_reset, Option.some.injEq] at hres
              rw [← hres]
              simp only [set_stmt_rep_cache]
              exact h4.trans h3

theorem walk_loop_table_returns {β γ : Type} (env : collaborators)
    (walker : representation_t → β → Option svn_error_t × β)
    (cancel_func : Option (γ → Option svn_error_t × γ)) (rows : List rep_cache_row) :
    ∀ (fuel : Nat) (db : table_db) (b : β) (c : γ),
      (db.stmts .STMT_GET_REPS_FOR_RANGE).cursor = some (rows.map range_columns) →
      rows.length ≤ fuel →
      (walk_loop table_sqlite env walker cancel_func fuel (!(rows.map range_columns).isEmpty)
        db b c).isSome = true := by
  induction rows with
  | nil =>
    intro fuel db b c _ _
    simp [walk_loop_no_row]
  | cons r rest ih =>
    intro fuel db b c hcur hfuel
    cases fuel with
    | zero => simp at hfuel
    | succ fuel =>
      simp only [List.length_cons, Nat.add_le_add_iff_right] at hfuel
      simp only [List.map_cons, List.isEmpty_cons, Bool.not_false]
      rcases hcc : call_cancel cancel_func c with ⟨ce, c2⟩
      cases ce with
      | some e =>
        rw [walk_loop_table_cancelled env walker cancel_func fuel db b c c2 e hcc]
        rfl
      | none =>
        rcases hp : env.svn_checksum_parse_hex r.hash with e | d
        · rw [walk_loop_table_parse_failed env walker cancel_func fuel db b c c2 r
            (rest.map range_columns) e (by simpa using hcur) hcc hp]
          rfl
        · rcases hw : walker (walked_rep env r) b with ⟨we, b2⟩
          cases we with
          | some e =>
            rw [walk_loop_table_visitor_failed env walker cancel_func fuel db b b2 c c2 r
              (rest.map range_columns) d e (by simpa using hcur) hcc hp hw]
            rfl
          | none =>
            have hpass : rows_pass env walker cancel_func [r] b c = true := by
              simp [rows_pass, hcc, hp, hw]
            obtain ⟨db2, hloop, _, hcur2⟩ := walk_loop_table_prefix env walker cancel_func [r] rest
              fuel db b c hpass (by simpa using hcur)
            simp only [List.singleton_append, List.map_cons, List.isEmpty_cons, Bool.not_false,
              List.length_singleton, batons_after, hw, hcc] at hloop
            rw [hloop]
            exact ih fuel db2 b2 c2 hcur2 hfuel

theorem walk_rep_reference_table_returns {β γ : Type} (env : collaborators)
    (fs : svn_fs_t table_db String) (sdb : String) (start end_rev : Int)
    (walker : representation_t → β → Option svn_error_t × β) (b : β)
    (cancel_func : Option (γ → Option svn_error_t × γ)) (c : γ) (fuel : Nat)
    (hopen : fs.rep_cache_db = some sdb)
    (hfuel : (rows_in_range start end_rev fs.store.rep_cache).length ≤ fuel) :
    (svn_fs_x__walk_rep_reference table_sqlite env fuel fs start end_rev walker b cancel_func
      c).isSome = true := by
  by_cases hcheck : start = 0 → (walk_check_global_invariants table_sqlite env fs).1 = none
  · obtain ⟨db0, _, hcur0, hwalk⟩ := walk_rep_reference_table env fs sdb start end_rev walker
      b cancel_func c fuel hopen hcheck
    rw [hwalk]
    have hret := walk_loop_table_returns env walker cancel_func _ fuel db0 b c hcur0 hfuel
    rcases hloop : walk_loop table_sqlite env walker cancel_func fuel
        (!((rows_in_range start end_rev fs.store.rep_cache).map range_columns).isEmpty)
        db0 b c with _ | ⟨ex, s4, b4, c4⟩
    · rw [hloop] at hret
      simp at hret
    · cases ex <;> rfl
  · have hstart : start = 0 := by
      by_contra hne
      exact hcheck (fun h => absurd h hne)
    have hfail : (walk_check_global_invariants table_sqlite env fs).1 ≠ none :=
      fun h => hcheck (fun _ => h)
    have ho : open_if_needed table_sqlite fs = (none, fs) := by
      unfold open_if_needed
      rw [hopen]
    unfold svn_fs_x__walk_rep_reference
    rcases hc : walk_check_global_invariants table_sqlite env fs with ⟨r, s0⟩
    rw [hc] at hfail
    cases r with
    | none => exact absurd rfl hfail
    | some e => simp only [ho, if_pos hstart, hc, Option.isSome_some]

/-- C29: lookup and walk are read-only on the keyed-table store.  For every
state of the filesystem object and of the index and every checksum,
`svn_fs_x__get_rep_reference` hands back the rows of the index exactly as they
were, whatever it returns.  For every range, visitor, cancellation callback and
fuel, whenever `svn_fs_x__walk_rep_reference` returns, with success or with an
error, the rows of the index are exactly as they were; and on an open rep-cache
it does return, given fuel for one iteration per row of the range. -/
theorem get_and_walk_are_read_only {β γ : Type} (env : collaborators)
    (fs : svn_fs_t table_db String) (checksum : svn_checksum_t) (start end_rev : Int)
    (walker : representation_t → β → Option svn_error_t × β) (walker_baton : β)
    (cancel_func : Option (γ → Option svn_error_t × γ)) (cancel_baton : γ) (fuel : Nat) :
    (svn_fs_x__get_rep_reference table_sqlite env fs checksum).2.store.rep_cache
        = fs.store.rep_cache
      ∧ Option.elim
          (svn_fs_x__walk_rep_reference table_sqlite env fuel fs start end_rev walker
            walker_baton cancel_func cancel_baton)
          True
          (fun res => res.fs.store.rep_cache = fs.store.rep_cache)
      ∧ (fs.rep_cache_db.isSome = true →
          (rows_in_range start end_rev fs.store.rep_cache).length ≤ fuel →
          (svn_fs_x__walk_rep_reference table_sqlite env fuel fs start end_rev walker
            walker_baton cancel_func cancel_baton).isSome = true) := by
  refine ⟨get_rep_reference_table_frame env fs checksum, ?_, ?_⟩
  · rcases hw : svn_fs_x__walk_rep_reference table_sqlite env fuel fs start end_rev walker
        walker_baton cancel_func cancel_baton with _ | res
    · trivial
    · exact walk_rep_reference_table_frame env fs start end_rev walker walker_baton cancel_func
        cancel_baton fuel res hw
  · intro hsome hfuel
    obtain ⟨sdb, hopen⟩ := Option.isSome_iff_exists.mp hsome
    exact walk_rep_reference_table_returns env fs sdb start end_rev walker walker_baton
      cancel_func cancel_baton fuel hopen hfuel

theorem get_and_walk_are_read_only_witness :
    (svn_fs_x__get_rep_reference table_sqlite (sample_collaborators 3) (sample_fs sample_rows)
        { kind := .svn_checksum_sha1, digest := [171, 193, 35] }).2.store.rep_cache
        = (sample_fs sample_rows).store.rep_cache
      ∧ Option.elim
          (svn_fs_x__walk_rep_reference table_sqlite (sample_collaborators 3) 5
            (sample_fs sample_rows) 1 8 (stopping_walker 5) []
            (some (cancel_from 2)) 0)
          True
          (fun res => res.fs.store.rep_cache = (sample_fs sample_rows).store.rep_cache)
      ∧ (svn_fs_x__walk_rep_reference table_sqlite (sample_collaborators 3) 5
            (sample_fs sample_rows) 1 8 (stopping_walker 5) []
            (some (cancel_from 2)) 0).isSome = true :=
  ⟨(get_and_walk_are_read_only (sample_collaborators 3) (sample_fs sample_rows)
      { kind := .svn_checksum_sha1, digest := [171, 193, 35] } 1 8 (stopping_walker 5) []
      (some (cancel_from 2)) 0 5).1,
   (get_and_walk_are_read_only (sample_collaborators 3) (sample_fs sample_rows)
      { kind := .svn_checksum_sha1, digest := [171, 193, 35] } 1 8 (stopping_walker 5) []
      (some (cancel_from 2)) 0 5).2.1,
   (get_and_walk_are_read_only (sample_collaborators 3) (sample_fs sample_rows)
      { kind := .svn_checksum_sha1, digest := [171, 193, 35] } 1 8 (stopping_walker 5) []
      (some (cancel_from 2)) 0 5).2.2 rfl (by decide)⟩


/-! ### The item index through the signed column -/

theorem to_uint64_to_int64_mod (n : Nat) : to_uint64 (to_int64 n) = n % 2 ^ 64 := by
  have h := to_uint64_to_int64 (n % 2 ^ 64) (Nat.mod_lt _ (by norm_num))
  have hidem : to_int64 (n % 2 ^ 64) = to_int64 n := by
    unfold to_int64
    rw [Nat.mod_mod]
  rw [hidem] at h
  exact h

theorem to_int64_range (n : Nat) : -(2 : Int) ^ 63 ≤ to_int64 n ∧ to_int64 n < 2 ^ 63 := by
  unfold to_int64
  have h := Nat.mod_lt n (show 0 < 2 ^ 64 by norm_num)
  split <;> constructor <;> omega

/-- C30: the item index of a representation is an unsigned 64-bit value `n`.
`svn_fs_x__set_rep_reference` binds the cast `(apr_int64_t) n`, a value of the
signed 64-bit range, and `svn_fs_x__get_rep_reference` converts the column back
to unsigned; the composition of the two conversions is the identity on `n` (and
the reduction modulo `2 ^ 64` on every natural number), also for `n ≥ 2 ^ 63`,
where the stored column is negative.  On an open rep-cache of the keyed-table
store: a store of a representation whose hash is not mapped yet writes the row
with that signed column, and every representation a lookup of the hash then
returns has the item index `n` again. -/
theorem item_index_survives_signed_cast (env : collaborators) (fs : svn_fs_t table_db String)
    (sdb : String) (rep : representation_t) (reject_dup : Bool)
    (hnum : rep.id.number < 2 ^ 64)
    (hallowed : fs.rep_sharing_allowed = true) (hopen : fs.rep_cache_db = some sdb)
    (hsha : rep.has_sha1 = true)
    (hfresh : lookup_row fs.store.rep_cache (row_of_rep env rep).hash = none) :
    to_uint64 (to_int64 rep.id.number) = rep.id.number
      ∧ (-(2 : Int) ^ 63 ≤ to_int64 rep.id.number ∧ to_int64 rep.id.number < 2 ^ 63)
      ∧ (2 ^ 63 ≤ rep.id.number → to_int64 rep.id.number < 0)
      ∧ (∀ m : Nat, to_uint64 (to_int64 m) = m % 2 ^ 64)
      ∧ (svn_fs_x__set_rep_reference table_sqlite env fs rep reject_dup).2.store.rep_cache
          = fs.store.rep_cache ++
              [{ hash := env.svn_checksum_to_cstring
                   { kind := .svn_checksum_sha1, digest := rep.sha1_digest }
                 revision := rep.id.change_set
                 offset := to_int64 rep.id.number
                 size := rep.size
                 expanded_size := rep.expanded_size }]
      ∧ ∀ found : representation_t,
          (svn_fs_x__get_rep_reference table_sqlite env
            (svn_fs_x__set_rep_reference table_sqlite env fs rep reject_dup).2
            { kind := .svn_checksum_sha1, digest := rep.sha1_digest }).1 = .ok (some found) →
          found.id.number = rep.id.number := by
  refine ⟨to_uint64_to_int64 _ hnum, to_int64_range _, ?_, to_uint64_to_int64_mod, ?_, ?_⟩
  · intro h
    unfold to_int64
    rw [Nat.mod_eq_of_lt hnum]
    split <;> omega
  · rw [set_rep_reference_table_rows env fs sdb rep reject_dup hallowed hopen hsha, hfresh]
    rfl
  · intro found hfound
    rw [set_rep_reference_table env fs sdb rep reject_dup hallowed hopen hsha] at hfound
    simp only [hfresh] at hfound
    rw [get_rep_reference_table env _ sdb _ ?_ ?_ ?_] at hfound
    rotate_left
    · exact hallowed
    · exact hopen
    · rfl
    have hl2 : lookup_row (fs.store.rep_cache ++ [row_of_rep env rep])
        (env.svn_checksum_to_cstring { kind := .svn_checksum_sha1, digest := rep.sha1_digest })
        = some (row_of_rep env rep) := lookup_row_append_of_none _ _ (row_of_rep env rep) hfresh rfl
    simp only [set_stmt_rep_cache, hl2] at hfound
    cases hb : rep_has_been_born env (rep_of_row rep.sha1_digest (row_of_rep env rep)) with
    | some e =>
      rw [hb] at hfound
      simp at hfound
    | none =>
      rw [hb] at hfound
      simp only [Except.ok.injEq, Option.some.injEq] at hfound
      rw [← hfound]
      simp [rep_of_row, row_of_rep, to_uint64_to_int64 _ hnum]

theorem item_index_survives_signed_cast_witness :
    to_uint64 (to_int64 (2 ^ 63 + 5)) = 2 ^ 63 + 5
      ∧ to_int64 (2 ^ 63 + 5) = -(2 : Int) ^ 63 + 5
      ∧ (svn_fs_x__set_rep_reference table_sqlite (sample_collaborators 10) (sample_fs [])
          (sample_rep 5 (2 ^ 63 + 5) 100 100) false).2.store.rep_cache
          = [{ hash := "abc123", revision := 5, offset := -(2 : Int) ^ 63 + 5, size := 100,
               expanded_size := 100 }]
      ∧ (svn_fs_x__get_rep_reference table_sqlite (sample_collaborators 10)
            (svn_fs_x__set_rep_reference table_sqlite (sample_collaborators 10) (sample_fs [])
              (sample_rep 5 (2 ^ 63 + 5) 100 100) false).2
            { kind := .svn_checksum_sha1, digest := [171, 193, 35] }).1
          = .ok (some (sample_rep 5 (2 ^ 63 + 5) 100 100))
      ∧ (sample_rep 5 (2 ^ 63 + 5) 100 100).id.number = 2 ^ 63 + 5 :=
  ⟨(item_index_survives_signed_cast (sample_collaborators 10) (sample_fs [])
      (path_rep_cache_db "repos/db") (sample_rep 5 (2 ^ 63 + 5) 100 100) false (by decide)
      rfl rfl rfl (by decide)).1,
   by decide,
   (item_index_survives_signed_cast (sample_collaborators 10) (sample_fs [])
      (path_rep_cache_db "repos/db") (sample_rep 5 (2 ^ 63 + 5) 100 100) false (by decide)
      rfl rfl rfl (by decide)).2.2.2.2.1.trans (by decide),
   rfl,
   (item_index_survives_signed_cast (sample_collaborators 10) (sample_fs [])
      (path_rep_cache_db "repos/db") (sample_rep 5 (2 ^ 63 + 5) 100 100) false (by decide)
      rfl rfl rfl (by decide)).2.2.2.2.2 (sample_rep 5 (2 ^ 63 + 5) 100 100) rfl⟩

end RepCache

namespace DeltaParse

/-! ### The search for the bottom of a delta -/

theorem find_delta_bottom_of_nested (d : svn_delta_t) (nested : svn_delta_t)
    (h : nested_tree_delta d = some nested) :
    ∀ (fuel : Nat) (parent : object), svn_find_delta_bottom fuel d parent = none := by
  unfold nested_tree_delta at h
  cases he : d.edit with
  | none =>
    rw [he] at h
    cases h
  | some e =>
    rw [he] at h
    simp only at h
    cases hc : e.content with
    | none =>
      rw [hc] at h
      cases h
    | some c =>
      rw [hc] at h
      simp only at h
      intro fuel
      induction fuel with
      | zero =>
        intro parent
        unfold svn_find_delta_bottom
        simp [he, hc, h]
      | succ fuel ih =>
        intro parent
        unfold svn_find_delta_bottom
        simp [he, hc, h, ih]

theorem find_delta_bottom_of_flat (d : svn_delta_t) (h : nested_tree_delta d = none)
    (fuel : Nat) (parent : object) :
    svn_find_delta_bottom fuel d parent =
      match d.edit with
      | none => some ⟨.delta d, .svn_XML_treedelta, parent, .svn_XML_editcontent⟩
      | some e =>
        match e.content with
        | none => some ⟨.edit e, .svn_XML_edit, .delta d, .svn_XML_treedelta⟩
        | some c => some ⟨.content c, .svn_XML_editcontent, .edit e, .svn_XML_edit⟩ := by
  unfold nested_tree_delta at h
  unfold svn_find_delta_bottom
  cases he : d.edit with
  | none => rfl
  | some e =>
    rw [he] at h
    simp only at h ⊢
    cases hc : e.content with
    | none => rfl
    | some c =>
      rw [hc] at h
      simp only at h ⊢
      rw [h]

/-- C22: the recursive call of `svn_find_delta_bottom` hands on the delta `d`
itself (the nested tree-delta goes into PARENT), so the search returns, for
whatever depth of recursion it is given, exactly on the deltas whose edit
content holds no nested tree-delta; on a delta with a nested tree-delta, such as
`sample_nested_delta`, it never returns.  Where it returns, the bottom is the
empty tree-delta itself (with PARENT as penultimate object), or the edit without
content (penultimate: the tree-delta), or the edit content (penultimate: the
edit). -/
theorem find_delta_bottom_never_returns_below_nested_tree_delta (fuel : Nat) (d : svn_delta_t)
    (parent : object) :
    (svn_find_delta_bottom fuel d parent = none ↔ (nested_tree_delta d).isSome = true)
      ∧ svn_find_delta_bottom fuel sample_nested_delta parent = none
      ∧ (nested_tree_delta d = none →
          svn_find_delta_bottom fuel d parent =
            match d.edit with
            | none => some ⟨.delta d, .svn_XML_treedelta, parent, .svn_XML_editcontent⟩
            | some e =>
              match e.content with
              | none => some ⟨.edit e, .svn_XML_edit, .delta d, .svn_XML_treedelta⟩
              | some c => some ⟨.content c, .svn_XML_editcontent, .edit e, .svn_XML_edit⟩) := by
  refine ⟨?_, find_delta_bottom_of_nested sample_nested_delta zeroed_delta rfl fuel parent,
    fun h => find_delta_bottom_of_flat d h fuel parent⟩
  cases hn : nested_tree_delta d with
  | some nested =>
    simp [find_delta_bottom_of_nested d nested hn fuel parent]
  | none =>
    rw [find_delta_bottom_of_flat d hn fuel parent]
    cases he : d.edit with
    | none => simp
    | some e => cases hc : e.content <;> simp [hc]

/-! ### Appending to a delta -/

theorem find_delta_bottom_shape (fuel : Nat) (d : svn_delta_t) (parent : object)
    (bottom : delta_bottom) (h : svn_find_delta_bottom fuel d parent = some bottom) :
    (d.edit = none ∧ bottom = ⟨.delta d, .svn_XML_treedelta, parent, .svn_XML_editcontent⟩)
      ∨ (∃ e, d.edit = some e ∧ e.content = none
          ∧ bottom = ⟨.edit e, .svn_XML_edit, .delta d, .svn_XML_treedelta⟩)
      ∨ (∃ e c, d.edit = some e ∧ e.content = some c
          ∧ bottom = ⟨.content c, .svn_XML_editcontent, .edit e, .svn_XML_edit⟩) := by
  cases hn : nested_tree_delta d with
  | some nested =>
    rw [find_delta_bottom_of_nested d nested hn fuel parent] at h
    cases h
  | none =>
    rw [find_delta_bottom_of_flat d hn fuel parent] at h
    cases he : d.edit with
    | none =>
      rw [he] at h
      simp only [Option.some.injEq] at h
      exact Or.inl ⟨rfl, h.symm⟩
    | some e =>
      rw [he] at h
      simp only at h
      cases hc : e.content with
      | none =>
        rw [hc] at h
        simp only [Option.some.injEq] at h
        exact Or.inr (Or.inl ⟨e, rfl, hc, h.symm⟩)
      | some c =>
        rw [hc] at h
        simp only [Option.some.injEq] at h
        exact Or.inr (Or.inr ⟨e, c, rfl, hc, h.symm⟩)

theorem find_delta_bottom_returns_of_flat (d : svn_delta_t) (h : nested_tree_delta d = none)
    (fuel : Nat) (parent : object) :
    ∃ bottom : delta_bottom, svn_find_delta_bottom fuel d parent = some bottom := by
  rw [find_delta_bottom_of_flat d h fuel parent]
  cases he : d.edit with
  | none => exact ⟨_, rfl⟩
  | some e =>
    simp only
    cases hc : e.content with
    | none => exact ⟨_, rfl⟩
    | some c => exact ⟨_, rfl⟩

theorem starpend_delta_by_bottom_kind (fuel : Nat) (digger : svn_delta_digger_t)
    (d : svn_delta_t) (parent : object) (elt_kind : svn_XML_elt_t)
    (obj : object_of_kind elt_kind) (bottom : delta_bottom)
    (hd : digger.delta = some d)
    (hbottom : svn_find_delta_bottom fuel d parent = some bottom) :
    (∃ res : starpend_result,
        svn_starpend_delta fuel digger parent elt_kind obj false = some (.returned res)
          ∧ (res.err = none ↔
              (bottom.bottom_kind = .svn_XML_treedelta ∧ elt_kind = .svn_XML_edit)
                ∨ (bottom.bottom_kind = .svn_XML_edit ∧ elt_kind = .svn_XML_editcontent)
                ∨ (bottom.bottom_kind = .svn_XML_editcontent
                    ∧ (elt_kind = .svn_XML_propdelta ∨ elt_kind = .svn_XML_textdelta
                        ∨ elt_kind = .svn_XML_treedelta)))
          ∧ (res.err ≠ none →
              (∃ message, res.err = some ⟨.SVN_ERR_MALFORMED_XML, message⟩)
                ∧ res.digger = digger ∧ res.parent = parent))
      ∧ (elt_kind ≠ bottom.bottom_kind →
          ∃ message,
            svn_starpend_delta fuel digger parent elt_kind obj true
              = some (.returned ⟨some ⟨.SVN_ERR_MALFORMED_XML, message⟩, digger, parent⟩)) := by
  rcases find_delta_bottom_shape fuel d parent bottom hbottom with
    ⟨he, hb⟩ | ⟨e, he, hc, hb⟩ | ⟨e, c, he, hc, hb⟩
  all_goals
    subst hb
    constructor
    · cases elt_kind <;>
        simp [svn_starpend_delta, hd, hbottom]
    · intro hne
      cases elt_kind <;>
        simp [svn_starpend_delta, hd, hbottom] at hne ⊢

theorem starpend_delta_of_nested (fuel : Nat) (digger : svn_delta_digger_t) (d nested : svn_delta_t)
    (parent : object) (elt_kind : svn_XML_elt_t) (obj : object_of_kind elt_kind)
    (destroy_p : Bool) (hd : digger.delta = some d) (hnested : nested_tree_delta d = some nested) :
    svn_starpend_delta fuel digger parent elt_kind obj destroy_p = none := by
  unfold svn_starpend_delta
  simp only [hd, find_delta_bottom_of_nested d nested hnested fuel parent]

/-- C23: `svn_starpend_delta` begins with the search for the bottom of the delta,
which never returns once the edit content of the delta holds a nested
tree-delta (the recursive call of `svn_find_delta_bottom` hands on the same
delta).  So for a digger whose delta holds a nested tree-delta the call returns
nothing, neither success nor an error, for whatever depth of recursion, kind,
object and mode: the bottom object there is the nested tree-delta, and an edit
appended to it is not accepted, nor is any other kind rejected.  On a delta
without a nested tree-delta the call validates as it should: in append mode it
returns success exactly when the bottom object is a tree-delta and the appended
kind is an edit, or the bottom is an edit and the appended kind is an edit
content, or the bottom is an edit content and the appended kind is a
prop-delta, a text-delta or a tree-delta, and in every other case an error with
the code `SVN_ERR_MALFORMED_XML`, leaving the digger and its delta as they
were; in destroy mode a requested kind that differs from the kind of the bottom
object gives that error and leaves the digger and its delta as they were. -/
theorem starpend_delta_never_returns_below_nested_tree_delta (fuel : Nat)
    (digger : svn_delta_digger_t) (d : svn_delta_t) (parent : object)
    (elt_kind : svn_XML_elt_t) (obj : object_of_kind elt_kind) (destroy_p : Bool)
    (hd : digger.delta = some d) :
    ((nested_tree_delta d).isSome = true →
        svn_starpend_delta fuel digger parent elt_kind obj destroy_p = none)
      ∧ (nested_tree_delta d = none →
          ∃ bottom : delta_bottom,
            svn_find_delta_bottom fuel d parent = some bottom
              ∧ (∃ res : starpend_result,
                  svn_starpend_delta fuel digger parent elt_kind obj false = some (.returned res)
                    ∧ (res.err = none ↔
                        (bottom.bottom_kind = .svn_XML_treedelta ∧ elt_kind = .svn_XML_edit)
                          ∨ (bottom.bottom_kind = .svn_XML_edit
                              ∧ elt_kind = .svn_XML_editcontent)
                          ∨ (bottom.bottom_kind = .svn_XML_editcontent
                              ∧ (elt_kind = .svn_XML_propdelta ∨ elt_kind = .svn_XML_textdelta
                                  ∨ elt_kind = .svn_XML_treedelta)))
                    ∧ (res.err ≠ none →
                        (∃ message, res.err = some ⟨.SVN_ERR_MALFORMED_XML, message⟩)
                          ∧ res.digger = digger ∧ res.parent = parent))
              ∧ (elt_kind ≠ bottom.bottom_kind →
                  ∃ message,
                    svn_starpend_delta fuel digger parent elt_kind obj true
                      = some (.returned
                          ⟨some ⟨.SVN_ERR_MALFORMED_XML, message⟩, digger, parent⟩))) := by
  constructor
  · intro hsome
    obtain ⟨nested, hnested⟩ := Option.isSome_iff_exists.mp hsome
    exact starpend_delta_of_nested fuel digger d nested parent elt_kind obj destroy_p hd hnested
  · intro hflat
    obtain ⟨bottom, hbottom⟩ := find_delta_bottom_returns_of_flat d hflat fuel parent
    obtain ⟨h1, h2⟩ := starpend_delta_by_bottom_kind fuel digger d parent elt_kind obj bottom hd
      hbottom
    exact ⟨bottom, hbottom, h1, h2⟩

theorem starpend_delta_never_returns_below_nested_tree_delta_witness :
    nested_tree_delta sample_nested_delta = some zeroed_delta
      ∧ svn_starpend_delta 1000 { delta := some sample_nested_delta } .null .svn_XML_edit
          (some (zeroed_edit.set_kind .action_new)) false = none
      ∧ svn_starpend_delta 1000 { delta := some sample_nested_delta } .null .svn_XML_propdelta
          () false = none
      ∧ svn_starpend_delta 1000 { delta := some sample_nested_delta } .null .svn_XML_edit
          none true = none
      ∧ ∃ bottom : delta_bottom,
          svn_find_delta_bottom 0 sample_edit_delta .null = some bottom
            ∧ (∃ res : starpend_result,
                svn_starpend_delta 0 { delta := some sample_edit_delta } .null
                    .svn_XML_propdelta () false = some (.returned res)
                  ∧ (res.err = none ↔
                      (bottom.bottom_kind = .svn_XML_treedelta
                          ∧ svn_XML_elt_t.svn_XML_propdelta = .svn_XML_edit)
                        ∨ (bottom.bottom_kind = .svn_XML_edit
                            ∧ svn_XML_elt_t.svn_XML_propdelta = .svn_XML_editcontent)
                        ∨ (bottom.bottom_kind = .svn_XML_editcontent
                            ∧ (svn_XML_elt_t.svn_XML_propdelta = .svn_XML_propdelta
                                ∨ svn_XML_elt_t.svn_XML_propdelta = .svn_XML_textdelta
                                ∨ svn_XML_elt_t.svn_XML_propdelta = .svn_XML_treedelta)))
                  ∧ (res.err ≠ none →
                      (∃ message, res.err = some ⟨.SVN_ERR_MALFORMED_XML, message⟩)
                        ∧ res.digger = { delta := some sample_edit_delta }
                        ∧ res.parent = .null))
            ∧ (svn_XML_elt_t.svn_XML_propdelta ≠ bottom.bottom_kind →
                ∃ message,
                  svn_starpend_delta 0 { delta := some sample_edit_delta } .null
                      .svn_XML_propdelta () true
                    = some (.returned
                        ⟨some ⟨.SVN_ERR_MALFORMED_XML, message⟩,
                         { delta := some sample_edit_delta }, .null⟩)) :=
  ⟨rfl,
   (starpend_delta_never_returns_below_nested_tree_delta 1000
      { delta := some sample_nested_delta } sample_nested_delta .null .svn_XML_edit
      (some (zeroed_edit.set_kind .action_new)) false rfl).1 rfl,
   (starpend_delta_never_returns_below_nested_tree_delta 1000
      { delta := some sample_nested_delta } sample_nested_delta .null .svn_XML_propdelta
      () false rfl).1 rfl,
   (starpend_delta_never_returns_below_nested_tree_delta 1000
      { delta := some sample_nested_delta } sample_nested_delta .null .svn_XML_edit
      none true rfl).1 rfl,
   (starpend_delta_never_returns_below_nested_tree_delta 0
      { delta := some sample_edit_delta } sample_edit_delta .null .svn_XML_propdelta
      () false rfl).2 rfl⟩

/-! ### The dispatch on the name of a start tag -/

theorem strcmp_eq_zero_iff (a b : String) : strcmp a b = 0 ↔ a = b := by
  unfold strcmp
  by_cases h : a = b
  · simp [h]
  · simp only [h, if_false, iff_false]
    split <;> decide

/-- C24: what `svn_xml_handle_start` does with a start tag that carries at least
one attribute string.  The condition of the fifth branch is
`strcmp (name, "replace")`, which holds for every name that is not `replace`:
so every tag that none of the first four branches takes and that is not
`replace` (among them `delete`, `file`, `dir` and all unknown names) builds an
edit with the action `action_replace` and hands it to `svn_append_to_delta`;
neither an edit content is built nor is a handler of the digger called.  The tag
`replace` itself falls through to the sixth branch and builds an edit with the
action `action_delete`. -/
theorem handle_start_takes_other_tags_for_replace (fuel : Nat) (handlers : digger_handlers)
    (svn_append_to_delta : append_to_delta_t) (indeterminate : Option svn_edit_t)
    (parent : object) (my_digger : svn_delta_digger_t) (name first : String)
    (rest : List String)
    (hname : name ≠ "tree-delta" ∧ name ≠ "text-delta" ∧ name ≠ "prop-delta" ∧ name ≠ "new"
      ∧ name ≠ "replace") :
    svn_xml_handle_start fuel handlers svn_append_to_delta indeterminate parent my_digger name
        (first :: rest)
      = some (.returned
          { my_digger with
            delta := (svn_append_to_delta my_digger.delta .svn_XML_edit
              (some (if first = "name" then
                  (zeroed_edit.set_kind .action_replace).set_name (some (String.mk first.data.tail))
                else zeroed_edit.set_kind .action_replace))).2 })
      ∧ svn_xml_handle_start fuel handlers svn_append_to_delta indeterminate parent my_digger
          "replace" (first :: rest)
        = some (.returned
            { my_digger with
              delta := (svn_append_to_delta my_digger.delta .svn_XML_edit
                (some (if first = "name" then
                    (zeroed_edit.set_kind .action_delete).set_name
                      (some (String.mk first.data.tail))
                  else zeroed_edit.set_kind .action_delete))).2 }) := by
  obtain ⟨h1, h2, h3, h4, h5⟩ := hname
  constructor
  · unfold svn_xml_handle_start
    simp only [strcmp_eq_zero_iff, h1, h2, h3, h4, h5, if_false, ne_eq, not_false_eq_true, if_true]
  · unfold svn_xml_handle_start
    simp only [strcmp_eq_zero_iff, if_false, ne_eq, not_true_eq_false, not_false_eq_true, if_true,
      show ("replace" : String) ≠ "tree-delta" by decide,
      show ("replace" : String) ≠ "text-delta" by decide,
      show ("replace" : String) ≠ "prop-delta" by decide,
      show ("replace" : String) ≠ "new" by decide,
      show ("replace" : String) ≠ "delete" by decide]

theorem handle_start_takes_other_tags_for_replace_witness :
    svn_xml_handle_start 0 sample_handlers append_by_starpend none .null
        { delta := some zeroed_delta } "delete" ["name", "foo.c"]
      = some (.returned
          { delta := some (.mk none 0 (some (.mk (some .action_replace) (some "ame") none))) })
      ∧ svn_xml_handle_start 0 sample_handlers append_by_starpend none .null
          { delta := some zeroed_delta } "replace" ["name", "foo.c"]
        = some (.returned
            { delta := some (.mk none 0 (some (.mk (some .action_delete) (some "ame") none))) }) :=
  ⟨(handle_start_takes_other_tags_for_replace 0 sample_handlers append_by_starpend none .null
      { delta := some zeroed_delta } "delete" "name" ["foo.c"] (by decide)).1.trans rfl,
   (handle_start_takes_other_tags_for_replace 0 sample_handlers append_by_starpend none .null
      { delta := some zeroed_delta } "delete" "name" ["foo.c"] (by decide)).2.trans rfl⟩

end DeltaParse

namespace Client

/-! ### Homogeneous target lists -/

theorem assert_homogeneous_loop_spec (svn_path_is_url : String → Bool) (targets : List String) :
    ∀ (wc_present url_present : Bool), (url_present && wc_present) = false →
      (assert_homogeneous_loop svn_path_is_url targets wc_present url_present
          = some mixed_targets_error
        ↔ (url_present = true ∨ ∃ t ∈ targets, svn_path_is_url t = true)
            ∧ (wc_present = true ∨ ∃ t ∈ targets, svn_path_is_url t = false))
      ∧ (assert_homogeneous_loop svn_path_is_url targets wc_present url_present = none
          ∨ assert_homogeneous_loop svn_path_is_url targets wc_present url_present
              = some mixed_targets_error) := by
  induction targets with
  | nil =>
    intro wc url h
    cases wc <;> cases url <;> simp_all [assert_homogeneous_loop]
  | cons t ts ih =>
    intro wc url h
    cases hu : svn_path_is_url t
    · cases url
      · have := ih true false rfl
        simp_all [assert_homogeneous_loop]
      · cases wc
        · simp_all [assert_homogeneous_loop]
        · simp at h
    · cases wc
      · have := ih false true rfl
        simp_all [assert_homogeneous_loop]
      · cases url
        · simp_all [assert_homogeneous_loop]
        · simp at h

/-- C25: `svn_client__assert_homogeneous_target_type` returns the error "Cannot
mix repository and working copy targets", whose code is `SVN_ERR_ILLEGAL_TARGET`,
if and only if the target list holds at least one URL and at least one target
that is not a URL; in every other case it returns success, and it returns
nothing but success or that error: so it returns success for the empty list, for
a list of URLs only and for a list of paths only. -/
theorem assert_homogeneous_target_type_iff_mixed (svn_path_is_url : String → Bool)
    (targets : List String) :
    (svn_client__assert_homogeneous_target_type svn_path_is_url targets
          = some mixed_targets_error
        ↔ (∃ t ∈ targets, svn_path_is_url t = true) ∧ (∃ t ∈ targets, svn_path_is_url t = false))
      ∧ (svn_client__assert_homogeneous_target_type svn_path_is_url targets = none
          ↔ ¬((∃ t ∈ targets, svn_path_is_url t = true)
                ∧ (∃ t ∈ targets, svn_path_is_url t = false)))
      ∧ mixed_targets_error.apr_err = .SVN_ERR_ILLEGAL_TARGET
      ∧ mixed_targets_error.message = "Cannot mix repository and working copy targets"
      ∧ svn_client__assert_homogeneous_target_type svn_path_is_url [] = none
      ∧ ((∀ t ∈ targets, svn_path_is_url t = true) →
          svn_client__assert_homogeneous_target_type svn_path_is_url targets = none)
      ∧ ((∀ t ∈ targets, svn_path_is_url t = false) →
          svn_client__assert_homogeneous_target_type svn_path_is_url targets = none) := by
  obtain ⟨hiff, hor⟩ := assert_homogeneous_loop_spec svn_path_is_url targets false false rfl
  simp only [Bool.false_eq_true, false_or] at hiff
  have hnone : svn_client__assert_homogeneous_target_type svn_path_is_url targets = none
      ↔ ¬((∃ t ∈ targets, svn_path_is_url t = true)
            ∧ (∃ t ∈ targets, svn_path_is_url t = false)) := by
    unfold svn_client__assert_homogeneous_target_type
    rw [← hiff]
    rcases hor with h | h <;> simp [h]
  refine ⟨hiff, hnone, rfl, rfl, rfl, ?_, ?_⟩
  · intro hall
    rw [hnone]
    rintro ⟨_, ⟨t, ht, hf⟩⟩
    rw [hall t ht] at hf
    cases hf
  · intro hall
    rw [hnone]
    rintro ⟨⟨t, ht, hf⟩, _⟩
    rw [hall t ht] at hf
    cases hf

/-! ### Defaults for an unspecified revision -/

/-- C26: each of `svn_cl__rev_default_to_head_or_base`,
`svn_cl__rev_default_to_head_or_working` and `svn_cl__rev_default_to_peg`
returns the given revision when its kind is not `unspecified`; for an
unspecified revision they return head for a URL and base for a path, head for a
URL and working for a path, and the peg revision.  The defaults of the first two
are specified revisions, and each of the three functions is idempotent in its
revision argument (the third also for an unspecified peg revision). -/
theorem rev_default_fills_in_unspecified_only (svn_path_is_url : String → Bool)
    (revision peg_revision : svn_opt_revision_t) (path_or_url : String) :
    (revision.kind ≠ .svn_opt_revision_unspecified →
        svn_cl__rev_default_to_head_or_base svn_path_is_url revision path_or_url = revision
          ∧ svn_cl__rev_default_to_head_or_working svn_path_is_url revision path_or_url = revision
          ∧ svn_cl__rev_default_to_peg revision peg_revision = revision)
      ∧ (revision.kind = .svn_opt_revision_unspecified →
          svn_cl__rev_default_to_head_or_base svn_path_is_url revision path_or_url
              = (if svn_path_is_url path_or_url then head_rev else base_rev)
            ∧ svn_cl__rev_default_to_head_or_working svn_path_is_url revision path_or_url
              = (if svn_path_is_url path_or_url then head_rev else work_rev)
            ∧ svn_cl__rev_default_to_peg revision peg_revision = peg_revision)
      ∧ (head_rev.kind = .svn_opt_revision_head ∧ base_rev.kind = .svn_opt_revision_base
          ∧ work_rev.kind = .svn_opt_revision_working)
      ∧ svn_cl__rev_default_to_head_or_base svn_path_is_url
            (svn_cl__rev_default_to_head_or_base svn_path_is_url revision path_or_url) path_or_url
          = svn_cl__rev_default_to_head_or_base svn_path_is_url revision path_or_url
      ∧ svn_cl__rev_default_to_head_or_working svn_path_is_url
            (svn_cl__rev_default_to_head_or_working svn_path_is_url revision path_or_url)
            path_or_url
          = svn_cl__rev_default_to_head_or_working svn_path_is_url revision path_or_url
      ∧ svn_cl__rev_default_to_peg (svn_cl__rev_default_to_peg revision peg_revision) peg_revision
          = svn_cl__rev_default_to_peg revision peg_revision := by
  refine ⟨?_, ?_, ⟨rfl, rfl, rfl⟩, ?_, ?_, ?_⟩
  · intro h
    simp [svn_cl__rev_default_to_head_or_base, svn_cl__rev_default_to_head_or_working,
      svn_cl__rev_default_to_peg, h]
  · intro h
    simp [svn_cl__rev_default_to_head_or_base, svn_cl__rev_default_to_head_or_working,
      svn_cl__rev_default_to_peg, h]
  · unfold svn_cl__rev_default_to_head_or_base
    by_cases h : revision.kind = .svn_opt_revision_unspecified
    · cases svn_path_is_url path_or_url <;> simp [h, head_rev, base_rev]
    · simp [h]
  · unfold svn_cl__rev_default_to_head_or_working
    by_cases h : revision.kind = .svn_opt_revision_unspecified
    · cases svn_path_is_url path_or_url <;> simp [h, head_rev, work_rev]
    · simp [h]
  · unfold svn_cl__rev_default_to_peg
    by_cases h : revision.kind = .svn_opt_revision_unspecified
    · by_cases hp : peg_revision.kind = .svn_opt_revision_unspecified <;> simp [h, hp]
    · simp [h]

theorem rev_default_fills_in_unspecified_only_witness :
    (svn_cl__rev_default_to_head_or_base sample_is_url
          { kind := .svn_opt_revision_number, value := 42 } "http://svn.example.org/repos"
        = { kind := .svn_opt_revision_number, value := 42 }
      ∧ svn_cl__rev_default_to_head_or_working sample_is_url
          { kind := .svn_opt_revision_number, value := 42 } "http://svn.example.org/repos"
        = { kind := .svn_opt_revision_number, value := 42 }
      ∧ svn_cl__rev_default_to_peg { kind := .svn_opt_revision_number, value := 42 }
          { kind := .svn_opt_revision_committed, value := 0 }
        = { kind := .svn_opt_revision_number, value := 42 })
      ∧ (svn_cl__rev_default_to_head_or_base sample_is_url
            { kind := .svn_opt_revision_unspecified, value := 0 } "wc/trunk/README"
          = (if sample_is_url "wc/trunk/README" then head_rev else base_rev)
        ∧ svn_cl__rev_default_to_head_or_working sample_is_url
            { kind := .svn_opt_revision_unspecified, value := 0 } "wc/trunk/README"
          = (if sample_is_url "wc/trunk/README" then head_rev else work_rev)
        ∧ svn_cl__rev_default_to_peg { kind := .svn_opt_revision_unspecified, value := 0 }
            { kind := .svn_opt_revision_committed, value := 0 }
          = { kind := .svn_opt_revision_committed, value := 0 }) :=
  ⟨(rev_default_fills_in_unspecified_only sample_is_url
      { kind := .svn_opt_revision_number, value := 42 }
      { kind := .svn_opt_revision_committed, value := 0 } "http://svn.example.org/repos").1
      (by decide),
   (rev_default_fills_in_unspecified_only sample_is_url
      { kind := .svn_opt_revision_unspecified, value := 0 }
      { kind := .svn_opt_revision_committed, value := 0 } "wc/trunk/README").2.1 rfl⟩

theorem assert_homogeneous_target_type_iff_mixed_witness :
    svn_client__assert_homogeneous_target_type sample_is_url
        ["wc/trunk/README", "http://svn.example.org/repos", "wc/trunk/INSTALL"]
      = some mixed_targets_error
      ∧ svn_client__assert_homogeneous_target_type sample_is_url
          ["wc/trunk/README", "wc/trunk/INSTALL"] = none
      ∧ svn_client__assert_homogeneous_target_type sample_is_url
          ["http://svn.example.org/repos", "svn://svn.example.org/x"] = none :=
  ⟨(assert_homogeneous_target_type_iff_mixed sample_is_url
      ["wc/trunk/README", "http://svn.example.org/repos", "wc/trunk/INSTALL"]).1.mpr
      ⟨⟨"http://svn.example.org/repos", by decide, by decide⟩,
       ⟨"wc/trunk/README", by decide, by decide⟩⟩,
   (assert_homogeneous_target_type_iff_mixed sample_is_url
      ["wc/trunk/README", "wc/trunk/INSTALL"]).2.2.2.2.2.2 (by decide),
   (assert_homogeneous_target_type_iff_mixed sample_is_url
      ["http://svn.example.org/repos", "svn://svn.example.org/x"]).2.2.2.2.2.1 (by decide)⟩

end Client
